import Mathlib

/-!
Shallow embedding of the LogicSF1304 logistics/ERP server: the entity
records of `shared/schema.ts`, the in-memory storage class `MemStorage`
(including its seeded initial data), and the Express route handlers of
`server/routes.ts` that the claims refer to.

Modelling conventions:
* JavaScript `Map<number, T>` is modelled as a `List T` in insertion
  order, keyed by the record's `id` field (`mapGet`, `mapSet`,
  `mapDelete` mirror `Map.get`, `Map.set`, `Map.delete`; `set` on an
  existing key replaces the entry in place, as a JS `Map` does).
* JavaScript numbers in quantity/stock/amount fields are modelled as
  `Int`: every value the program's claims manipulate is an integer,
  and integer arithmetic in IEEE doubles is exact in this range, so
  the bookkeeping arithmetic coincides.  The price fields the program
  only ever stores (`cost`, `unitPrice`, `totalPrice`, `totalAmount`)
  are `Rat`, which represents the seeded decimal literals exactly.
  Identifier and foreign-key fields are `Nat`; timestamps are `Int`
  milliseconds, with the current time passed in as a `now` parameter
  wherever the source calls `new Date()` / `Date.now()`.
* Request bodies are association lists of JSON values; the `parse...`
  functions mirror the Zod insert schemas (fields of `NOT NULL` columns
  are required, nullable columns are optional/nullable).  Integer-typed
  JSON fields are modelled as integral numbers.  Fields that carry a
  column default are modelled as required where no claim depends on
  their absence.
* HTTP handlers return the response status code paired with the store
  after the request.
-/

namespace LogicSF

/-- A JSON scalar as it appears in the request bodies the server reads. -/
inductive Jval where
  | str (s : String)
  | num (n : Int)
  | nul
  deriving DecidableEq, Repr

/-- A request body: an association list of field names to JSON values. -/
def Body := List (String × Jval)

/-- Field lookup in a request body (first occurrence wins). -/
def jget (b : Body) (k : String) : Option Jval :=
  (b.find? (fun kv => kv.1 == k)).map (fun kv => kv.2)

/-- `{...req.body, field: v}`: the merged body in which `field` reads as `v`. -/
def jset (b : Body) (k : String) (v : Jval) : Body := (k, v) :: b

/-- `Map.get(i)` on a list of records keyed by `key`. -/
def mapGet (key : α → Nat) (i : Nat) (l : List α) : Option α :=
  l.find? (fun x => key x == i)

/-- `Map.set(key x, x)`: replace the entry with that key in place, or append. -/
def mapSet (key : α → Nat) (x : α) : List α → List α
  | [] => [x]
  | y :: ys => if key y == key x then x :: ys else y :: mapSet key x ys

/-- `Map.delete(i)`: remove the entry with key `i`, reporting whether it existed. -/
def mapDelete (key : α → Nat) (i : Nat) : List α → Bool × List α
  | [] => (false, [])
  | y :: ys =>
    if key y == i then (true, ys)
    else
      let r := mapDelete key i ys
      (r.1, y :: r.2)

/-! ### Entity records (`shared/schema.ts`) -/

structure User where
  id : Nat
  username : String
  password : String
  fullName : String
  role : String
  department : Option String
  email : Option String
  deriving DecidableEq, Repr

structure InsertUser where
  username : String
  password : String
  fullName : String
  role : String
  department : Option String
  email : Option String
  deriving DecidableEq, Repr

structure Supplier where
  id : Nat
  name : String
  contact : Option String
  email : Option String
  phone : Option String
  address : Option String
  taxId : Option String
  notes : Option String
  status : String
  createdAt : Int
  deriving DecidableEq, Repr

structure InsertSupplier where
  name : String
  contact : Option String
  email : Option String
  phone : Option String
  address : Option String
  taxId : Option String
  notes : Option String
  status : String
  deriving DecidableEq, Repr

structure PartialSupplier where
  name : Option String
  contact : Option (Option String)
  email : Option (Option String)
  phone : Option (Option String)
  address : Option (Option String)
  taxId : Option (Option String)
  notes : Option (Option String)
  status : Option String
  deriving DecidableEq, Repr

structure Product where
  id : Nat
  code : String
  name : String
  description : Option String
  category : String
  unit : String
  minStock : Int
  currentStock : Int
  location : Option String
  cost : Option Rat
  supplierId : Option Nat
  createdAt : Int
  deriving DecidableEq, Repr

structure InsertProduct where
  code : String
  name : String
  description : Option String
  category : String
  unit : String
  minStock : Int
  currentStock : Int
  location : Option String
  cost : Option Rat
  supplierId : Option Nat
  deriving DecidableEq, Repr

structure PartialProduct where
  code : Option String
  name : Option String
  description : Option (Option String)
  category : Option String
  unit : Option String
  minStock : Option Int
  currentStock : Option Int
  location : Option (Option String)
  cost : Option (Option Rat)
  supplierId : Option (Option Nat)
  deriving DecidableEq, Repr

structure Requirement where
  id : Nat
  code : String
  title : String
  requestorId : Nat
  departmentId : String
  status : String
  priority : String
  notes : Option String
  dueDate : Option Int
  createdAt : Int
  deriving DecidableEq, Repr

structure InsertRequirement where
  code : String
  title : String
  requestorId : Nat
  departmentId : String
  status : String
  priority : String
  notes : Option String
  dueDate : Option Int
  deriving DecidableEq, Repr

structure PartialRequirement where
  code : Option String
  title : Option String
  requestorId : Option Nat
  departmentId : Option String
  status : Option String
  priority : Option String
  notes : Option (Option String)
  dueDate : Option (Option Int)
  deriving DecidableEq, Repr

structure RequirementDetail where
  id : Nat
  requirementId : Nat
  productId : Nat
  quantity : Int
  unit : String
  notes : Option String
  status : String
  deriving DecidableEq, Repr

structure InsertRequirementDetail where
  requirementId : Nat
  productId : Nat
  quantity : Int
  unit : String
  notes : Option String
  status : String
  deriving DecidableEq, Repr

structure PartialRequirementDetail where
  requirementId : Option Nat
  productId : Option Nat
  quantity : Option Int
  unit : Option String
  notes : Option (Option String)
  status : Option String
  deriving DecidableEq, Repr

structure PurchaseOrder where
  id : Nat
  code : String
  title : String
  supplierId : Nat
  requirementId : Option Nat
  status : String
  totalAmount : Option Rat
  currency : Option String
  notes : Option String
  expectedDeliveryDate : Option Int
  createdBy : Option Nat
  createdAt : Int
  deriving DecidableEq, Repr

structure InsertPurchaseOrder where
  code : String
  title : String
  supplierId : Nat
  requirementId : Option Nat
  status : String
  totalAmount : Option Rat
  currency : Option String
  notes : Option String
  expectedDeliveryDate : Option Int
  createdBy : Option Nat
  deriving DecidableEq, Repr

structure PartialPurchaseOrder where
  code : Option String
  title : Option String
  supplierId : Option Nat
  requirementId : Option (Option Nat)
  status : Option String
  totalAmount : Option (Option Rat)
  currency : Option (Option String)
  notes : Option (Option String)
  expectedDeliveryDate : Option (Option Int)
  createdBy : Option (Option Nat)
  deriving DecidableEq, Repr

structure PurchaseOrderDetail where
  id : Nat
  purchaseOrderId : Nat
  productId : Nat
  quantity : Int
  unit : String
  unitPrice : Rat
  totalPrice : Rat
  notes : Option String
  deriving DecidableEq, Repr

structure InsertPurchaseOrderDetail where
  purchaseOrderId : Nat
  productId : Nat
  quantity : Int
  unit : String
  unitPrice : Rat
  totalPrice : Rat
  notes : Option String
  deriving DecidableEq, Repr

structure PartialPurchaseOrderDetail where
  purchaseOrderId : Option Nat
  productId : Option Nat
  quantity : Option Int
  unit : Option String
  unitPrice : Option Rat
  totalPrice : Option Rat
  notes : Option (Option String)
  deriving DecidableEq, Repr

structure Reception where
  id : Nat
  code : String
  purchaseOrderId : Option Nat
  supplierId : Nat
  status : String
  notes : Option String
  receivedBy : Option Nat
  receivedAt : Int
  createdAt : Int
  deriving DecidableEq, Repr

structure InsertReception where
  code : String
  purchaseOrderId : Option Nat
  supplierId : Nat
  status : String
  notes : Option String
  receivedBy : Option Nat
  receivedAt : Int
  deriving DecidableEq, Repr

structure PartialReception where
  code : Option String
  purchaseOrderId : Option (Option Nat)
  supplierId : Option Nat
  status : Option String
  notes : Option (Option String)
  receivedBy : Option (Option Nat)
  receivedAt : Option Int
  deriving DecidableEq, Repr

structure ReceptionDetail where
  id : Nat
  receptionId : Nat
  purchaseOrderDetailId : Option Nat
  productId : Nat
  quantityExpected : Int
  quantityReceived : Int
  unit : String
  notes : Option String
  status : String
  deriving DecidableEq, Repr

structure InsertReceptionDetail where
  receptionId : Nat
  purchaseOrderDetailId : Option Nat
  productId : Nat
  quantityExpected : Int
  quantityReceived : Int
  unit : String
  notes : Option String
  status : String
  deriving DecidableEq, Repr

structure PartialReceptionDetail where
  receptionId : Option Nat
  purchaseOrderDetailId : Option (Option Nat)
  productId : Option Nat
  quantityExpected : Option Int
  quantityReceived : Option Int
  unit : Option String
  notes : Option (Option String)
  status : Option String
  deriving DecidableEq, Repr

structure InventoryMovement where
  id : Nat
  productId : Nat
  quantity : Int
  unit : String
  movementType : String
  referenceId : Option Nat
  referenceType : Option String
  notes : Option String
  createdBy : Option Nat
  createdAt : Int
  deriving DecidableEq, Repr

structure InsertInventoryMovement where
  productId : Nat
  quantity : Int
  unit : String
  movementType : String
  referenceId : Option Nat
  referenceType : Option String
  notes : Option String
  createdBy : Option Nat
  deriving DecidableEq, Repr

structure Output where
  id : Nat
  code : String
  destination : String
  destinationType : String
  status : String
  notes : Option String
  requestedBy : Option Nat
  approvedBy : Option Nat
  createdAt : Int
  deriving DecidableEq, Repr

structure InsertOutput where
  code : String
  destination : String
  destinationType : String
  status : String
  notes : Option String
  requestedBy : Option Nat
  approvedBy : Option Nat
  deriving DecidableEq, Repr

structure PartialOutput where
  code : Option String
  destination : Option String
  destinationType : Option String
  status : Option String
  notes : Option (Option String)
  requestedBy : Option (Option Nat)
  approvedBy : Option (Option Nat)
  deriving DecidableEq, Repr

structure OutputDetail where
  id : Nat
  outputId : Nat
  productId : Nat
  quantity : Int
  unit : String
  notes : Option String
  status : String
  deriving DecidableEq, Repr

structure InsertOutputDetail where
  outputId : Nat
  productId : Nat
  quantity : Int
  unit : String
  notes : Option String
  status : String
  deriving DecidableEq, Repr

structure PartialOutputDetail where
  outputId : Option Nat
  productId : Option Nat
  quantity : Option Int
  unit : Option String
  notes : Option (Option String)
  status : Option String
  deriving DecidableEq, Repr

structure Invoice where
  id : Nat
  code : String
  supplierInvoiceNumber : Option String
  supplierId : Nat
  purchaseOrderId : Option Nat
  amount : Int
  currency : Option String
  status : String
  issueDate : Int
  dueDate : Int
  notes : Option String
  createdAt : Int
  deriving DecidableEq, Repr

structure InsertInvoice where
  code : String
  supplierInvoiceNumber : Option String
  supplierId : Nat
  purchaseOrderId : Option Nat
  amount : Int
  currency : Option String
  status : String
  issueDate : Int
  dueDate : Int
  notes : Option String
  deriving DecidableEq, Repr

structure PartialInvoice where
  code : Option String
  supplierInvoiceNumber : Option (Option String)
  supplierId : Option Nat
  purchaseOrderId : Option (Option Nat)
  amount : Option Int
  currency : Option (Option String)
  status : Option String
  issueDate : Option Int
  dueDate : Option Int
  notes : Option (Option String)
  deriving DecidableEq, Repr

structure SystemActivity where
  id : Nat
  userId : Option Nat
  activityType : String
  description : String
  entityType : String
  entityId : Option Nat
  createdAt : Int
  deriving DecidableEq, Repr

structure InsertSystemActivity where
  userId : Option Nat
  activityType : String
  description : String
  entityType : String
  entityId : Option Nat
  deriving DecidableEq, Repr

/-! ### The in-memory store (`MemStorage` fields) -/

structure Store where
  users : List User
  suppliers : List Supplier
  products : List Product
  requirements : List Requirement
  requirementDetails : List RequirementDetail
  purchaseOrders : List PurchaseOrder
  purchaseOrderDetails : List PurchaseOrderDetail
  receptions : List Reception
  receptionDetails : List ReceptionDetail
  inventoryMovements : List InventoryMovement
  outputs : List Output
  outputDetails : List OutputDetail
  invoices : List Invoice
  systemActivities : List SystemActivity
  userId : Nat
  supplierId : Nat
  productId : Nat
  requirementId : Nat
  requirementDetailId : Nat
  purchaseOrderId : Nat
  purchaseOrderDetailId : Nat
  receptionId : Nat
  receptionDetailId : Nat
  inventoryMovementId : Nat
  outputId : Nat
  outputDetailId : Nat
  invoiceId : Nat
  systemActivityId : Nat
  deriving DecidableEq, Repr

/-- The maps and counters as initialised in the `MemStorage` constructor,
before the admin user and the seed data are inserted. -/
def emptyStore : Store :=
  ⟨[], [], [], [], [], [], [], [], [], [], [], [], [], [],
   1, 1, 1, 1, 1, 1, 1, 1, 1, 1, 1, 1, 1, 1⟩

/-! ### Object-spread patches: `{ ...existing, ...partial }`.
A field present in the partial body overwrites the existing field; every
absent field — in particular `id` and `createdAt`, which the insert
schemas omit — is left as it was. -/

def patchSupplier (e : Supplier) (p : PartialSupplier) : Supplier :=
  { e with
    name := p.name.getD e.name
    contact := p.contact.getD e.contact
    email := p.email.getD e.email
    phone := p.phone.getD e.phone
    address := p.address.getD e.address
    taxId := p.taxId.getD e.taxId
    notes := p.notes.getD e.notes
    status := p.status.getD e.status }

def patchProduct (e : Product) (p : PartialProduct) : Product :=
  { e with
    code := p.code.getD e.code
    name := p.name.getD e.name
    description := p.description.getD e.description
    category := p.category.getD e.category
    unit := p.unit.getD e.unit
    minStock := p.minStock.getD e.minStock
    currentStock := p.currentStock.getD e.currentStock
    location := p.location.getD e.location
    cost := p.cost.getD e.cost
    supplierId := p.supplierId.getD e.supplierId }

def patchRequirement (e : Requirement) (p : PartialRequirement) : Requirement :=
  { e with
    code := p.code.getD e.code
    title := p.title.getD e.title
    requestorId := p.requestorId.getD e.requestorId
    departmentId := p.departmentId.getD e.departmentId
    status := p.status.getD e.status
    priority := p.priority.getD e.priority
    notes := p.notes.getD e.notes
    dueDate := p.dueDate.getD e.dueDate }

def patchRequirementDetail (e : RequirementDetail) (p : PartialRequirementDetail) :
    RequirementDetail :=
  { e with
    requirementId := p.requirementId.getD e.requirementId
    productId := p.productId.getD e.productId
    quantity := p.quantity.getD e.quantity
    unit := p.unit.getD e.unit
    notes := p.notes.getD e.notes
    status := p.status.getD e.status }

def patchPurchaseOrder (e : PurchaseOrder) (p : PartialPurchaseOrder) : PurchaseOrder :=
  { e with
    code := p.code.getD e.code
    title := p.title.getD e.title
    supplierId := p.supplierId.getD e.supplierId
    requirementId := p.requirementId.getD e.requirementId
    status := p.status.getD e.status
    totalAmount := p.totalAmount.getD e.totalAmount
    currency := p.currency.getD e.currency
    notes := p.notes.getD e.notes
    expectedDeliveryDate := p.expectedDeliveryDate.getD e.expectedDeliveryDate
    createdBy := p.createdBy.getD e.createdBy }

def patchPurchaseOrderDetail (e : PurchaseOrderDetail) (p : PartialPurchaseOrderDetail) :
    PurchaseOrderDetail :=
  { e with
    purchaseOrderId := p.purchaseOrderId.getD e.purchaseOrderId
    productId := p.productId.getD e.productId
    quantity := p.quantity.getD e.quantity
    unit := p.unit.getD e.unit
    unitPrice := p.unitPrice.getD e.unitPrice
    totalPrice := p.totalPrice.getD e.totalPrice
    notes := p.notes.getD e.notes }

def patchReception (e : Reception) (p : PartialReception) : Reception :=
  { e with
    code := p.code.getD e.code
    purchaseOrderId := p.purchaseOrderId.getD e.purchaseOrderId
    supplierId := p.supplierId.getD e.supplierId
    status := p.status.getD e.status
    notes := p.notes.getD e.notes
    receivedBy := p.receivedBy.getD e.receivedBy
    receivedAt := p.receivedAt.getD e.receivedAt }

def patchReceptionDetail (e : ReceptionDetail) (p : PartialReceptionDetail) :
    ReceptionDetail :=
  { e with
    receptionId := p.receptionId.getD e.receptionId
    purchaseOrderDetailId := p.purchaseOrderDetailId.getD e.purchaseOrderDetailId
    productId := p.productId.getD e.productId
    quantityExpected := p.quantityExpected.getD e.quantityExpected
    quantityReceived := p.quantityReceived.getD e.quantityReceived
    unit := p.unit.getD e.unit
    notes := p.notes.getD e.notes
    status := p.status.getD e.status }

def patchOutput (e : Output) (p : PartialOutput) : Output :=
  { e with
    code := p.code.getD e.code
    destination := p.destination.getD e.destination
    destinationType := p.destinationType.getD e.destinationType
    status := p.status.getD e.status
    notes := p.notes.getD e.notes
    requestedBy := p.requestedBy.getD e.requestedBy
    approvedBy := p.approvedBy.getD e.approvedBy }

def patchOutputDetail (e : OutputDetail) (p : PartialOutputDetail) : OutputDetail :=
  { e with
    outputId := p.outputId.getD e.outputId
    productId := p.productId.getD e.productId
    quantity := p.quantity.getD e.quantity
    unit := p.unit.getD e.unit
    notes := p.notes.getD e.notes
    status := p.status.getD e.status }

def patchInvoice (e : Invoice) (p : PartialInvoice) : Invoice :=
  { e with
    code := p.code.getD e.code
    supplierInvoiceNumber := p.supplierInvoiceNumber.getD e.supplierInvoiceNumber
    supplierId := p.supplierId.getD e.supplierId
    purchaseOrderId := p.purchaseOrderId.getD e.purchaseOrderId
    amount := p.amount.getD e.amount
    currency := p.currency.getD e.currency
    status := p.status.getD e.status
    issueDate := p.issueDate.getD e.issueDate
    dueDate := p.dueDate.getD e.dueDate
    notes := p.notes.getD e.notes }

/-! ### `MemStorage` operations -/

def getUser (id : Nat) (st : Store) : Option User := mapGet User.id id st.users

def createUser (u : InsertUser) (st : Store) : User × Store :=
  let id := st.userId
  let newUser : User := ⟨id, u.username, u.password, u.fullName, u.role, u.department, u.email⟩
  (newUser, { st with users := mapSet User.id newUser st.users, userId := id + 1 })

def getSupplier (id : Nat) (st : Store) : Option Supplier := mapGet Supplier.id id st.suppliers

def createSupplier (s : InsertSupplier) (now : Int) (st : Store) : Supplier × Store :=
  let id := st.supplierId
  let newSupplier : Supplier :=
    ⟨id, s.name, s.contact, s.email, s.phone, s.address, s.taxId, s.notes, s.status, now⟩
  (newSupplier,
   { st with suppliers := mapSet Supplier.id newSupplier st.suppliers, supplierId := id + 1 })

def updateSupplier (id : Nat) (p : PartialSupplier) (st : Store) : Option Supplier × Store :=
  match mapGet Supplier.id id st.suppliers with
  | none => (none, st)
  | some existingSupplier =>
    let updatedSupplier := patchSupplier existingSupplier p
    (some updatedSupplier,
     { st with suppliers := mapSet Supplier.id updatedSupplier st.suppliers })

def deleteSupplier (id : Nat) (st : Store) : Bool × Store :=
  let r := mapDelete Supplier.id id st.suppliers
  (r.1, { st with suppliers := r.2 })

def getProduct (id : Nat) (st : Store) : Option Product := mapGet Product.id id st.products

def getProductsWithLowStock (st : Store) : List Product :=
  st.products.filter (fun product => product.currentStock ≤ product.minStock)

def createProduct (p : InsertProduct) (now : Int) (st : Store) : Product × Store :=
  let id := st.productId
  let newProduct : Product :=
    ⟨id, p.code, p.name, p.description, p.category, p.unit, p.minStock, p.currentStock,
     p.location, p.cost, p.supplierId, now⟩
  (newProduct,
   { st with products := mapSet Product.id newProduct st.products, productId := id + 1 })

def updateProduct (id : Nat) (p : PartialProduct) (st : Store) : Option Product × Store :=
  match mapGet Product.id id st.products with
  | none => (none, st)
  | some existingProduct =>
    let updatedProduct := patchProduct existingProduct p
    (some updatedProduct,
     { st with products := mapSet Product.id updatedProduct st.products })

def updateProductStock (id : Nat) (quantity : Int) (st : Store) : Option Product × Store :=
  match mapGet Product.id id st.products with
  | none => (none, st)
  | some existingProduct =>
    let updatedProduct :=
      { existingProduct with currentStock := existingProduct.currentStock + quantity }
    (some updatedProduct,
     { st with products := mapSet Product.id updatedProduct st.products })

def deleteProduct (id : Nat) (st : Store) : Bool × Store :=
  let r := mapDelete Product.id id st.products
  (r.1, { st with products := r.2 })

def getRequirement (id : Nat) (st : Store) : Option Requirement :=
  mapGet Requirement.id id st.requirements

def getPendingRequirements (st : Store) : List Requirement :=
  st.requirements.filter (fun requirement => requirement.status == "pending")

def createRequirement (r : InsertRequirement) (now : Int) (st : Store) : Requirement × Store :=
  let id := st.requirementId
  let newRequirement : Requirement :=
    ⟨id, r.code, r.title, r.requestorId, r.departmentId, r.status, r.priority, r.notes,
     r.dueDate, now⟩
  (newRequirement,
   { st with requirements := mapSet Requirement.id newRequirement st.requirements,
             requirementId := id + 1 })

def updateRequirement (id : Nat) (p : PartialRequirement) (st : Store) :
    Option Requirement × Store :=
  match mapGet Requirement.id id st.requirements with
  | none => (none, st)
  | some existingRequirement =>
    let updatedRequirement := patchRequirement existingRequirement p
    (some updatedRequirement,
     { st with requirements := mapSet Requirement.id updatedRequirement st.requirements })

def deleteRequirement (id : Nat) (st : Store) : Bool × Store :=
  let r := mapDelete Requirement.id id st.requirements
  (r.1, { st with requirements := r.2 })

def getRequirementDetails (requirementId : Nat) (st : Store) : List RequirementDetail :=
  st.requirementDetails.filter (fun detail => detail.requirementId == requirementId)

def createRequirementDetail (d : InsertRequirementDetail) (st : Store) :
    RequirementDetail × Store :=
  let id := st.requirementDetailId
  let newDetail : RequirementDetail :=
    ⟨id, d.requirementId, d.productId, d.quantity, d.unit, d.notes, d.status⟩
  (newDetail,
   { st with requirementDetails := mapSet RequirementDetail.id newDetail st.requirementDetails,
             requirementDetailId := id + 1 })

def updateRequirementDetail (id : Nat) (p : PartialRequirementDetail) (st : Store) :
    Option RequirementDetail × Store :=
  match mapGet RequirementDetail.id id st.requirementDetails with
  | none => (none, st)
  | some existingDetail =>
    let updatedDetail := patchRequirementDetail existingDetail p
    (some updatedDetail,
     { st with requirementDetails := mapSet RequirementDetail.id updatedDetail st.requirementDetails })

def deleteRequirementDetail (id : Nat) (st : Store) : Bool × Store :=
  let r := mapDelete RequirementDetail.id id st.requirementDetails
  (r.1, { st with requirementDetails := r.2 })

def getPurchaseOrder (id : Nat) (st : Store) : Option PurchaseOrder :=
  mapGet PurchaseOrder.id id st.purchaseOrders

def getActivePurchaseOrders (st : Store) : List PurchaseOrder :=
  st.purchaseOrders.filter (fun order => ["pending", "confirmed"].contains order.status)

def getDelayedPurchaseOrders (now : Int) (st : Store) : List PurchaseOrder :=
  st.purchaseOrders.filter (fun order =>
    ["pending", "confirmed"].contains order.status &&
    match order.expectedDeliveryDate with
    | some d => d < now
    | none => false)

def createPurchaseOrder (o : InsertPurchaseOrder) (now : Int) (st : Store) :
    PurchaseOrder × Store :=
  let id := st.purchaseOrderId
  let newOrder : PurchaseOrder :=
    ⟨id, o.code, o.title, o.supplierId, o.requirementId, o.status, o.totalAmount, o.currency,
     o.notes, o.expectedDeliveryDate, o.createdBy, now⟩
  (newOrder,
   { st with purchaseOrders := mapSet PurchaseOrder.id newOrder st.purchaseOrders,
             purchaseOrderId := id + 1 })

def updatePurchaseOrder (id : Nat) (p : PartialPurchaseOrder) (st : Store) :
    Option PurchaseOrder × Store :=
  match mapGet PurchaseOrder.id id st.purchaseOrders with
  | none => (none, st)
  | some existingOrder =>
    let updatedOrder := patchPurchaseOrder existingOrder p
    (some updatedOrder,
     { st with purchaseOrders := mapSet PurchaseOrder.id updatedOrder st.purchaseOrders })

def deletePurchaseOrder (id : Nat) (st : Store) : Bool × Store :=
  let r := mapDelete PurchaseOrder.id id st.purchaseOrders
  (r.1, { st with purchaseOrders := r.2 })

def getPurchaseOrderDetails (purchaseOrderId : Nat) (st : Store) : List PurchaseOrderDetail :=
  st.purchaseOrderDetails.filter (fun detail => detail.purchaseOrderId == purchaseOrderId)

def createPurchaseOrderDetail (d : InsertPurchaseOrderDetail) (st : Store) :
    PurchaseOrderDetail × Store :=
  let id := st.purchaseOrderDetailId
  let newDetail : PurchaseOrderDetail :=
    ⟨id, d.purchaseOrderId, d.productId, d.quantity, d.unit, d.unitPrice, d.totalPrice, d.notes⟩
  (newDetail,
   { st with purchaseOrderDetails := mapSet PurchaseOrderDetail.id newDetail st.purchaseOrderDetails,
             purchaseOrderDetailId := id + 1 })

def updatePurchaseOrderDetail (id : Nat) (p : PartialPurchaseOrderDetail) (st : Store) :
    Option PurchaseOrderDetail × Store :=
  match mapGet PurchaseOrderDetail.id id st.purchaseOrderDetails with
  | none => (none, st)
  | some existingDetail =>
    let updatedDetail := patchPurchaseOrderDetail existingDetail p
    (some updatedDetail,
     { st with purchaseOrderDetails := mapSet PurchaseOrderDetail.id updatedDetail st.purchaseOrderDetails })

def deletePurchaseOrderDetail (id : Nat) (st : Store) : Bool × Store :=
  let r := mapDelete PurchaseOrderDetail.id id st.purchaseOrderDetails
  (r.1, { st with purchaseOrderDetails := r.2 })

def getReception (id : Nat) (st : Store) : Option Reception := mapGet Reception.id id st.receptions

def getScheduledReceptions (now : Int) (st : Store) : List Reception :=
  let nextWeek := now + 7 * 24 * 60 * 60 * 1000
  st.receptions.filter (fun reception =>
    reception.status == "scheduled" &&
    now < reception.receivedAt && reception.receivedAt < nextWeek)

def createReception (r : InsertReception) (now : Int) (st : Store) : Reception × Store :=
  let id := st.receptionId
  let newReception : Reception :=
    ⟨id, r.code, r.purchaseOrderId, r.supplierId, r.status, r.notes, r.receivedBy,
     r.receivedAt, now⟩
  (newReception,
   { st with receptions := mapSet Reception.id newReception st.receptions,
             receptionId := id + 1 })

def updateReception (id : Nat) (p : PartialReception) (st : Store) :
    Option Reception × Store :=
  match mapGet Reception.id id st.receptions with
  | none => (none, st)
  | some existingReception =>
    let updatedReception := patchReception existingReception p
    (some updatedReception,
     { st with receptions := mapSet Reception.id updatedReception st.receptions })

def deleteReception (id : Nat) (st : Store) : Bool × Store :=
  let r := mapDelete Reception.id id st.receptions
  (r.1, { st with receptions := r.2 })

def getReceptionDetails (receptionId : Nat) (st : Store) : List ReceptionDetail :=
  st.receptionDetails.filter (fun detail => detail.receptionId == receptionId)

def createReceptionDetail (d : InsertReceptionDetail) (st : Store) : ReceptionDetail × Store :=
  let id := st.receptionDetailId
  let newDetail : ReceptionDetail :=
    ⟨id, d.receptionId, d.purchaseOrderDetailId, d.productId, d.quantityExpected,
     d.quantityReceived, d.unit, d.notes, d.status⟩
  (newDetail,
   { st with receptionDetails := mapSet ReceptionDetail.id newDetail st.receptionDetails,
             receptionDetailId := id + 1 })

def updateReceptionDetail (id : Nat) (p : PartialReceptionDetail) (st : Store) :
    Option ReceptionDetail × Store :=
  match mapGet ReceptionDetail.id id st.receptionDetails with
  | none => (none, st)
  | some existingDetail =>
    let updatedDetail := patchReceptionDetail existingDetail p
    (some updatedDetail,
     { st with receptionDetails := mapSet ReceptionDetail.id updatedDetail st.receptionDetails })

def deleteReceptionDetail (id : Nat) (st : Store) : Bool × Store :=
  let r := mapDelete ReceptionDetail.id id st.receptionDetails
  (r.1, { st with receptionDetails := r.2 })

def getInventoryMovements (productId : Option Nat) (st : Store) : List InventoryMovement :=
  match productId with
  | some pid => st.inventoryMovements.filter (fun movement => movement.productId == pid)
  | none => st.inventoryMovements

def getRecentInventoryMovements (days : Int) (now : Int) (st : Store) : List InventoryMovement :=
  let pastDate := now - days * 24 * 60 * 60 * 1000
  st.inventoryMovements.filter (fun movement => pastDate < movement.createdAt)

def createInventoryMovement (m : InsertInventoryMovement) (now : Int) (st : Store) :
    InventoryMovement × Store :=
  let id := st.inventoryMovementId
  let newMovement : InventoryMovement :=
    ⟨id, m.productId, m.quantity, m.unit, m.movementType, m.referenceId, m.referenceType,
     m.notes, m.createdBy, now⟩
  (newMovement,
   { st with inventoryMovements := mapSet InventoryMovement.id newMovement st.inventoryMovements,
             inventoryMovementId := id + 1 })

def getOutput (id : Nat) (st : Store) : Option Output := mapGet Output.id id st.outputs

def getPendingOutputs (st : Store) : List Output :=
  st.outputs.filter (fun output => output.status == "pending")

def createOutput (o : InsertOutput) (now : Int) (st : Store) : Output × Store :=
  let id := st.outputId
  let newOutput : Output :=
    ⟨id, o.code, o.destination, o.destinationType, o.status, o.notes, o.requestedBy,
     o.approvedBy, now⟩
  (newOutput,
   { st with outputs := mapSet Output.id newOutput st.outputs, outputId := id + 1 })

def updateOutput (id : Nat) (p : PartialOutput) (st : Store) : Option Output × Store :=
  match mapGet Output.id id st.outputs with
  | none => (none, st)
  | some existingOutput =>
    let updatedOutput := patchOutput existingOutput p
    (some updatedOutput,
     { st with outputs := mapSet Output.id updatedOutput st.outputs })

def deleteOutput (id : Nat) (st : Store) : Bool × Store :=
  let r := mapDelete Output.id id st.outputs
  (r.1, { st with outputs := r.2 })

def getOutputDetails (outputId : Nat) (st : Store) : List OutputDetail :=
  st.outputDetails.filter (fun detail => detail.outputId == outputId)

def createOutputDetail (d : InsertOutputDetail) (st : Store) : OutputDetail × Store :=
  let id := st.outputDetailId
  let newDetail : OutputDetail :=
    ⟨id, d.outputId, d.productId, d.quantity, d.unit, d.notes, d.status⟩
  (newDetail,
   { st with outputDetails := mapSet OutputDetail.id newDetail st.outputDetails,
             outputDetailId := id + 1 })

def updateOutputDetail (id : Nat) (p : PartialOutputDetail) (st : Store) :
    Option OutputDetail × Store :=
  match mapGet OutputDetail.id id st.outputDetails with
  | none => (none, st)
  | some existingDetail =>
    let updatedDetail := patchOutputDetail existingDetail p
    (some updatedDetail,
     { st with outputDetails := mapSet OutputDetail.id updatedDetail st.outputDetails })

def deleteOutputDetail (id : Nat) (st : Store) : Bool × Store :=
  let r := mapDelete OutputDetail.id id st.outputDetails
  (r.1, { st with outputDetails := r.2 })

def getInvoice (id : Nat) (st : Store) : Option Invoice := mapGet Invoice.id id st.invoices

def getDueInvoices (now : Int) (st : Store) : List Invoice :=
  st.invoices.filter (fun invoice =>
    invoice.status == "pending" &&
    now < invoice.dueDate && invoice.dueDate < now + 7 * 24 * 60 * 60 * 1000)

def createInvoice (i : InsertInvoice) (now : Int) (st : Store) : Invoice × Store :=
  let id := st.invoiceId
  let newInvoice : Invoice :=
    ⟨id, i.code, i.supplierInvoiceNumber, i.supplierId, i.purchaseOrderId, i.amount,
     i.currency, i.status, i.issueDate, i.dueDate, i.notes, now⟩
  (newInvoice,
   { st with invoices := mapSet Invoice.id newInvoice st.invoices, invoiceId := id + 1 })

def updateInvoice (id : Nat) (p : PartialInvoice) (st : Store) : Option Invoice × Store :=
  match mapGet Invoice.id id st.invoices with
  | none => (none, st)
  | some existingInvoice =>
    let updatedInvoice := patchInvoice existingInvoice p
    (some updatedInvoice,
     { st with invoices := mapSet Invoice.id updatedInvoice st.invoices })

def deleteInvoice (id : Nat) (st : Store) : Bool × Store :=
  let r := mapDelete Invoice.id id st.invoices
  (r.1, { st with invoices := r.2 })

def createSystemActivity (a : InsertSystemActivity) (now : Int) (st : Store) :
    SystemActivity × Store :=
  let id := st.systemActivityId
  let newActivity : SystemActivity :=
    ⟨id, a.userId, a.activityType, a.description, a.entityType, a.entityId, now⟩
  (newActivity,
   { st with systemActivities := mapSet SystemActivity.id newActivity st.systemActivities,
             systemActivityId := id + 1 })

/-! ### Body validation (the Zod insert schemas of `shared/schema.ts`)

`reqStr`/`reqNat`/`reqRat`/`reqInt` parse a required (NOT NULL) field;
`optStr`/`optNat` parse an optional nullable field.  The `p...` variants
are the `.partial()` forms used by the PUT routes: an absent field
parses to `none`, a present field must still type-check. -/

def reqStr (b : Body) (k : String) : Option String :=
  match jget b k with
  | some (.str s) => some s
  | _ => none

def optStr (b : Body) (k : String) : Option (Option String) :=
  match jget b k with
  | none => some none
  | some .nul => some none
  | some (.str s) => some (some s)
  | some (.num _) => none

def reqNat (b : Body) (k : String) : Option Nat :=
  match jget b k with
  | some (.num n) => if 0 ≤ n then some n.toNat else none
  | _ => none

def optNat (b : Body) (k : String) : Option (Option Nat) :=
  match jget b k with
  | none => some none
  | some .nul => some none
  | some (.num n) => if 0 ≤ n then some (some n.toNat) else none
  | _ => none

def reqInt (b : Body) (k : String) : Option Int :=
  match jget b k with
  | some (.num n) => some n
  | _ => none

def pReqStr (b : Body) (k : String) : Option (Option String) :=
  match jget b k with
  | none => some none
  | some (.str s) => some (some s)
  | _ => none

def pOptStr (b : Body) (k : String) : Option (Option (Option String)) :=
  match jget b k with
  | none => some none
  | some .nul => some (some none)
  | some (.str s) => some (some (some s))
  | some (.num _) => none

def pOptNat (b : Body) (k : String) : Option (Option (Option Nat)) :=
  match jget b k with
  | none => some none
  | some .nul => some (some none)
  | some (.num n) => if 0 ≤ n then some (some (some n.toNat)) else none
  | _ => none

/-- `insertSupplierSchema.parse` -/
def parseInsertSupplier (b : Body) : Option InsertSupplier := do
  let name ← reqStr b "name"
  let contact ← optStr b "contact"
  let email ← optStr b "email"
  let phone ← optStr b "phone"
  let address ← optStr b "address"
  let taxId ← optStr b "taxId"
  let notes ← optStr b "notes"
  let status ← reqStr b "status"
  pure ⟨name, contact, email, phone, address, taxId, notes, status⟩

/-- `insertSupplierSchema.partial().parse` -/
def parsePartialSupplier (b : Body) : Option PartialSupplier := do
  let name ← pReqStr b "name"
  let contact ← pOptStr b "contact"
  let email ← pOptStr b "email"
  let phone ← pOptStr b "phone"
  let address ← pOptStr b "address"
  let taxId ← pOptStr b "taxId"
  let notes ← pOptStr b "notes"
  let status ← pReqStr b "status"
  pure ⟨name, contact, email, phone, address, taxId, notes, status⟩

/-- `insertInvoiceSchema.parse` -/
def parseInsertInvoice (b : Body) : Option InsertInvoice := do
  let code ← reqStr b "code"
  let supplierInvoiceNumber ← optStr b "supplierInvoiceNumber"
  let supplierId ← reqNat b "supplierId"
  let purchaseOrderId ← optNat b "purchaseOrderId"
  let amount ← reqInt b "amount"
  let currency ← optStr b "currency"
  let status ← reqStr b "status"
  let issueDate ← reqInt b "issueDate"
  let dueDate ← reqInt b "dueDate"
  let notes ← optStr b "notes"
  pure ⟨code, supplierInvoiceNumber, supplierId, purchaseOrderId, amount, currency, status,
        issueDate, dueDate, notes⟩

/-- `insertReceptionDetailSchema.parse` -/
def parseInsertReceptionDetail (b : Body) : Option InsertReceptionDetail := do
  let receptionId ← reqNat b "receptionId"
  let purchaseOrderDetailId ← optNat b "purchaseOrderDetailId"
  let productId ← reqNat b "productId"
  let quantityExpected ← reqInt b "quantityExpected"
  let quantityReceived ← reqInt b "quantityReceived"
  let unit ← reqStr b "unit"
  let notes ← optStr b "notes"
  let status ← reqStr b "status"
  pure ⟨receptionId, purchaseOrderDetailId, productId, quantityExpected, quantityReceived,
        unit, notes, status⟩

/-- `insertOutputDetailSchema.parse` -/
def parseInsertOutputDetail (b : Body) : Option InsertOutputDetail := do
  let outputId ← reqNat b "outputId"
  let productId ← reqNat b "productId"
  let quantity ← reqInt b "quantity"
  let unit ← reqStr b "unit"
  let notes ← optStr b "notes"
  let status ← reqStr b "status"
  pure ⟨outputId, productId, quantity, unit, notes, status⟩

/-- `insertInventoryMovementSchema.parse` -/
def parseInsertInventoryMovement (b : Body) : Option InsertInventoryMovement := do
  let productId ← reqNat b "productId"
  let quantity ← reqInt b "quantity"
  let unit ← reqStr b "unit"
  let movementType ← reqStr b "movementType"
  let referenceId ← optNat b "referenceId"
  let referenceType ← optStr b "referenceType"
  let notes ← optStr b "notes"
  let createdBy ← optNat b "createdBy"
  pure ⟨productId, quantity, unit, movementType, referenceId, referenceType, notes, createdBy⟩

/-- `insertOutputSchema.partial().parse` -/
def parsePartialOutput (b : Body) : Option PartialOutput := do
  let code ← pReqStr b "code"
  let destination ← pReqStr b "destination"
  let destinationType ← pReqStr b "destinationType"
  let status ← pReqStr b "status"
  let notes ← pOptStr b "notes"
  let requestedBy ← pOptNat b "requestedBy"
  let approvedBy ← pOptNat b "approvedBy"
  pure ⟨code, destination, destinationType, status, notes, requestedBy, approvedBy⟩

/-! ### Route handlers (`server/routes.ts`)

Each handler returns the HTTP status code it responds with, paired with
the store after the request. -/

/-- `POST /api/suppliers` -/
def postSuppliers (body : Body) (now : Int) (st : Store) : Nat × Store :=
  match parseInsertSupplier body with
  | none => (400, st)
  | some validatedData =>
    let r := createSupplier validatedData now st
    let supplier := r.1
    let st2 := (createSystemActivity
      ⟨some 1, "create", "Creó proveedor " ++ supplier.name, "supplier", some supplier.id⟩
      now r.2).2
    (201, st2)

/-- `PUT /api/suppliers/:id` -/
def putSupplier (id : Nat) (body : Body) (now : Int) (st : Store) : Nat × Store :=
  match parsePartialSupplier body with
  | none => (400, st)
  | some validatedData =>
    match updateSupplier id validatedData st with
    | (none, st1) => (404, st1)
    | (some supplier, st1) =>
      let st2 := (createSystemActivity
        ⟨some 1, "update", "Actualizó proveedor " ++ supplier.name, "supplier", some supplier.id⟩
        now st1).2
      (200, st2)

/-- `POST /api/invoices` -/
def postInvoices (body : Body) (now : Int) (st : Store) : Nat × Store :=
  match parseInsertInvoice body with
  | none => (400, st)
  | some validatedData =>
    let r := createInvoice validatedData now st
    let invoice := r.1
    let st2 := (createSystemActivity
      ⟨some 1, "create", "Registró factura " ++ invoice.code, "invoice", some invoice.id⟩
      now r.2).2
    (201, st2)

/-- `POST /api/receptions/:id/details` -/
def postReceptionDetails (receptionId : Nat) (body : Body) (now : Int) (st : Store) :
    Nat × Store :=
  match getReception receptionId st with
  | none => (404, st)
  | some reception =>
    match parseInsertReceptionDetail (jset body "receptionId" (.num receptionId)) with
    | none => (400, st)
    | some validatedData =>
      let r := createReceptionDetail validatedData st
      let detail := r.1
      let st1 := r.2
      let st2 :=
        if detail.status == "completed" || detail.status == "partial" then
          match getProduct detail.productId st1 with
          | some _ =>
            let st3 := (updateProductStock detail.productId detail.quantityReceived st1).2
            (createInventoryMovement
              ⟨detail.productId, detail.quantityReceived, detail.unit, "reception",
               some reception.id, some "reception", some ("Recepción " ++ reception.code),
               some 1⟩ now st3).2
          | none => st1
        else st1
      (201, st2)

/-- `POST /api/outputs/:id/details` -/
def postOutputDetails (outputId : Nat) (body : Body) (now : Int) (st : Store) : Nat × Store :=
  match getOutput outputId st with
  | none => (404, st)
  | some output =>
    match parseInsertOutputDetail (jset body "outputId" (.num outputId)) with
    | none => (400, st)
    | some validatedData =>
      let r := createOutputDetail validatedData st
      let detail := r.1
      let st1 := r.2
      let st2 :=
        if output.status == "completed" || detail.status == "completed" then
          match getProduct detail.productId st1 with
          | some _ =>
            let st3 := (updateProductStock detail.productId (-detail.quantity) st1).2
            (createInventoryMovement
              ⟨detail.productId, -detail.quantity, detail.unit, "output",
               some output.id, some "output", some ("Salida " ++ output.code), some 1⟩
              now st3).2
          | none => st1
        else st1
      (201, st2)

/-- `POST /api/inventory/movements` -/
def postInventoryMovements (body : Body) (now : Int) (st : Store) : Nat × Store :=
  match parseInsertInventoryMovement body with
  | none => (400, st)
  | some validatedData =>
    let r := createInventoryMovement validatedData now st
    let movement := r.1
    let st2 := (updateProductStock movement.productId movement.quantity r.2).2
    let st3 := (createSystemActivity
      ⟨some 1, "create", "Registró movimiento de inventario", "inventory_movement",
       some movement.id⟩ now st2).2
    (201, st3)

/-- The `for (const detail of details)` loop of `PUT /api/outputs/:id` that
processes the inventory movements when an output transitions to `completed`. -/
def processOutputCompletion (id : Nat) (code : String) (ds : List OutputDetail) (now : Int)
    (st : Store) : Store :=
  match ds with
  | [] => st
  | detail :: rest =>
    if !(detail.status == "completed") then
      let st1 := (updateProductStock detail.productId (-detail.quantity) st).2
      let st2 := (updateOutputDetail detail.id
        ⟨none, none, none, none, none, some "completed"⟩ st1).2
      let st3 := (createInventoryMovement
        ⟨detail.productId, -detail.quantity, detail.unit, "output",
         some id, some "output", some ("Salida " ++ code), some 1⟩ now st2).2
      processOutputCompletion id code rest now st3
    else processOutputCompletion id code rest now st

/-- `PUT /api/outputs/:id` -/
def putOutput (id : Nat) (body : Body) (now : Int) (st : Store) : Nat × Store :=
  match parsePartialOutput body with
  | none => (400, st)
  | some validatedData =>
    match getOutput id st with
    | none => (404, st)
    | some existingOutput =>
      let st1 :=
        if validatedData.status == some "completed" &&
           !(existingOutput.status == "completed") then
          processOutputCompletion id existingOutput.code (getOutputDetails id st) now st
        else st
      match updateOutput id validatedData st1 with
      | (some output, st2) =>
        let st3 := (createSystemActivity
          ⟨some 1, "update", "Actualizó salida " ++ output.code, "output", some output.id⟩
          now st2).2
        (200, st3)
      | (none, st2) => (500, st2)

/-- The aggregate counts served by `GET /api/dashboard`. -/
structure DashboardCounts where
  pendingRequirementsCount : Nat
  activeOrdersCount : Nat
  scheduledReceptionsCount : Nat
  pendingOutputsCount : Nat
  deriving DecidableEq, Repr

/-- `GET /api/dashboard` (the count fields of its response). -/
def getDashboard (now : Int) (st : Store) : DashboardCounts :=
  ⟨(getPendingRequirements st).length,
   (getActivePurchaseOrders st).length,
   (getScheduledReceptions now st).length,
   (getPendingOutputs st).length⟩

/-! ### The seeded initial data (`MemStorage` constructor and `seedInitialData`) -/

/-- The `inventoryMovements.forEach` body of `seedInitialData`: a direct
`Map.set` with an explicit `createdAt` taken from the `dates` array. -/
def seedSetMovement (m : InsertInventoryMovement) (createdAt : Int) (st : Store) : Store :=
  let id := st.inventoryMovementId
  let movement : InventoryMovement :=
    ⟨id, m.productId, m.quantity, m.unit, m.movementType, m.referenceId, m.referenceType,
     m.notes, m.createdBy, createdAt⟩
  { st with inventoryMovements := mapSet InventoryMovement.id movement st.inventoryMovements,
            inventoryMovementId := id + 1 }

/-- The `activities.forEach` body of `seedInitialData`: a direct `Map.set`
with `createdAt` staggered by the activity's index. -/
def seedSetActivity (a : InsertSystemActivity) (createdAt : Int) (st : Store) : Store :=
  let id := st.systemActivityId
  let activity : SystemActivity :=
    ⟨id, a.userId, a.activityType, a.description, a.entityType, a.entityId, createdAt⟩
  { st with systemActivities := mapSet SystemActivity.id activity st.systemActivities,
            systemActivityId := id + 1 }

/-- `MemStorage.seedInitialData`, with the current time `Date.now()` passed
in as `now` (all seeded dates are offsets from it). -/
def seedInitialData (now : Int) (st : Store) : Store :=
  -- Seed suppliers
  let st := (createSupplier ⟨"Aceros Industriales", some "Juan Pérez", some "juan@aceros.com",
    some "555-1234", some "Calle Industrial 123", some "AI12345",
    some "Proveedor principal de materiales metálicos", "active"⟩ now st).2
  let st := (createSupplier ⟨"Electrónicos SA", some "María López", some "maria@electronicos.com",
    some "555-5678", some "Av. Tecnología 456", some "ES67890",
    some "Componentes electrónicos", "active"⟩ now st).2
  let st := (createSupplier ⟨"Químicos Unidos", some "Pedro Ramírez", some "pedro@quimicos.com",
    some "555-9012", some "Blvd. Ciencia 789", some "QU34567",
    some "Productos químicos industriales", "active"⟩ now st).2
  -- Seed products
  let st := (createProduct ⟨"TH-5-16", "Tornillos hexagonales 5/16",
    some "Tornillos hexagonales de acero inoxidable", "Ferretería", "unidad", 25, 8,
    some "A-101", some 0.5, some 1⟩ now st).2
  let st := (createProduct ⟨"CE-12AWG", "Cables eléctricos 12AWG",
    some "Cable eléctrico flexible", "Eléctricos", "metro", 50, 15,
    some "B-202", some 1.2, some 2⟩ now st).2
  let st := (createProduct ⟨"LI-TIPO-A", "Lubricante industrial tipo A",
    some "Lubricante para maquinaria pesada", "Químicos", "litro", 5, 2,
    some "C-303", some 25.0, some 3⟩ now st).2
  let st := (createProduct ⟨"TU-PVC-2", "Tubería PVC 2\"",
    some "Tubería de PVC para instalaciones hidráulicas", "Plomería", "metro", 30, 45,
    some "D-404", some 3.75, some 1⟩ now st).2
  let st := (createProduct ⟨"FO-LED-20W", "Focos LED 20W",
    some "Focos LED de alta eficiencia", "Eléctricos", "unidad", 15, 28,
    some "B-205", some 8.5, some 2⟩ now st).2
  -- Seed requirements
  let st := (createRequirement ⟨"REQ-2023-001", "Materiales para mantenimiento", 1,
    "Mantenimiento", "pending", "high", some "Urgente para reparación de maquinaria",
    some (now + 86400000 * 3)⟩ now st).2
  let st := (createRequirement ⟨"REQ-2023-002", "Insumos eléctricos", 1,
    "Producción", "approved", "medium", some "Para actualización de panel eléctrico",
    some (now + 86400000 * 5)⟩ now st).2
  let st := (createRequirement ⟨"REQ-2023-003", "Materiales de oficina", 1,
    "Administración", "completed", "low", some "Reposición de inventario de oficina",
    some (now + 86400000 * 10)⟩ now st).2
  -- Seed requirement details
  let st := (createRequirementDetail ⟨1, 1, 50, "unidad",
    some "Para reparación de estanterías", "pending"⟩ st).2
  let st := (createRequirementDetail ⟨1, 3, 10, "litro",
    some "Para mantenimiento de montacargas", "pending"⟩ st).2
  let st := (createRequirementDetail ⟨2, 2, 100, "metro",
    some "Para renovación de cableado", "approved"⟩ st).2
  let st := (createRequirementDetail ⟨2, 5, 30, "unidad",
    some "Para reemplazo de iluminación", "approved"⟩ st).2
  let st := (createRequirementDetail ⟨3, 4, 20, "metro",
    some "Para reparación de baños", "completed"⟩ st).2
  -- Seed purchase orders
  let st := (createPurchaseOrder ⟨"OC-2023-001", "Compra de tornillos y lubricantes", 1,
    some 1, "pending", some 150.0, some "USD", some "Entrega urgente",
    some (now + 86400000 * 2), some 1⟩ now st).2
  let st := (createPurchaseOrder ⟨"OC-2023-002", "Compra de materiales eléctricos", 2,
    some 2, "confirmed", some 375.0, some "USD", some "Entrega parcial aceptada",
    some (now + 86400000 * 7), some 1⟩ now st).2
  let st := (createPurchaseOrder ⟨"OC-2023-003", "Compra de tuberías", 1,
    some 3, "completed", some 75.0, some "USD", some "Entrega completada",
    some (now - 86400000 * 3), some 1⟩ now st).2
  -- Seed purchase order details
  let st := (createPurchaseOrderDetail ⟨1, 1, 50, "unidad", 0.5, 25.0,
    some "Según especificaciones"⟩ st).2
  let st := (createPurchaseOrderDetail ⟨1, 3, 5, "litro", 25.0, 125.0,
    some "Marca específica requerida"⟩ st).2
  let st := (createPurchaseOrderDetail ⟨2, 2, 100, "metro", 1.2, 120.0,
    some "Color azul preferido"⟩ st).2
  let st := (createPurchaseOrderDetail ⟨2, 5, 30, "unidad", 8.5, 255.0,
    some "Luz cálida"⟩ st).2
  let st := (createPurchaseOrderDetail ⟨3, 4, 20, "metro", 3.75, 75.0,
    some "Enviar en cortes de 2m"⟩ st).2
  -- Seed receptions
  let st := (createReception ⟨"REC-2023-001", some 3, 1, "completed",
    some "Recepción completa y en buenas condiciones", some 1, now - 86400000 * 2⟩ now st).2
  let st := (createReception ⟨"REC-2023-002", some 2, 2, "partial",
    some "Recepción parcial, pendiente el resto", some 1, now - 86400000 * 1⟩ now st).2
  let st := (createReception ⟨"REC-2023-003", some 1, 1, "scheduled",
    some "Programada para mañana", some 1, now + 86400000 * 1⟩ now st).2
  -- Seed reception details
  let st := (createReceptionDetail ⟨1, some 5, 4, 20, 20, "metro",
    some "Verificado por control de calidad", "completed"⟩ st).2
  let st := (createReceptionDetail ⟨2, some 3, 2, 100, 75, "metro",
    some "Pendiente 25 metros", "partial"⟩ st).2
  let st := (createReceptionDetail ⟨2, some 4, 5, 30, 30, "unidad",
    some "Completo", "completed"⟩ st).2
  -- Update stock based on receptions
  let st := (updateProductStock 4 20 st).2
  let st := (updateProductStock 2 75 st).2
  let st := (updateProductStock 5 30 st).2
  -- Seed inventory movements (each with a createdAt from the dates array)
  let st := seedSetMovement ⟨4, 20, "metro", "reception", some 1, some "reception",
    some "Recepción OC-2023-003", some 1⟩ (now - 86400000 * 6) st
  let st := seedSetMovement ⟨2, 75, "metro", "reception", some 2, some "reception",
    some "Recepción parcial OC-2023-002", some 1⟩ (now - 86400000 * 5) st
  let st := seedSetMovement ⟨5, 30, "unidad", "reception", some 2, some "reception",
    some "Recepción OC-2023-002", some 1⟩ (now - 86400000 * 4) st
  let st := seedSetMovement ⟨4, -5, "metro", "output", some 1, some "output",
    some "Salida para reparación", some 1⟩ (now - 86400000 * 3) st
  let st := seedSetMovement ⟨5, -10, "unidad", "output", some 2, some "output",
    some "Salida para instalación", some 1⟩ (now - 86400000 * 2) st
  let st := seedSetMovement ⟨1, -2, "unidad", "output", some 3, some "output",
    some "Salida para mantenimiento", some 1⟩ (now - 86400000 * 1) st
  let st := seedSetMovement ⟨3, -1, "litro", "output", some 3, some "output",
    some "Salida para mantenimiento", some 1⟩ now st
  -- Seed outputs
  let st := (createOutput ⟨"SAL-2023-001", "Planta de Producción", "department", "completed",
    some "Para reparación de tuberías", some 1, some 1⟩ now st).2
  let st := (createOutput ⟨"SAL-2023-002", "Área de Oficinas", "department", "completed",
    some "Para renovación de iluminación", some 1, some 1⟩ now st).2
  let st := (createOutput ⟨"SAL-2023-003", "Departamento de Mantenimiento", "department",
    "pending", some "Para reparaciones generales", some 1, none⟩ now st).2
  -- Seed output details
  let st := (createOutputDetail ⟨1, 4, 5, "metro",
    some "Para reparación en zona A", "completed"⟩ st).2
  let st := (createOutputDetail ⟨2, 5, 10, "unidad",
    some "Para oficinas administrativas", "completed"⟩ st).2
  let st := (createOutputDetail ⟨3, 1, 2, "unidad",
    some "Para reparación de estanterías", "pending"⟩ st).2
  let st := (createOutputDetail ⟨3, 3, 1, "litro",
    some "Para mantenimiento preventivo", "pending"⟩ st).2
  -- Update stock based on outputs
  let st := (updateProductStock 4 (-5) st).2
  let st := (updateProductStock 5 (-10) st).2
  let st := (updateProductStock 1 (-2) st).2
  let st := (updateProductStock 3 (-1) st).2
  -- Seed invoices
  let st := (createInvoice ⟨"INV-2023-001", some "F-12345", 1, some 3, 75, some "USD",
    "paid", now - 86400000 * 5, now - 86400000 * 1,
    some "Pagado por transferencia"⟩ now st).2
  let st := (createInvoice ⟨"INV-2023-002", some "F-23456", 2, some 2, 375, some "USD",
    "pending", now - 86400000 * 2, now + 86400000 * 3,
    some "Pendiente de pago"⟩ now st).2
  let st := (createInvoice ⟨"INV-2023-003", some "F-34567", 3, none, 150, some "USD",
    "pending", now - 86400000 * 1, now + 86400000 * 7,
    some "Compra fuera de sistema"⟩ now st).2
  -- Seed system activities (index k gets createdAt = now - (8 - k) hours)
  let st := seedSetActivity ⟨some 1, "create", "Creó la orden de compra OC-2023-001",
    "purchase_order", some 1⟩ (now - 8 * 3600000) st
  let st := seedSetActivity ⟨some 1, "update",
    "Actualizó el estado de la orden OC-2023-002 a confirmada",
    "purchase_order", some 2⟩ (now - 7 * 3600000) st
  let st := seedSetActivity ⟨some 1, "create", "Creó la recepción REC-2023-001",
    "reception", some 1⟩ (now - 6 * 3600000) st
  let st := seedSetActivity ⟨some 1, "create", "Creó la salida SAL-2023-001",
    "output", some 1⟩ (now - 5 * 3600000) st
  let st := seedSetActivity ⟨some 1, "create", "Registró la factura INV-2023-001",
    "invoice", some 1⟩ (now - 4 * 3600000) st
  let st := seedSetActivity ⟨some 1, "update", "Actualizó el stock del producto TU-PVC-2",
    "product", some 4⟩ (now - 3 * 3600000) st
  let st := seedSetActivity ⟨some 1, "create", "Creó la salida SAL-2023-002",
    "output", some 2⟩ (now - 2 * 3600000) st
  let st := seedSetActivity ⟨some 1, "create", "Creó el requerimiento REQ-2023-001",
    "requirement", some 1⟩ (now - 1 * 3600000) st
  st

/-- The store produced by the `MemStorage` constructor: fresh maps and
counters, the admin user, then `seedInitialData`. -/
def initStore (now : Int) : Store :=
  seedInitialData now
    (createUser ⟨"admin", "admin123", "Administrator", "admin", some "IT",
      some "admin@logierp.com"⟩ emptyStore).2

/-! ### Specification-side definitions -/

/-- The running sum of the signed `quantity` fields of all
inventory-movement records whose `productId` is `pid` (the quantity a
product's `currentStock` is conventionally expected to equal). -/
def movementSum (pid : Nat) (st : Store) : Int :=
  ((st.inventoryMovements.filter (fun m => m.productId == pid)).map
    (fun m => m.quantity)).sum

/-- The discrepancy between a product's stock counter and its movement history. -/
def stockDiff (p : Product) (st : Store) : Int := p.currentStock - movementSum p.id st

/-- Every stored inventory movement has an id below the movement counter
(so `createInventoryMovement` appends rather than overwriting). -/
def FreshMv (st : Store) : Prop :=
  ∀ m ∈ st.inventoryMovements, m.id < st.inventoryMovementId

instance (st : Store) : Decidable (FreshMv st) := by
  unfold FreshMv; infer_instance

/-! ### The storage mutation alphabet and the id/counter invariant -/

/-- One entity table of `MemStorage` (each has its own map and counter). -/
inductive TableTag where
  | users | suppliers | products | requirements | requirementDetails
  | purchaseOrders | purchaseOrderDetails | receptions | receptionDetails
  | inventoryMovements | outputs | outputDetails | invoices | systemActivities
  deriving DecidableEq, Repr

/-- The auto-increment counter of a table. -/
def counterOf (t : TableTag) (st : Store) : Nat :=
  match t with
  | .users => st.userId
  | .suppliers => st.supplierId
  | .products => st.productId
  | .requirements => st.requirementId
  | .requirementDetails => st.requirementDetailId
  | .purchaseOrders => st.purchaseOrderId
  | .purchaseOrderDetails => st.purchaseOrderDetailId
  | .receptions => st.receptionId
  | .receptionDetails => st.receptionDetailId
  | .inventoryMovements => st.inventoryMovementId
  | .outputs => st.outputId
  | .outputDetails => st.outputDetailId
  | .invoices => st.invoiceId
  | .systemActivities => st.systemActivityId

/-- The identifiers currently stored in a table, in insertion order. -/
def idsOf (t : TableTag) (st : Store) : List Nat :=
  match t with
  | .users => st.users.map User.id
  | .suppliers => st.suppliers.map Supplier.id
  | .products => st.products.map Product.id
  | .requirements => st.requirements.map Requirement.id
  | .requirementDetails => st.requirementDetails.map RequirementDetail.id
  | .purchaseOrders => st.purchaseOrders.map PurchaseOrder.id
  | .purchaseOrderDetails => st.purchaseOrderDetails.map PurchaseOrderDetail.id
  | .receptions => st.receptions.map Reception.id
  | .receptionDetails => st.receptionDetails.map ReceptionDetail.id
  | .inventoryMovements => st.inventoryMovements.map InventoryMovement.id
  | .outputs => st.outputs.map Output.id
  | .outputDetails => st.outputDetails.map OutputDetail.id
  | .invoices => st.invoices.map Invoice.id
  | .systemActivities => st.systemActivities.map SystemActivity.id

/-- Well-formedness of one table: stored ids are pairwise distinct and
all below the table's counter. -/
def TInv (ids : List Nat) (c : Nat) : Prop := ids.Nodup ∧ ∀ i ∈ ids, i < c

instance (ids : List Nat) (c : Nat) : Decidable (TInv ids c) := by
  unfold TInv; infer_instance

instance (p : TableTag → Prop) [DecidablePred p] : Decidable (∀ t, p t) :=
  decidable_of_iff
    (p .users ∧ p .suppliers ∧ p .products ∧ p .requirements ∧ p .requirementDetails ∧
     p .purchaseOrders ∧ p .purchaseOrderDetails ∧ p .receptions ∧ p .receptionDetails ∧
     p .inventoryMovements ∧ p .outputs ∧ p .outputDetails ∧ p .invoices ∧
     p .systemActivities)
    (by
      constructor
      · rintro ⟨h1, h2, h3, h4, h5, h6, h7, h8, h9, h10, h11, h12, h13, h14⟩ t
        cases t <;> assumption
      · intro h
        exact ⟨h _, h _, h _, h _, h _, h _, h _, h _, h _, h _, h _, h _, h _, h _⟩)

/-- Every table of the store is well formed. -/
def Inv (st : Store) : Prop := ∀ t, TInv (idsOf t st) (counterOf t st)

instance (st : Store) : Decidable (Inv st) := by
  unfold Inv; infer_instance

/-- One mutating `MemStorage` operation, with its payload (and the current
time wherever the method reads `new Date()`). -/
inductive StorageOp where
  | createUser (u : InsertUser)
  | createSupplier (s : InsertSupplier) (now : Int)
  | updateSupplier (id : Nat) (p : PartialSupplier)
  | deleteSupplier (id : Nat)
  | createProduct (p : InsertProduct) (now : Int)
  | updateProduct (id : Nat) (p : PartialProduct)
  | updateProductStock (id : Nat) (quantity : Int)
  | deleteProduct (id : Nat)
  | createRequirement (r : InsertRequirement) (now : Int)
  | updateRequirement (id : Nat) (p : PartialRequirement)
  | deleteRequirement (id : Nat)
  | createRequirementDetail (d : InsertRequirementDetail)
  | updateRequirementDetail (id : Nat) (p : PartialRequirementDetail)
  | deleteRequirementDetail (id : Nat)
  | createPurchaseOrder (o : InsertPurchaseOrder) (now : Int)
  | updatePurchaseOrder (id : Nat) (p : PartialPurchaseOrder)
  | deletePurchaseOrder (id : Nat)
  | createPurchaseOrderDetail (d : InsertPurchaseOrderDetail)
  | updatePurchaseOrderDetail (id : Nat) (p : PartialPurchaseOrderDetail)
  | deletePurchaseOrderDetail (id : Nat)
  | createReception (r : InsertReception) (now : Int)
  | updateReception (id : Nat) (p : PartialReception)
  | deleteReception (id : Nat)
  | createReceptionDetail (d : InsertReceptionDetail)
  | updateReceptionDetail (id : Nat) (p : PartialReceptionDetail)
  | deleteReceptionDetail (id : Nat)
  | createInventoryMovement (m : InsertInventoryMovement) (now : Int)
  | createOutput (o : InsertOutput) (now : Int)
  | updateOutput (id : Nat) (p : PartialOutput)
  | deleteOutput (id : Nat)
  | createOutputDetail (d : InsertOutputDetail)
  | updateOutputDetail (id : Nat) (p : PartialOutputDetail)
  | deleteOutputDetail (id : Nat)
  | createInvoice (i : InsertInvoice) (now : Int)
  | updateInvoice (id : Nat) (p : PartialInvoice)
  | deleteInvoice (id : Nat)
  | createSystemActivity (a : InsertSystemActivity) (now : Int)

/-- Run one storage operation for its effect on the store. -/
def applyOp (op : StorageOp) (st : Store) : Store :=
  match op with
  | .createUser u => (createUser u st).2
  | .createSupplier s now => (createSupplier s now st).2
  | .updateSupplier id p => (updateSupplier id p st).2
  | .deleteSupplier id => (deleteSupplier id st).2
  | .createProduct p now => (createProduct p now st).2
  | .updateProduct id p => (updateProduct id p st).2
  | .updateProductStock id q => (updateProductStock id q st).2
  | .deleteProduct id => (deleteProduct id st).2
  | .createRequirement r now => (createRequirement r now st).2
  | .updateRequirement id p => (updateRequirement id p st).2
  | .deleteRequirement id => (deleteRequirement id st).2
  | .createRequirementDetail d => (createRequirementDetail d st).2
  | .updateRequirementDetail id p => (updateRequirementDetail id p st).2
  | .deleteRequirementDetail id => (deleteRequirementDetail id st).2
  | .createPurchaseOrder o now => (createPurchaseOrder o now st).2
  | .updatePurchaseOrder id p => (updatePurchaseOrder id p st).2
  | .deletePurchaseOrder id => (deletePurchaseOrder id st).2
  | .createPurchaseOrderDetail d => (createPurchaseOrderDetail d st).2
  | .updatePurchaseOrderDetail id p => (updatePurchaseOrderDetail id p st).2
  | .deletePurchaseOrderDetail id => (deletePurchaseOrderDetail id st).2
  | .createReception r now => (createReception r now st).2
  | .updateReception id p => (updateReception id p st).2
  | .deleteReception id => (deleteReception id st).2
  | .createReceptionDetail d => (createReceptionDetail d st).2
  | .updateReceptionDetail id p => (updateReceptionDetail id p st).2
  | .deleteReceptionDetail id => (deleteReceptionDetail id st).2
  | .createInventoryMovement m now => (createInventoryMovement m now st).2
  | .createOutput o now => (createOutput o now st).2
  | .updateOutput id p => (updateOutput id p st).2
  | .deleteOutput id => (deleteOutput id st).2
  | .createOutputDetail d => (createOutputDetail d st).2
  | .updateOutputDetail id p => (updateOutputDetail id p st).2
  | .deleteOutputDetail id => (deleteOutputDetail id st).2
  | .createInvoice i now => (createInvoice i now st).2
  | .updateInvoice id p => (updateInvoice id p st).2
  | .deleteInvoice id => (deleteInvoice id st).2
  | .createSystemActivity a now => (createSystemActivity a now st).2

/-- The table a storage operation creates a record in, if it is a create. -/
def createdTable (op : StorageOp) : Option TableTag :=
  match op with
  | .createUser _ => some .users
  | .createSupplier _ _ => some .suppliers
  | .createProduct _ _ => some .products
  | .createRequirement _ _ => some .requirements
  | .createRequirementDetail _ => some .requirementDetails
  | .createPurchaseOrder _ _ => some .purchaseOrders
  | .createPurchaseOrderDetail _ => some .purchaseOrderDetails
  | .createReception _ _ => some .receptions
  | .createReceptionDetail _ => some .receptionDetails
  | .createInventoryMovement _ _ => some .inventoryMovements
  | .createOutput _ _ => some .outputs
  | .createOutputDetail _ => some .outputDetails
  | .createInvoice _ _ => some .invoices
  | .createSystemActivity _ _ => some .systemActivities
  | _ => none

/-- Run a sequence of storage operations left to right. -/
def applyOps (ops : List StorageOp) (st : Store) : Store :=
  ops.foldl (fun s op => applyOp op s) st

/-- The total quantity the completion loop of `PUT /api/outputs/:id`
subtracts from product `pid`, over a list of output details: the sum of
the quantities of the not-yet-completed details that reference `pid`. -/
def outSum (pid : Nat) (ds : List OutputDetail) : Int :=
  ((ds.filter (fun d => !(d.status == "completed") && d.productId == pid)).map
    (fun d => d.quantity)).sum

/-! ## Lemmas about the `Map` primitives -/

theorem mapGet_key (key : α → Nat) (i : Nat) (l : List α) (x : α)
    (h : mapGet key i l = some x) : key x = i := by
  have h2 : l.find? (fun y => key y == i) = some x := h
  have h3 := List.find?_some h2
  exact eq_of_beq h3

theorem mapGet_mem (key : α → Nat) (i : Nat) (l : List α) (x : α)
    (h : mapGet key i l = some x) : x ∈ l := by
  have h2 : l.find? (fun y => key y == i) = some x := h
  exact List.mem_of_find?_eq_some h2

theorem mapGet_eq_none (key : α → Nat) (i : Nat) (l : List α)
    (h : ∀ y ∈ l, key y ≠ i) : mapGet key i l = none := by
  apply List.find?_eq_none.mpr
  intro y hy
  simp [h y hy]

theorem mapGet_none_forall (key : α → Nat) (i : Nat) (l : List α)
    (h : mapGet key i l = none) : ∀ y ∈ l, key y ≠ i := by
  intro y hy
  have h2 : l.find? (fun y => key y == i) = none := h
  have hx := List.find?_eq_none.mp h2 y hy
  simpa using hx

theorem mapSet_append (key : α → Nat) (x : α) (l : List α)
    (h : ∀ y ∈ l, key y ≠ key x) : mapSet key x l = l ++ [x] := by
  induction l with
  | nil => rfl
  | cons y ys ih =>
    have hyb : (key y == key x) = false := by
      simp [h y (List.mem_cons_self y ys)]
    have ih2 := ih (fun z hz => h z (List.mem_cons_of_mem y hz))
    simp [mapSet, hyb, ih2]

theorem mapSet_map_key_of_mem (key : α → Nat) (x : α) (l : List α)
    (h : key x ∈ l.map key) : (mapSet key x l).map key = l.map key := by
  induction l with
  | nil => simp at h
  | cons y ys ih =>
    by_cases hy : key y = key x
    · have hyb : (key y == key x) = true := by simp [hy]
      simp [mapSet, hyb, hy]
    · have hyb : (key y == key x) = false := by simp [hy]
      have hmem : key x ∈ ys.map key := by
        rcases List.mem_map.mp h with ⟨z, hz, hkz⟩
        rcases List.mem_cons.mp hz with hz1 | hz1
        · exact absurd (hz1 ▸ hkz) hy
        · exact List.mem_map.mpr ⟨z, hz1, hkz⟩
      simp [mapSet, hyb, ih hmem]

theorem map_untouched (key : α → Nat) (f : α → α) (i : Nat) (l : List α)
    (h : ∀ y ∈ l, key y ≠ i) :
    l.map (fun y => if key y == i then f y else y) = l := by
  induction l with
  | nil => rfl
  | cons y ys ih =>
    have hyb : (key y == i) = false := by
      simp [h y (List.mem_cons_self y ys)]
    have ih2 := ih (fun z hz => h z (List.mem_cons_of_mem y hz))
    simp only [List.map_cons, hyb, if_false, Bool.false_eq_true, ih2]

theorem mapSet_patch (key : α → Nat) (f : α → α) (hf : ∀ y, key (f y) = key y) (i : Nat) :
    ∀ (l : List α), (l.map key).Nodup → ∀ e, mapGet key i l = some e →
      mapSet key (f e) l = l.map (fun y => if key y == i then f y else y) := by
  intro l
  induction l with
  | nil => intro _ e he; simp [mapGet] at he
  | cons y ys ih =>
    intro hnd e he
    simp only [List.map_cons, List.nodup_cons] at hnd
    by_cases hy : key y = i
    · have hyb : (key y == i) = true := by simp [hy]
      have hey : y = e := by
        have h2 : mapGet key i (y :: ys) = some y := by
          simp [mapGet, List.find?, hyb]
        rw [h2] at he
        exact Option.some.inj he
      subst hey
      have hys : ∀ z ∈ ys, key z ≠ i := by
        intro z hz hzi
        exact hnd.1 (hy ▸ hzi ▸ List.mem_map.mpr ⟨z, hz, rfl⟩)
      have hkb : (key y == key (f y)) = true := by simp [hf]
      simp only [mapSet, hkb, if_true, List.map_cons, hyb,
        map_untouched key f i ys hys]
    · have hyb : (key y == i) = false := by simp [hy]
      have hys : mapGet key i ys = some e := by
        have h2 : mapGet key i (y :: ys) = mapGet key i ys := by
          simp [mapGet, List.find?, hyb]
        rw [h2] at he
        exact he
      have hke : key e = i := mapGet_key key i ys e hys
      have hneb : (key y == key (f e)) = false := by
        simp [hf, hke, hy]
      simp only [mapSet, hneb, Bool.false_eq_true, if_false, List.map_cons, hyb,
        ih hnd.2 e hys]

theorem mapDelete_sublist (key : α → Nat) (i : Nat) (l : List α) :
    (mapDelete key i l).2.Sublist l := by
  induction l with
  | nil => exact List.nil_sublist _
  | cons y ys ih =>
    by_cases hy : key y = i
    · have hyb : (key y == i) = true := by simp [hy]
      simp only [mapDelete, hyb, if_true]
      exact List.sublist_cons_self y ys
    · have hyb : (key y == i) = false := by simp [hy]
      simp only [mapDelete, hyb, Bool.false_eq_true, if_false]
      exact List.Sublist.cons₂ y ih

theorem mem_mapSet_of_ne (key : α → Nat) (x y : α) (l : List α)
    (hy : y ∈ l) (hne : key y ≠ key x) : y ∈ mapSet key x l := by
  induction l with
  | nil => simp at hy
  | cons z zs ih =>
    by_cases hz : key z = key x
    · have hzb : (key z == key x) = true := by simp [hz]
      simp only [mapSet, hzb, if_true]
      rcases List.mem_cons.mp hy with hy1 | hy1
      · exact absurd (hy1 ▸ hne) (by simp [hz])
      · exact List.mem_cons_of_mem x hy1
    · have hzb : (key z == key x) = false := by simp [hz]
      simp only [mapSet, hzb, Bool.false_eq_true, if_false]
      rcases List.mem_cons.mp hy with hy1 | hy1
      · exact hy1 ▸ List.mem_cons_self z _
      · exact List.mem_cons_of_mem z (ih hy1)

theorem mapGet_mapSet_self (key : α → Nat) (x : α) (l : List α) :
    mapGet key (key x) (mapSet key x l) = some x := by
  have hxb : (key x == key x) = true := by simp
  induction l with
  | nil => simp [mapSet, mapGet, List.find?, hxb]
  | cons y ys ih =>
    by_cases hy : key y = key x
    · have hyb : (key y == key x) = true := by simp [hy]
      simp [mapSet, hyb, mapGet, List.find?, hxb]
    · have hyb : (key y == key x) = false := by simp [hy]
      simp only [mapSet, hyb, Bool.false_eq_true, if_false]
      have h2 : mapGet key (key x) (y :: mapSet key x ys) =
          mapGet key (key x) (mapSet key x ys) := by
        simp [mapGet, List.find?, hyb]
      rw [h2]
      exact ih

theorem mapGet_mapSet_ne (key : α → Nat) (x : α) (i : Nat) (l : List α)
    (h : i ≠ key x) : mapGet key i (mapSet key x l) = mapGet key i l := by
  have hxb : (key x == i) = false := by
    simp [Ne.symm h]
  induction l with
  | nil => simp [mapSet, mapGet, List.find?, hxb]
  | cons y ys ih =>
    by_cases hy : key y = key x
    · have hyb : (key y == key x) = true := by simp [hy]
      have hyib : (key y == i) = false := by
        simp [hy, Ne.symm h]
      simp only [mapSet, hyb, if_true]
      simp [mapGet, List.find?, hxb, hyib]
    · have hyb : (key y == key x) = false := by simp [hy]
      simp only [mapSet, hyb, Bool.false_eq_true, if_false]
      by_cases hyi : key y = i
      · have hyib : (key y == i) = true := by simp [hyi]
        simp [mapGet, List.find?, hyib]
      · have hyib : (key y == i) = false := by simp [hyi]
        have h2 : mapGet key i (y :: mapSet key x ys) =
            mapGet key i (mapSet key x ys) := by
          simp [mapGet, List.find?, hyib]
        have h3 : mapGet key i (y :: ys) = mapGet key i ys := by
          simp [mapGet, List.find?, hyib]
        rw [h2, h3]
        exact ih

theorem mapGet_map (key : α → Nat) (g : α → α) (hg : ∀ y, key (g y) = key y)
    (i : Nat) (l : List α) : mapGet key i (l.map g) = (mapGet key i l).map g := by
  induction l with
  | nil => rfl
  | cons y ys ih =>
    by_cases hy : key y = i
    · have hyb : (key y == i) = true := by simp [hy]
      have hgb : (key (g y) == i) = true := by simp [hg, hy]
      simp [mapGet, List.find?, hgb, hyb]
    · have hyb : (key y == i) = false := by simp [hy]
      have hgb : (key (g y) == i) = false := by simp [hg, hy]
      have h2 : mapGet key i ((y :: ys).map g) = mapGet key i (ys.map g) := by
        simp [mapGet, List.find?, hgb]
      have h3 : mapGet key i (y :: ys) = mapGet key i ys := by
        simp [mapGet, List.find?, hyb]
      rw [h2, h3]
      exact ih

theorem mapGet_of_nodup_mem (key : α → Nat) (x : α) (l : List α)
    (hnd : (l.map key).Nodup) (hm : x ∈ l) : mapGet key (key x) l = some x := by
  induction l with
  | nil => simp at hm
  | cons y ys ih =>
    simp only [List.map_cons, List.nodup_cons] at hnd
    rcases List.mem_cons.mp hm with hm1 | hm1
    · subst hm1
      simp [mapGet, List.find?]
    · have hy : key y ≠ key x := by
        intro hh
        exact hnd.1 (hh ▸ List.mem_map.mpr ⟨x, hm1, rfl⟩)
      have hyb : (key y == key x) = false := by simp [hy]
      have h2 : mapGet key (key x) (y :: ys) = mapGet key (key x) ys := by
        simp [mapGet, List.find?, hyb]
      rw [h2]
      exact ih hnd.2 hm1

theorem TInv_notMem (ids : List Nat) (c : Nat) (h : TInv ids c) : c ∉ ids :=
  fun hc => absurd (h.2 c hc) (Nat.lt_irrefl c)

theorem TInv_append (ids : List Nat) (c : Nat) (h : TInv ids c) :
    TInv (ids ++ [c]) (c + 1) := by
  have hc := TInv_notMem ids c h
  constructor
  · refine List.Nodup.append h.1 (List.nodup_singleton c) ?_
    intro a ha hb
    simp only [List.mem_singleton] at hb
    exact hc (hb ▸ ha)
  · intro i hi
    rcases List.mem_append.mp hi with hi | hi
    · exact Nat.lt_succ_of_lt (h.2 i hi)
    · simp only [List.mem_singleton] at hi
      omega

theorem TInv_sublist (ids ids2 : List Nat) (c : Nat) (h : TInv ids c)
    (hs : ids2.Sublist ids) : TInv ids2 c :=
  ⟨h.1.sublist hs, fun i hi => h.2 i (hs.mem hi)⟩

theorem mapSet_fresh_map (key : α → Nat) (x : α) (l : List α) (c : Nat)
    (h : TInv (l.map key) c) (hx : key x = c) :
    (mapSet key x l).map key = l.map key ++ [c] := by
  have hfresh : ∀ y ∈ l, key y ≠ key x := by
    intro y hy hk
    have hlt : key y < c := h.2 _ (List.mem_map.mpr ⟨y, hy, rfl⟩)
    rw [hk, hx] at hlt
    exact Nat.lt_irrefl c hlt
  rw [mapSet_append key x l hfresh]
  simp [hx]


/-! ## Patches preserve the primary key -/

theorem patchSupplier_id (e : Supplier) (p : PartialSupplier) :
    (patchSupplier e p).id = e.id := rfl

/-! ## Frame lemmas: updates and deletes never change any table's id list
beyond the documented effect, and never touch any counter -/

theorem updateSupplier_frame (i : Nat) (p : PartialSupplier) (st : Store) :
    (∀ t, idsOf t ((updateSupplier i p st).2) = idsOf t st) ∧
    (∀ t, counterOf t ((updateSupplier i p st).2) = counterOf t st) := by
  constructor
  · intro t
    simp only [updateSupplier]
    cases hE : mapGet Supplier.id i st.suppliers with
    | none => rfl
    | some e =>
      cases t
      case suppliers =>
        show (mapSet Supplier.id (patchSupplier e p) st.suppliers).map Supplier.id =
          st.suppliers.map Supplier.id
        apply mapSet_map_key_of_mem
        rw [patchSupplier_id]
        exact List.mem_map.mpr ⟨e, mapGet_mem _ _ _ _ hE, rfl⟩
      all_goals rfl
  · intro t
    simp only [updateSupplier]
    cases hE : mapGet Supplier.id i st.suppliers with
    | none => rfl
    | some e => cases t <;> rfl

theorem updateProduct_frame (i : Nat) (p : PartialProduct) (st : Store) :
    (∀ t, idsOf t ((updateProduct i p st).2) = idsOf t st) ∧
    (∀ t, counterOf t ((updateProduct i p st).2) = counterOf t st) := by
  constructor
  · intro t
    simp only [updateProduct]
    cases hE : mapGet Product.id i st.products with
    | none => rfl
    | some e =>
      cases t
      case products =>
        show (mapSet Product.id (patchProduct e p) st.products).map Product.id =
          st.products.map Product.id
        apply mapSet_map_key_of_mem
        exact List.mem_map.mpr ⟨e, mapGet_mem _ _ _ _ hE, rfl⟩
      all_goals rfl
  · intro t
    simp only [updateProduct]
    cases hE : mapGet Product.id i st.products with
    | none => rfl
    | some e => cases t <;> rfl

theorem updateRequirement_frame (i : Nat) (p : PartialRequirement) (st : Store) :
    (∀ t, idsOf t ((updateRequirement i p st).2) = idsOf t st) ∧
    (∀ t, counterOf t ((updateRequirement i p st).2) = counterOf t st) := by
  constructor
  · intro t
    simp only [updateRequirement]
    cases hE : mapGet Requirement.id i st.requirements with
    | none => rfl
    | some e =>
      cases t
      case requirements =>
        show (mapSet Requirement.id (patchRequirement e p) st.requirements).map Requirement.id =
          st.requirements.map Requirement.id
        apply mapSet_map_key_of_mem
        exact List.mem_map.mpr ⟨e, mapGet_mem _ _ _ _ hE, rfl⟩
      all_goals rfl
  · intro t
    simp only [updateRequirement]
    cases hE : mapGet Requirement.id i st.requirements with
    | none => rfl
    | some e => cases t <;> rfl

theorem updateRequirementDetail_frame (i : Nat) (p : PartialRequirementDetail) (st : Store) :
    (∀ t, idsOf t ((updateRequirementDetail i p st).2) = idsOf t st) ∧
    (∀ t, counterOf t ((updateRequirementDetail i p st).2) = counterOf t st) := by
  constructor
  · intro t
    simp only [updateRequirementDetail]
    cases hE : mapGet RequirementDetail.id i st.requirementDetails with
    | none => rfl
    | some e =>
      cases t
      case requirementDetails =>
        show (mapSet RequirementDetail.id (patchRequirementDetail e p) st.requirementDetails).map RequirementDetail.id =
          st.requirementDetails.map RequirementDetail.id
        apply mapSet_map_key_of_mem
        exact List.mem_map.mpr ⟨e, mapGet_mem _ _ _ _ hE, rfl⟩
      all_goals rfl
  · intro t
    simp only [updateRequirementDetail]
    cases hE : mapGet RequirementDetail.id i st.requirementDetails with
    | none => rfl
    | some e => cases t <;> rfl

theorem updatePurchaseOrder_frame (i : Nat) (p : PartialPurchaseOrder) (st : Store) :
    (∀ t, idsOf t ((updatePurchaseOrder i p st).2) = idsOf t st) ∧
    (∀ t, counterOf t ((updatePurchaseOrder i p st).2) = counterOf t st) := by
  constructor
  · intro t
    simp only [updatePurchaseOrder]
    cases hE : mapGet PurchaseOrder.id i st.purchaseOrders with
    | none => rfl
    | some e =>
      cases t
      case purchaseOrders =>
        show (mapSet PurchaseOrder.id (patchPurchaseOrder e p) st.purchaseOrders).map PurchaseOrder.id =
          st.purchaseOrders.map PurchaseOrder.id
        apply mapSet_map_key_of_mem
        exact List.mem_map.mpr ⟨e, mapGet_mem _ _ _ _ hE, rfl⟩
      all_goals rfl
  · intro t
    simp only [updatePurchaseOrder]
    cases hE : mapGet PurchaseOrder.id i st.purchaseOrders with
    | none => rfl
    | some e => cases t <;> rfl

theorem updatePurchaseOrderDetail_frame (i : Nat) (p : PartialPurchaseOrderDetail) (st : Store) :
    (∀ t, idsOf t ((updatePurchaseOrderDetail i p st).2) = idsOf t st) ∧
    (∀ t, counterOf t ((updatePurchaseOrderDetail i p st).2) = counterOf t st) := by
  constructor
  · intro t
    simp only [updatePurchaseOrderDetail]
    cases hE : mapGet PurchaseOrderDetail.id i st.purchaseOrderDetails with
    | none => rfl
    | some e =>
      cases t
      case purchaseOrderDetails =>
        show (mapSet PurchaseOrderDetail.id (patchPurchaseOrderDetail e p) st.purchaseOrderDetails).map PurchaseOrderDetail.id =
          st.purchaseOrderDetails.map PurchaseOrderDetail.id
        apply mapSet_map_key_of_mem
        exact List.mem_map.mpr ⟨e, mapGet_mem _ _ _ _ hE, rfl⟩
      all_goals rfl
  · intro t
    simp only [updatePurchaseOrderDetail]
    cases hE : mapGet PurchaseOrderDetail.id i st.purchaseOrderDetails with
    | none => rfl
    | some e => cases t <;> rfl

theorem updateReception_frame (i : Nat) (p : PartialReception) (st : Store) :
    (∀ t, idsOf t ((updateReception i p st).2) = idsOf t st) ∧
    (∀ t, counterOf t ((updateReception i p st).2) = counterOf t st) := by
  constructor
  · intro t
    simp only [updateReception]
    cases hE : mapGet Reception.id i st.receptions with
    | none => rfl
    | some e =>
      cases t
      case receptions =>
        show (mapSet Reception.id (patchReception e p) st.receptions).map Reception.id =
          st.receptions.map Reception.id
        apply mapSet_map_key_of_mem
        exact List.mem_map.mpr ⟨e, mapGet_mem _ _ _ _ hE, rfl⟩
      all_goals rfl
  · intro t
    simp only [updateReception]
    cases hE : mapGet Reception.id i st.receptions with
    | none => rfl
    | some e => cases t <;> rfl

theorem updateReceptionDetail_frame (i : Nat) (p : PartialReceptionDetail) (st : Store) :
    (∀ t, idsOf t ((updateReceptionDetail i p st).2) = idsOf t st) ∧
    (∀ t, counterOf t ((updateReceptionDetail i p st).2) = counterOf t st) := by
  constructor
  · intro t
    simp only [updateReceptionDetail]
    cases hE : mapGet ReceptionDetail.id i st.receptionDetails with
    | none => rfl
    | some e =>
      cases t
      case receptionDetails =>
        show (mapSet ReceptionDetail.id (patchReceptionDetail e p) st.receptionDetails).map ReceptionDetail.id =
          st.receptionDetails.map ReceptionDetail.id
        apply mapSet_map_key_of_mem
        exact List.mem_map.mpr ⟨e, mapGet_mem _ _ _ _ hE, rfl⟩
      all_goals rfl
  · intro t
    simp only [updateReceptionDetail]
    cases hE : mapGet ReceptionDetail.id i st.receptionDetails with
    | none => rfl
    | some e => cases t <;> rfl

theorem updateOutput_frame (i : Nat) (p : PartialOutput) (st : Store) :
    (∀ t, idsOf t ((updateOutput i p st).2) = idsOf t st) ∧
    (∀ t, counterOf t ((updateOutput i p st).2) = counterOf t st) := by
  constructor
  · intro t
    simp only [updateOutput]
    cases hE : mapGet Output.id i st.outputs with
    | none => rfl
    | some e =>
      cases t
      case outputs =>
        show (mapSet Output.id (patchOutput e p) st.outputs).map Output.id =
          st.outputs.map Output.id
        apply mapSet_map_key_of_mem
        exact List.mem_map.mpr ⟨e, mapGet_mem _ _ _ _ hE, rfl⟩
      all_goals rfl
  · intro t
    simp only [updateOutput]
    cases hE : mapGet Output.id i st.outputs with
    | none => rfl
    | some e => cases t <;> rfl

theorem updateOutputDetail_frame (i : Nat) (p : PartialOutputDetail) (st : Store) :
    (∀ t, idsOf t ((updateOutputDetail i p st).2) = idsOf t st) ∧
    (∀ t, counterOf t ((updateOutputDetail i p st).2) = counterOf t st) := by
  constructor
  · intro t
    simp only [updateOutputDetail]
    cases hE : mapGet OutputDetail.id i st.outputDetails with
    | none => rfl
    | some e =>
      cases t
      case outputDetails =>
        show (mapSet OutputDetail.id (patchOutputDetail e p) st.outputDetails).map OutputDetail.id =
          st.outputDetails.map OutputDetail.id
        apply mapSet_map_key_of_mem
        exact List.mem_map.mpr ⟨e, mapGet_mem _ _ _ _ hE, rfl⟩
      all_goals rfl
  · intro t
    simp only [updateOutputDetail]
    cases hE : mapGet OutputDetail.id i st.outputDetails with
    | none => rfl
    | some e => cases t <;> rfl

theorem updateInvoice_frame (i : Nat) (p : PartialInvoice) (st : Store) :
    (∀ t, idsOf t ((updateInvoice i p st).2) = idsOf t st) ∧
    (∀ t, counterOf t ((updateInvoice i p st).2) = counterOf t st) := by
  constructor
  · intro t
    simp only [updateInvoice]
    cases hE : mapGet Invoice.id i st.invoices with
    | none => rfl
    | some e =>
      cases t
      case invoices =>
        show (mapSet Invoice.id (patchInvoice e p) st.invoices).map Invoice.id =
          st.invoices.map Invoice.id
        apply mapSet_map_key_of_mem
        exact List.mem_map.mpr ⟨e, mapGet_mem _ _ _ _ hE, rfl⟩
      all_goals rfl
  · intro t
    simp only [updateInvoice]
    cases hE : mapGet Invoice.id i st.invoices with
    | none => rfl
    | some e => cases t <;> rfl

theorem updateProductStock_frame (i : Nat) (quantity : Int) (st : Store) :
    (∀ t, idsOf t ((updateProductStock i quantity st).2) = idsOf t st) ∧
    (∀ t, counterOf t ((updateProductStock i quantity st).2) = counterOf t st) := by
  constructor
  · intro t
    simp only [updateProductStock]
    cases hE : mapGet Product.id i st.products with
    | none => rfl
    | some e =>
      cases t
      case products =>
        show (mapSet Product.id { e with currentStock := e.currentStock + quantity }
          st.products).map Product.id = st.products.map Product.id
        apply mapSet_map_key_of_mem
        exact List.mem_map.mpr ⟨e, mapGet_mem _ _ _ _ hE, rfl⟩
      all_goals rfl
  · intro t
    simp only [updateProductStock]
    cases hE : mapGet Product.id i st.products with
    | none => rfl
    | some e => cases t <;> rfl

theorem deleteSupplier_frame (i : Nat) (st : Store) :
    (∀ t, (idsOf t ((deleteSupplier i st).2)).Sublist (idsOf t st)) ∧
    (∀ t, counterOf t ((deleteSupplier i st).2) = counterOf t st) := by
  constructor
  · intro t
    cases t
    case suppliers =>
      show ((mapDelete Supplier.id i st.suppliers).2.map Supplier.id).Sublist
        (st.suppliers.map Supplier.id)
      exact (mapDelete_sublist _ _ _).map _
    all_goals exact List.Sublist.refl _
  · intro t
    cases t <;> rfl

theorem deleteProduct_frame (i : Nat) (st : Store) :
    (∀ t, (idsOf t ((deleteProduct i st).2)).Sublist (idsOf t st)) ∧
    (∀ t, counterOf t ((deleteProduct i st).2) = counterOf t st) := by
  constructor
  · intro t
    cases t
    case products =>
      show ((mapDelete Product.id i st.products).2.map Product.id).Sublist
        (st.products.map Product.id)
      exact (mapDelete_sublist _ _ _).map _
    all_goals exact List.Sublist.refl _
  · intro t
    cases t <;> rfl

theorem deleteRequirement_frame (i : Nat) (st : Store) :
    (∀ t, (idsOf t ((deleteRequirement i st).2)).Sublist (idsOf t st)) ∧
    (∀ t, counterOf t ((deleteRequirement i st).2) = counterOf t st) := by
  constructor
  · intro t
    cases t
    case requirements =>
      show ((mapDelete Requirement.id i st.requirements).2.map Requirement.id).Sublist
        (st.requirements.map Requirement.id)
      exact (mapDelete_sublist _ _ _).map _
    all_goals exact List.Sublist.refl _
  · intro t
    cases t <;> rfl

theorem deleteRequirementDetail_frame (i : Nat) (st : Store) :
    (∀ t, (idsOf t ((deleteRequirementDetail i st).2)).Sublist (idsOf t st)) ∧
    (∀ t, counterOf t ((deleteRequirementDetail i st).2) = counterOf t st) := by
  constructor
  · intro t
    cases t
    case requirementDetails =>
      show ((mapDelete RequirementDetail.id i st.requirementDetails).2.map RequirementDetail.id).Sublist
        (st.requirementDetails.map RequirementDetail.id)
      exact (mapDelete_sublist _ _ _).map _
    all_goals exact List.Sublist.refl _
  · intro t
    cases t <;> rfl

theorem deletePurchaseOrder_frame (i : Nat) (st : Store) :
    (∀ t, (idsOf t ((deletePurchaseOrder i st).2)).Sublist (idsOf t st)) ∧
    (∀ t, counterOf t ((deletePurchaseOrder i st).2) = counterOf t st) := by
  constructor
  · intro t
    cases t
    case purchaseOrders =>
      show ((mapDelete PurchaseOrder.id i st.purchaseOrders).2.map PurchaseOrder.id).Sublist
        (st.purchaseOrders.map PurchaseOrder.id)
      exact (mapDelete_sublist _ _ _).map _
    all_goals exact List.Sublist.refl _
  · intro t
    cases t <;> rfl

theorem deletePurchaseOrderDetail_frame (i : Nat) (st : Store) :
    (∀ t, (idsOf t ((deletePurchaseOrderDetail i st).2)).Sublist (idsOf t st)) ∧
    (∀ t, counterOf t ((deletePurchaseOrderDetail i st).2) = counterOf t st) := by
  constructor
  · intro t
    cases t
    case purchaseOrderDetails =>
      show ((mapDelete PurchaseOrderDetail.id i st.purchaseOrderDetails).2.map PurchaseOrderDetail.id).Sublist
        (st.purchaseOrderDetails.map PurchaseOrderDetail.id)
      exact (mapDelete_sublist _ _ _).map _
    all_goals exact List.Sublist.refl _
  · intro t
    cases t <;> rfl

theorem deleteReception_frame (i : Nat) (st : Store) :
    (∀ t, (idsOf t ((deleteReception i st).2)).Sublist (idsOf t st)) ∧
    (∀ t, counterOf t ((deleteReception i st).2) = counterOf t st) := by
  constructor
  · intro t
    cases t
    case receptions =>
      show ((mapDelete Reception.id i st.receptions).2.map Reception.id).Sublist
        (st.receptions.map Reception.id)
      exact (mapDelete_sublist _ _ _).map _
    all_goals exact List.Sublist.refl _
  · intro t
    cases t <;> rfl

theorem deleteReceptionDetail_frame (i : Nat) (st : Store) :
    (∀ t, (idsOf t ((deleteReceptionDetail i st).2)).Sublist (idsOf t st)) ∧
    (∀ t, counterOf t ((deleteReceptionDetail i st).2) = counterOf t st) := by
  constructor
  · intro t
    cases t
    case receptionDetails =>
      show ((mapDelete ReceptionDetail.id i st.receptionDetails).2.map ReceptionDetail.id).Sublist
        (st.receptionDetails.map ReceptionDetail.id)
      exact (mapDelete_sublist _ _ _).map _
    all_goals exact List.Sublist.refl _
  · intro t
    cases t <;> rfl

theorem deleteOutput_frame (i : Nat) (st : Store) :
    (∀ t, (idsOf t ((deleteOutput i st).2)).Sublist (idsOf t st)) ∧
    (∀ t, counterOf t ((deleteOutput i st).2) = counterOf t st) := by
  constructor
  · intro t
    cases t
    case outputs =>
      show ((mapDelete Output.id i st.outputs).2.map Output.id).Sublist
        (st.outputs.map Output.id)
      exact (mapDelete_sublist _ _ _).map _
    all_goals exact List.Sublist.refl _
  · intro t
    cases t <;> rfl

theorem deleteOutputDetail_frame (i : Nat) (st : Store) :
    (∀ t, (idsOf t ((deleteOutputDetail i st).2)).Sublist (idsOf t st)) ∧
    (∀ t, counterOf t ((deleteOutputDetail i st).2) = counterOf t st) := by
  constructor
  · intro t
    cases t
    case outputDetails =>
      show ((mapDelete OutputDetail.id i st.outputDetails).2.map OutputDetail.id).Sublist
        (st.outputDetails.map OutputDetail.id)
      exact (mapDelete_sublist _ _ _).map _
    all_goals exact List.Sublist.refl _
  · intro t
    cases t <;> rfl

theorem deleteInvoice_frame (i : Nat) (st : Store) :
    (∀ t, (idsOf t ((deleteInvoice i st).2)).Sublist (idsOf t st)) ∧
    (∀ t, counterOf t ((deleteInvoice i st).2) = counterOf t st) := by
  constructor
  · intro t
    cases t
    case invoices =>
      show ((mapDelete Invoice.id i st.invoices).2.map Invoice.id).Sublist
        (st.invoices.map Invoice.id)
      exact (mapDelete_sublist _ _ _).map _
    all_goals exact List.Sublist.refl _
  · intro t
    cases t <;> rfl

/-! ## Preservation of the table invariant by every storage operation -/

theorem applyOp_Inv (op : StorageOp) (st : Store) (h : Inv st) : Inv (applyOp op st) := by
  cases op with
  | createUser u =>
    intro t
    cases t
    case users =>
      simp only [applyOp, createUser, idsOf, counterOf]
      rw [mapSet_fresh_map User.id _ _ _ (h .users) rfl]
      exact TInv_append _ _ (h .users)
    all_goals
      first
      | exact h TableTag.users
      | exact h TableTag.suppliers
      | exact h TableTag.products
      | exact h TableTag.requirements
      | exact h TableTag.requirementDetails
      | exact h TableTag.purchaseOrders
      | exact h TableTag.purchaseOrderDetails
      | exact h TableTag.receptions
      | exact h TableTag.receptionDetails
      | exact h TableTag.inventoryMovements
      | exact h TableTag.outputs
      | exact h TableTag.outputDetails
      | exact h TableTag.invoices
      | exact h TableTag.systemActivities
  | createSupplier s now =>
    intro t
    cases t
    case suppliers =>
      simp only [applyOp, createSupplier, idsOf, counterOf]
      rw [mapSet_fresh_map Supplier.id _ _ _ (h .suppliers) rfl]
      exact TInv_append _ _ (h .suppliers)
    all_goals
      first
      | exact h TableTag.users
      | exact h TableTag.suppliers
      | exact h TableTag.products
      | exact h TableTag.requirements
      | exact h TableTag.requirementDetails
      | exact h TableTag.purchaseOrders
      | exact h TableTag.purchaseOrderDetails
      | exact h TableTag.receptions
      | exact h TableTag.receptionDetails
      | exact h TableTag.inventoryMovements
      | exact h TableTag.outputs
      | exact h TableTag.outputDetails
      | exact h TableTag.invoices
      | exact h TableTag.systemActivities
  | createProduct p now =>
    intro t
    cases t
    case products =>
      simp only [applyOp, createProduct, idsOf, counterOf]
      rw [mapSet_fresh_map Product.id _ _ _ (h .products) rfl]
      exact TInv_append _ _ (h .products)
    all_goals
      first
      | exact h TableTag.users
      | exact h TableTag.suppliers
      | exact h TableTag.products
      | exact h TableTag.requirements
      | exact h TableTag.requirementDetails
      | exact h TableTag.purchaseOrders
      | exact h TableTag.purchaseOrderDetails
      | exact h TableTag.receptions
      | exact h TableTag.receptionDetails
      | exact h TableTag.inventoryMovements
      | exact h TableTag.outputs
      | exact h TableTag.outputDetails
      | exact h TableTag.invoices
      | exact h TableTag.systemActivities
  | createRequirement r now =>
    intro t
    cases t
    case requirements =>
      simp only [applyOp, createRequirement, idsOf, counterOf]
      rw [mapSet_fresh_map Requirement.id _ _ _ (h .requirements) rfl]
      exact TInv_append _ _ (h .requirements)
    all_goals
      first
      | exact h TableTag.users
      | exact h TableTag.suppliers
      | exact h TableTag.products
      | exact h TableTag.requirements
      | exact h TableTag.requirementDetails
      | exact h TableTag.purchaseOrders
      | exact h TableTag.purchaseOrderDetails
      | exact h TableTag.receptions
      | exact h TableTag.receptionDetails
      | exact h TableTag.inventoryMovements
      | exact h TableTag.outputs
      | exact h TableTag.outputDetails
      | exact h TableTag.invoices
      | exact h TableTag.systemActivities
  | createRequirementDetail d =>
    intro t
    cases t
    case requirementDetails =>
      simp only [applyOp, createRequirementDetail, idsOf, counterOf]
      rw [mapSet_fresh_map RequirementDetail.id _ _ _ (h .requirementDetails) rfl]
      exact TInv_append _ _ (h .requirementDetails)
    all_goals
      first
      | exact h TableTag.users
      | exact h TableTag.suppliers
      | exact h TableTag.products
      | exact h TableTag.requirements
      | exact h TableTag.requirementDetails
      | exact h TableTag.purchaseOrders
      | exact h TableTag.purchaseOrderDetails
      | exact h TableTag.receptions
      | exact h TableTag.receptionDetails
      | exact h TableTag.inventoryMovements
      | exact h TableTag.outputs
      | exact h TableTag.outputDetails
      | exact h TableTag.invoices
      | exact h TableTag.systemActivities
  | createPurchaseOrder o now =>
    intro t
    cases t
    case purchaseOrders =>
      simp only [applyOp, createPurchaseOrder, idsOf, counterOf]
      rw [mapSet_fresh_map PurchaseOrder.id _ _ _ (h .purchaseOrders) rfl]
      exact TInv_append _ _ (h .purchaseOrders)
    all_goals
      first
      | exact h TableTag.users
      | exact h TableTag.suppliers
      | exact h TableTag.products
      | exact h TableTag.requirements
      | exact h TableTag.requirementDetails
      | exact h TableTag.purchaseOrders
      | exact h TableTag.purchaseOrderDetails
      | exact h TableTag.receptions
      | exact h TableTag.receptionDetails
      | exact h TableTag.inventoryMovements
      | exact h TableTag.outputs
      | exact h TableTag.outputDetails
      | exact h TableTag.invoices
      | exact h TableTag.systemActivities
  | createPurchaseOrderDetail d =>
    intro t
    cases t
    case purchaseOrderDetails =>
      simp only [applyOp, createPurchaseOrderDetail, idsOf, counterOf]
      rw [mapSet_fresh_map PurchaseOrderDetail.id _ _ _ (h .purchaseOrderDetails) rfl]
      exact TInv_append _ _ (h .purchaseOrderDetails)
    all_goals
      first
      | exact h TableTag.users
      | exact h TableTag.suppliers
      | exact h TableTag.products
      | exact h TableTag.requirements
      | exact h TableTag.requirementDetails
      | exact h TableTag.purchaseOrders
      | exact h TableTag.purchaseOrderDetails
      | exact h TableTag.receptions
      | exact h TableTag.receptionDetails
      | exact h TableTag.inventoryMovements
      | exact h TableTag.outputs
      | exact h TableTag.outputDetails
      | exact h TableTag.invoices
      | exact h TableTag.systemActivities
  | createReception r now =>
    intro t
    cases t
    case receptions =>
      simp only [applyOp, createReception, idsOf, counterOf]
      rw [mapSet_fresh_map Reception.id _ _ _ (h .receptions) rfl]
      exact TInv_append _ _ (h .receptions)
    all_goals
      first
      | exact h TableTag.users
      | exact h TableTag.suppliers
      | exact h TableTag.products
      | exact h TableTag.requirements
      | exact h TableTag.requirementDetails
      | exact h TableTag.purchaseOrders
      | exact h TableTag.purchaseOrderDetails
      | exact h TableTag.receptions
      | exact h TableTag.receptionDetails
      | exact h TableTag.inventoryMovements
      | exact h TableTag.outputs
      | exact h TableTag.outputDetails
      | exact h TableTag.invoices
      | exact h TableTag.systemActivities
  | createReceptionDetail d =>
    intro t
    cases t
    case receptionDetails =>
      simp only [applyOp, createReceptionDetail, idsOf, counterOf]
      rw [mapSet_fresh_map ReceptionDetail.id _ _ _ (h .receptionDetails) rfl]
      exact TInv_append _ _ (h .receptionDetails)
    all_goals
      first
      | exact h TableTag.users
      | exact h TableTag.suppliers
      | exact h TableTag.products
      | exact h TableTag.requirements
      | exact h TableTag.requirementDetails
      | exact h TableTag.purchaseOrders
      | exact h TableTag.purchaseOrderDetails
      | exact h TableTag.receptions
      | exact h TableTag.receptionDetails
      | exact h TableTag.inventoryMovements
      | exact h TableTag.outputs
      | exact h TableTag.outputDetails
      | exact h TableTag.invoices
      | exact h TableTag.systemActivities
  | createInventoryMovement m now =>
    intro t
    cases t
    case inventoryMovements =>
      simp only [applyOp, createInventoryMovement, idsOf, counterOf]
      rw [mapSet_fresh_map InventoryMovement.id _ _ _ (h .inventoryMovements) rfl]
      exact TInv_append _ _ (h .inventoryMovements)
    all_goals
      first
      | exact h TableTag.users
      | exact h TableTag.suppliers
      | exact h TableTag.products
      | exact h TableTag.requirements
      | exact h TableTag.requirementDetails
      | exact h TableTag.purchaseOrders
      | exact h TableTag.purchaseOrderDetails
      | exact h TableTag.receptions
      | exact h TableTag.receptionDetails
      | exact h TableTag.inventoryMovements
      | exact h TableTag.outputs
      | exact h TableTag.outputDetails
      | exact h TableTag.invoices
      | exact h TableTag.systemActivities
  | createOutput o now =>
    intro t
    cases t
    case outputs =>
      simp only [applyOp, createOutput, idsOf, counterOf]
      rw [mapSet_fresh_map Output.id _ _ _ (h .outputs) rfl]
      exact TInv_append _ _ (h .outputs)
    all_goals
      first
      | exact h TableTag.users
      | exact h TableTag.suppliers
      | exact h TableTag.products
      | exact h TableTag.requirements
      | exact h TableTag.requirementDetails
      | exact h TableTag.purchaseOrders
      | exact h TableTag.purchaseOrderDetails
      | exact h TableTag.receptions
      | exact h TableTag.receptionDetails
      | exact h TableTag.inventoryMovements
      | exact h TableTag.outputs
      | exact h TableTag.outputDetails
      | exact h TableTag.invoices
      | exact h TableTag.systemActivities
  | createOutputDetail d =>
    intro t
    cases t
    case outputDetails =>
      simp only [applyOp, createOutputDetail, idsOf, counterOf]
      rw [mapSet_fresh_map OutputDetail.id _ _ _ (h .outputDetails) rfl]
      exact TInv_append _ _ (h .outputDetails)
    all_goals
      first
      | exact h TableTag.users
      | exact h TableTag.suppliers
      | exact h TableTag.products
      | exact h TableTag.requirements
      | exact h TableTag.requirementDetails
      | exact h TableTag.purchaseOrders
      | exact h TableTag.purchaseOrderDetails
      | exact h TableTag.receptions
      | exact h TableTag.receptionDetails
      | exact h TableTag.inventoryMovements
      | exact h TableTag.outputs
      | exact h TableTag.outputDetails
      | exact h TableTag.invoices
      | exact h TableTag.systemActivities
  | createInvoice i now =>
    intro t
    cases t
    case invoices =>
      simp only [applyOp, createInvoice, idsOf, counterOf]
      rw [mapSet_fresh_map Invoice.id _ _ _ (h .invoices) rfl]
      exact TInv_append _ _ (h .invoices)
    all_goals
      first
      | exact h TableTag.users
      | exact h TableTag.suppliers
      | exact h TableTag.products
      | exact h TableTag.requirements
      | exact h TableTag.requirementDetails
      | exact h TableTag.purchaseOrders
      | exact h TableTag.purchaseOrderDetails
      | exact h TableTag.receptions
      | exact h TableTag.receptionDetails
      | exact h TableTag.inventoryMovements
      | exact h TableTag.outputs
      | exact h TableTag.outputDetails
      | exact h TableTag.invoices
      | exact h TableTag.systemActivities
  | createSystemActivity a now =>
    intro t
    cases t
    case systemActivities =>
      simp only [applyOp, createSystemActivity, idsOf, counterOf]
      rw [mapSet_fresh_map SystemActivity.id _ _ _ (h .systemActivities) rfl]
      exact TInv_append _ _ (h .systemActivities)
    all_goals
      first
      | exact h TableTag.users
      | exact h TableTag.suppliers
      | exact h TableTag.products
      | exact h TableTag.requirements
      | exact h TableTag.requirementDetails
      | exact h TableTag.purchaseOrders
      | exact h TableTag.purchaseOrderDetails
      | exact h TableTag.receptions
      | exact h TableTag.receptionDetails
      | exact h TableTag.inventoryMovements
      | exact h TableTag.outputs
      | exact h TableTag.outputDetails
      | exact h TableTag.invoices
      | exact h TableTag.systemActivities
  | updateSupplier i p =>
    intro t
    simp only [applyOp]
    rw [(updateSupplier_frame i p st).1 t, (updateSupplier_frame i p st).2 t]
    exact h t
  | updateProduct i p =>
    intro t
    simp only [applyOp]
    rw [(updateProduct_frame i p st).1 t, (updateProduct_frame i p st).2 t]
    exact h t
  | updateProductStock i q =>
    intro t
    simp only [applyOp]
    rw [(updateProductStock_frame i q st).1 t, (updateProductStock_frame i q st).2 t]
    exact h t
  | updateRequirement i p =>
    intro t
    simp only [applyOp]
    rw [(updateRequirement_frame i p st).1 t, (updateRequirement_frame i p st).2 t]
    exact h t
  | updateRequirementDetail i p =>
    intro t
    simp only [applyOp]
    rw [(updateRequirementDetail_frame i p st).1 t, (updateRequirementDetail_frame i p st).2 t]
    exact h t
  | updatePurchaseOrder i p =>
    intro t
    simp only [applyOp]
    rw [(updatePurchaseOrder_frame i p st).1 t, (updatePurchaseOrder_frame i p st).2 t]
    exact h t
  | updatePurchaseOrderDetail i p =>
    intro t
    simp only [applyOp]
    rw [(updatePurchaseOrderDetail_frame i p st).1 t, (updatePurchaseOrderDetail_frame i p st).2 t]
    exact h t
  | updateReception i p =>
    intro t
    simp only [applyOp]
    rw [(updateReception_frame i p st).1 t, (updateReception_frame i p st).2 t]
    exact h t
  | updateReceptionDetail i p =>
    intro t
    simp only [applyOp]
    rw [(updateReceptionDetail_frame i p st).1 t, (updateReceptionDetail_frame i p st).2 t]
    exact h t
  | updateOutput i p =>
    intro t
    simp only [applyOp]
    rw [(updateOutput_frame i p st).1 t, (updateOutput_frame i p st).2 t]
    exact h t
  | updateOutputDetail i p =>
    intro t
    simp only [applyOp]
    rw [(updateOutputDetail_frame i p st).1 t, (updateOutputDetail_frame i p st).2 t]
    exact h t
  | updateInvoice i p =>
    intro t
    simp only [applyOp]
    rw [(updateInvoice_frame i p st).1 t, (updateInvoice_frame i p st).2 t]
    exact h t
  | deleteSupplier i =>
    intro t
    simp only [applyOp]
    rw [(deleteSupplier_frame i st).2 t]
    exact TInv_sublist _ _ _ (h t) ((deleteSupplier_frame i st).1 t)
  | deleteProduct i =>
    intro t
    simp only [applyOp]
    rw [(deleteProduct_frame i st).2 t]
    exact TInv_sublist _ _ _ (h t) ((deleteProduct_frame i st).1 t)
  | deleteRequirement i =>
    intro t
    simp only [applyOp]
    rw [(deleteRequirement_frame i st).2 t]
    exact TInv_sublist _ _ _ (h t) ((deleteRequirement_frame i st).1 t)
  | deleteRequirementDetail i =>
    intro t
    simp only [applyOp]
    rw [(deleteRequirementDetail_frame i st).2 t]
    exact TInv_sublist _ _ _ (h t) ((deleteRequirementDetail_frame i st).1 t)
  | deletePurchaseOrder i =>
    intro t
    simp only [applyOp]
    rw [(deletePurchaseOrder_frame i st).2 t]
    exact TInv_sublist _ _ _ (h t) ((deletePurchaseOrder_frame i st).1 t)
  | deletePurchaseOrderDetail i =>
    intro t
    simp only [applyOp]
    rw [(deletePurchaseOrderDetail_frame i st).2 t]
    exact TInv_sublist _ _ _ (h t) ((deletePurchaseOrderDetail_frame i st).1 t)
  | deleteReception i =>
    intro t
    simp only [applyOp]
    rw [(deleteReception_frame i st).2 t]
    exact TInv_sublist _ _ _ (h t) ((deleteReception_frame i st).1 t)
  | deleteReceptionDetail i =>
    intro t
    simp only [applyOp]
    rw [(deleteReceptionDetail_frame i st).2 t]
    exact TInv_sublist _ _ _ (h t) ((deleteReceptionDetail_frame i st).1 t)
  | deleteOutput i =>
    intro t
    simp only [applyOp]
    rw [(deleteOutput_frame i st).2 t]
    exact TInv_sublist _ _ _ (h t) ((deleteOutput_frame i st).1 t)
  | deleteOutputDetail i =>
    intro t
    simp only [applyOp]
    rw [(deleteOutputDetail_frame i st).2 t]
    exact TInv_sublist _ _ _ (h t) ((deleteOutputDetail_frame i st).1 t)
  | deleteInvoice i =>
    intro t
    simp only [applyOp]
    rw [(deleteInvoice_frame i st).2 t]
    exact TInv_sublist _ _ _ (h t) ((deleteInvoice_frame i st).1 t)

theorem applyOp_counterOf_le (op : StorageOp) (st : Store) (t : TableTag) :
    counterOf t st ≤ counterOf t (applyOp op st) := by
  cases op with
  | createUser u =>
    cases t <;> first | exact Nat.le_refl _ | exact Nat.le_succ _
  | createSupplier s now =>
    cases t <;> first | exact Nat.le_refl _ | exact Nat.le_succ _
  | createProduct p now =>
    cases t <;> first | exact Nat.le_refl _ | exact Nat.le_succ _
  | createRequirement r now =>
    cases t <;> first | exact Nat.le_refl _ | exact Nat.le_succ _
  | createRequirementDetail d =>
    cases t <;> first | exact Nat.le_refl _ | exact Nat.le_succ _
  | createPurchaseOrder o now =>
    cases t <;> first | exact Nat.le_refl _ | exact Nat.le_succ _
  | createPurchaseOrderDetail d =>
    cases t <;> first | exact Nat.le_refl _ | exact Nat.le_succ _
  | createReception r now =>
    cases t <;> first | exact Nat.le_refl _ | exact Nat.le_succ _
  | createReceptionDetail d =>
    cases t <;> first | exact Nat.le_refl _ | exact Nat.le_succ _
  | createInventoryMovement m now =>
    cases t <;> first | exact Nat.le_refl _ | exact Nat.le_succ _
  | createOutput o now =>
    cases t <;> first | exact Nat.le_refl _ | exact Nat.le_succ _
  | createOutputDetail d =>
    cases t <;> first | exact Nat.le_refl _ | exact Nat.le_succ _
  | createInvoice i now =>
    cases t <;> first | exact Nat.le_refl _ | exact Nat.le_succ _
  | createSystemActivity a now =>
    cases t <;> first | exact Nat.le_refl _ | exact Nat.le_succ _
  | updateSupplier i p => exact Nat.le_of_eq ((updateSupplier_frame i p st).2 t).symm
  | updateProduct i p => exact Nat.le_of_eq ((updateProduct_frame i p st).2 t).symm
  | updateProductStock i q => exact Nat.le_of_eq ((updateProductStock_frame i q st).2 t).symm
  | updateRequirement i p => exact Nat.le_of_eq ((updateRequirement_frame i p st).2 t).symm
  | updateRequirementDetail i p => exact Nat.le_of_eq ((updateRequirementDetail_frame i p st).2 t).symm
  | updatePurchaseOrder i p => exact Nat.le_of_eq ((updatePurchaseOrder_frame i p st).2 t).symm
  | updatePurchaseOrderDetail i p => exact Nat.le_of_eq ((updatePurchaseOrderDetail_frame i p st).2 t).symm
  | updateReception i p => exact Nat.le_of_eq ((updateReception_frame i p st).2 t).symm
  | updateReceptionDetail i p => exact Nat.le_of_eq ((updateReceptionDetail_frame i p st).2 t).symm
  | updateOutput i p => exact Nat.le_of_eq ((updateOutput_frame i p st).2 t).symm
  | updateOutputDetail i p => exact Nat.le_of_eq ((updateOutputDetail_frame i p st).2 t).symm
  | updateInvoice i p => exact Nat.le_of_eq ((updateInvoice_frame i p st).2 t).symm
  | deleteSupplier i => exact Nat.le_of_eq ((deleteSupplier_frame i st).2 t).symm
  | deleteProduct i => exact Nat.le_of_eq ((deleteProduct_frame i st).2 t).symm
  | deleteRequirement i => exact Nat.le_of_eq ((deleteRequirement_frame i st).2 t).symm
  | deleteRequirementDetail i => exact Nat.le_of_eq ((deleteRequirementDetail_frame i st).2 t).symm
  | deletePurchaseOrder i => exact Nat.le_of_eq ((deletePurchaseOrder_frame i st).2 t).symm
  | deletePurchaseOrderDetail i => exact Nat.le_of_eq ((deletePurchaseOrderDetail_frame i st).2 t).symm
  | deleteReception i => exact Nat.le_of_eq ((deleteReception_frame i st).2 t).symm
  | deleteReceptionDetail i => exact Nat.le_of_eq ((deleteReceptionDetail_frame i st).2 t).symm
  | deleteOutput i => exact Nat.le_of_eq ((deleteOutput_frame i st).2 t).symm
  | deleteOutputDetail i => exact Nat.le_of_eq ((deleteOutputDetail_frame i st).2 t).symm
  | deleteInvoice i => exact Nat.le_of_eq ((deleteInvoice_frame i st).2 t).symm

theorem applyOp_created (op : StorageOp) (st : Store) (t : TableTag) (h : Inv st)
    (hc : createdTable op = some t) :
    idsOf t (applyOp op st) = idsOf t st ++ [counterOf t st] ∧
    counterOf t st ∉ idsOf t st ∧
    counterOf t (applyOp op st) = counterOf t st + 1 := by
  cases op with
  | createUser u =>
    have ht : TableTag.users = t := Option.some.inj hc
    subst ht
    refine ⟨?_, TInv_notMem _ _ (h .users), rfl⟩
    simp only [applyOp, createUser, idsOf, counterOf]
    exact mapSet_fresh_map User.id _ _ _ (h .users) rfl
  | createSupplier s now =>
    have ht : TableTag.suppliers = t := Option.some.inj hc
    subst ht
    refine ⟨?_, TInv_notMem _ _ (h .suppliers), rfl⟩
    simp only [applyOp, createSupplier, idsOf, counterOf]
    exact mapSet_fresh_map Supplier.id _ _ _ (h .suppliers) rfl
  | createProduct p now =>
    have ht : TableTag.products = t := Option.some.inj hc
    subst ht
    refine ⟨?_, TInv_notMem _ _ (h .products), rfl⟩
    simp only [applyOp, createProduct, idsOf, counterOf]
    exact mapSet_fresh_map Product.id _ _ _ (h .products) rfl
  | createRequirement r now =>
    have ht : TableTag.requirements = t := Option.some.inj hc
    subst ht
    refine ⟨?_, TInv_notMem _ _ (h .requirements), rfl⟩
    simp only [applyOp, createRequirement, idsOf, counterOf]
    exact mapSet_fresh_map Requirement.id _ _ _ (h .requirements) rfl
  | createRequirementDetail d =>
    have ht : TableTag.requirementDetails = t := Option.some.inj hc
    subst ht
    refine ⟨?_, TInv_notMem _ _ (h .requirementDetails), rfl⟩
    simp only [applyOp, createRequirementDetail, idsOf, counterOf]
    exact mapSet_fresh_map RequirementDetail.id _ _ _ (h .requirementDetails) rfl
  | createPurchaseOrder o now =>
    have ht : TableTag.purchaseOrders = t := Option.some.inj hc
    subst ht
    refine ⟨?_, TInv_notMem _ _ (h .purchaseOrders), rfl⟩
    simp only [applyOp, createPurchaseOrder, idsOf, counterOf]
    exact mapSet_fresh_map PurchaseOrder.id _ _ _ (h .purchaseOrders) rfl
  | createPurchaseOrderDetail d =>
    have ht : TableTag.purchaseOrderDetails = t := Option.some.inj hc
    subst ht
    refine ⟨?_, TInv_notMem _ _ (h .purchaseOrderDetails), rfl⟩
    simp only [applyOp, createPurchaseOrderDetail, idsOf, counterOf]
    exact mapSet_fresh_map PurchaseOrderDetail.id _ _ _ (h .purchaseOrderDetails) rfl
  | createReception r now =>
    have ht : TableTag.receptions = t := Option.some.inj hc
    subst ht
    refine ⟨?_, TInv_notMem _ _ (h .receptions), rfl⟩
    simp only [applyOp, createReception, idsOf, counterOf]
    exact mapSet_fresh_map Reception.id _ _ _ (h .receptions) rfl
  | createReceptionDetail d =>
    have ht : TableTag.receptionDetails = t := Option.some.inj hc
    subst ht
    refine ⟨?_, TInv_notMem _ _ (h .receptionDetails), rfl⟩
    simp only [applyOp, createReceptionDetail, idsOf, counterOf]
    exact mapSet_fresh_map ReceptionDetail.id _ _ _ (h .receptionDetails) rfl
  | createInventoryMovement m now =>
    have ht : TableTag.inventoryMovements = t := Option.some.inj hc
    subst ht
    refine ⟨?_, TInv_notMem _ _ (h .inventoryMovements), rfl⟩
    simp only [applyOp, createInventoryMovement, idsOf, counterOf]
    exact mapSet_fresh_map InventoryMovement.id _ _ _ (h .inventoryMovements) rfl
  | createOutput o now =>
    have ht : TableTag.outputs = t := Option.some.inj hc
    subst ht
    refine ⟨?_, TInv_notMem _ _ (h .outputs), rfl⟩
    simp only [applyOp, createOutput, idsOf, counterOf]
    exact mapSet_fresh_map Output.id _ _ _ (h .outputs) rfl
  | createOutputDetail d =>
    have ht : TableTag.outputDetails = t := Option.some.inj hc
    subst ht
    refine ⟨?_, TInv_notMem _ _ (h .outputDetails), rfl⟩
    simp only [applyOp, createOutputDetail, idsOf, counterOf]
    exact mapSet_fresh_map OutputDetail.id _ _ _ (h .outputDetails) rfl
  | createInvoice i now =>
    have ht : TableTag.invoices = t := Option.some.inj hc
    subst ht
    refine ⟨?_, TInv_notMem _ _ (h .invoices), rfl⟩
    simp only [applyOp, createInvoice, idsOf, counterOf]
    exact mapSet_fresh_map Invoice.id _ _ _ (h .invoices) rfl
  | createSystemActivity a now =>
    have ht : TableTag.systemActivities = t := Option.some.inj hc
    subst ht
    refine ⟨?_, TInv_notMem _ _ (h .systemActivities), rfl⟩
    simp only [applyOp, createSystemActivity, idsOf, counterOf]
    exact mapSet_fresh_map SystemActivity.id _ _ _ (h .systemActivities) rfl
  | updateSupplier i p => exact absurd hc (by simp [createdTable])
  | updateProduct i p => exact absurd hc (by simp [createdTable])
  | updateProductStock i q => exact absurd hc (by simp [createdTable])
  | updateRequirement i p => exact absurd hc (by simp [createdTable])
  | updateRequirementDetail i p => exact absurd hc (by simp [createdTable])
  | updatePurchaseOrder i p => exact absurd hc (by simp [createdTable])
  | updatePurchaseOrderDetail i p => exact absurd hc (by simp [createdTable])
  | updateReception i p => exact absurd hc (by simp [createdTable])
  | updateReceptionDetail i p => exact absurd hc (by simp [createdTable])
  | updateOutput i p => exact absurd hc (by simp [createdTable])
  | updateOutputDetail i p => exact absurd hc (by simp [createdTable])
  | updateInvoice i p => exact absurd hc (by simp [createdTable])
  | deleteSupplier i => exact absurd hc (by simp [createdTable])
  | deleteProduct i => exact absurd hc (by simp [createdTable])
  | deleteRequirement i => exact absurd hc (by simp [createdTable])
  | deleteRequirementDetail i => exact absurd hc (by simp [createdTable])
  | deletePurchaseOrder i => exact absurd hc (by simp [createdTable])
  | deletePurchaseOrderDetail i => exact absurd hc (by simp [createdTable])
  | deleteReception i => exact absurd hc (by simp [createdTable])
  | deleteReceptionDetail i => exact absurd hc (by simp [createdTable])
  | deleteOutput i => exact absurd hc (by simp [createdTable])
  | deleteOutputDetail i => exact absurd hc (by simp [createdTable])
  | deleteInvoice i => exact absurd hc (by simp [createdTable])

theorem applyOps_Inv (ops : List StorageOp) (st : Store) (h : Inv st) :
    Inv (applyOps ops st) := by
  induction ops generalizing st with
  | nil => exact h
  | cons op rest ih => exact ih (applyOp op st) (applyOp_Inv op st h)

/-! ## Claim theorems -/

/-- C6: Every create operation on every entity type assigns the new record
the value of that entity type's auto-incrementing counter, which is fresh
(distinct from every stored id of that type) and is appended after the
existing ids, and bumps the counter; counters never decrease under any
storage operation (in particular a delete), so ids are unique, strictly
increasing across creations within one entity type, and a deleted id is
never reassigned; the well-formedness invariant is preserved by every
operation and every sequence of operations. -/
theorem creates_assign_fresh_increasing_ids (st : Store) (h : Inv st) :
    (∀ op, Inv (applyOp op st)) ∧
    (∀ op t, counterOf t st ≤ counterOf t (applyOp op st)) ∧
    (∀ op t, createdTable op = some t →
      idsOf t (applyOp op st) = idsOf t st ++ [counterOf t st] ∧
      counterOf t st ∉ idsOf t st ∧
      counterOf t (applyOp op st) = counterOf t st + 1) ∧
    (∀ ops, Inv (applyOps ops st)) :=
  ⟨fun op => applyOp_Inv op st h,
   fun op t => applyOp_counterOf_le op st t,
   fun op t hc => applyOp_created op st t h hc,
   fun ops => applyOps_Inv ops st h⟩

/-- Witness for C6: the freshly seeded store satisfies the invariant, and
creating a supplier in it appends the current counter value as the new id. -/
theorem creates_assign_fresh_increasing_ids_witness :
    Inv (initStore 0) ∧
    (idsOf .suppliers
        (applyOp (.createSupplier ⟨"X", none, none, none, none, none, none, "active"⟩ 0)
          (initStore 0)) =
      idsOf .suppliers (initStore 0) ++ [counterOf .suppliers (initStore 0)] ∧
      counterOf .suppliers (initStore 0) ∉ idsOf .suppliers (initStore 0) ∧
      counterOf .suppliers
          (applyOp (.createSupplier ⟨"X", none, none, none, none, none, none, "active"⟩ 0)
            (initStore 0)) =
        counterOf .suppliers (initStore 0) + 1) :=
  ⟨by decide,
   ((creates_assign_fresh_increasing_ids (initStore 0) (by decide)).2.2.1
     (.createSupplier ⟨"X", none, none, none, none, none, none, "active"⟩ 0)
     .suppliers rfl)⟩

/-- C7: the dashboard counts equal the sizes of the corresponding filtered
sets of the store: requirements with status "pending", purchase orders with
status "pending" or "confirmed", and outputs with status "pending". -/
theorem dashboard_counts_spec (now : Int) (st : Store) :
    (getDashboard now st).pendingRequirementsCount =
      (st.requirements.filter (fun r => r.status == "pending")).length ∧
    (getDashboard now st).activeOrdersCount =
      (st.purchaseOrders.filter
        (fun o => o.status == "pending" || o.status == "confirmed")).length ∧
    (getDashboard now st).pendingOutputsCount =
      (st.outputs.filter (fun o => o.status == "pending")).length := by
  refine ⟨rfl, ?_, rfl⟩
  simp only [getDashboard, getActivePurchaseOrders]
  congr 1
  apply List.filter_congr
  intro o _
  cases h1 : o.status == "pending" <;> cases h2 : o.status == "confirmed" <;>
    simp [List.contains, List.elem, h1, h2]

/-- C9: in the seeded initial store, product 3 has currentStock 1, and
POST /api/outputs/3/details with a completed detail of quantity 5 (which
exceeds the stock) responds 201 and leaves the stock strictly negative
(at -4): `updateProductStock` imposes no lower bound. -/
theorem stock_can_go_negative :
    (getProduct 3 (initStore 0)).map Product.currentStock = some 1 ∧
    (postOutputDetails 3 [("productId", .num 3), ("quantity", .num 5),
      ("unit", .str "litro"), ("status", .str "completed")] 0 (initStore 0)).1 = 201 ∧
    (getProduct 3 (postOutputDetails 3 [("productId", .num 3), ("quantity", .num 5),
      ("unit", .str "litro"), ("status", .str "completed")] 0 (initStore 0)).2).map
        Product.currentStock = some (-4) ∧
    ((-4 : Int) < 0 ∧ (1 : Int) < 5) := by
  decide

/-- C1 counterexample: the claimed invariant fails on the store reached by a
single POST /api/suppliers on the seeded initial store (products are seeded
with stock that has no movement records): product 1 has currentStock 6 while
its movement sum is -2. -/
theorem stock_not_movement_sum_counterexample :
    (postSuppliers [("name", .str "X"), ("status", .str "active")] 0 (initStore 0)).1 = 201 ∧
    ¬ (∀ p ∈ ((postSuppliers [("name", .str "X"), ("status", .str "active")] 0
          (initStore 0)).2).products,
        p.currentStock =
          movementSum p.id (postSuppliers [("name", .str "X"), ("status", .str "active")] 0
            (initStore 0)).2) ∧
    (getProduct 1 ((postSuppliers [("name", .str "X"), ("status", .str "active")] 0
        (initStore 0)).2)).map Product.currentStock = some 6 ∧
    movementSum 1 ((postSuppliers [("name", .str "X"), ("status", .str "active")] 0
      (initStore 0)).2) = -2 := by
  decide

/-- C5: when the request body fails insert-schema validation, the cited
create and update endpoints respond 400 and return the store completely
unchanged (no entity is created or modified, no system activity is written). -/
theorem validation_failure_leaves_store_unchanged (b1 b2 b3 : Body) (id : Nat) (now : Int)
    (st : Store)
    (h1 : parseInsertSupplier b1 = none) (h2 : parsePartialSupplier b2 = none)
    (h3 : parseInsertInvoice b3 = none) :
    postSuppliers b1 now st = (400, st) ∧
    putSupplier id b2 now st = (400, st) ∧
    postInvoices b3 now st = (400, st) := by
  refine ⟨?_, ?_, ?_⟩
  · simp [postSuppliers, h1]
  · simp [putSupplier, h2]
  · simp [postInvoices, h3]

/-- Witness for C5 at concrete failing bodies (an empty supplier body, a
partial body with a non-string name, an empty invoice body) on the seeded
store. -/
theorem validation_failure_leaves_store_unchanged_witness :
    parseInsertSupplier [] = none ∧ parsePartialSupplier [("name", .num 3)] = none ∧
    parseInsertInvoice [] = none ∧
    postSuppliers [] 0 (initStore 0) = (400, initStore 0) ∧
    putSupplier 1 [("name", .num 3)] 0 (initStore 0) = (400, initStore 0) ∧
    postInvoices [] 0 (initStore 0) = (400, initStore 0) :=
  ⟨by decide, by decide, by decide,
   (validation_failure_leaves_store_unchanged [] [("name", .num 3)] [] 1 0 (initStore 0)
     (by decide) (by decide) (by decide)).1,
   (validation_failure_leaves_store_unchanged [] [("name", .num 3)] [] 1 0 (initStore 0)
     (by decide) (by decide) (by decide)).2.1,
   (validation_failure_leaves_store_unchanged [] [("name", .num 3)] [] 1 0 (initStore 0)
     (by decide) (by decide) (by decide)).2.2⟩

theorem mapSet_length_of_mem (key : α → Nat) (x : α) (l : List α)
    (h : key x ∈ l.map key) : (mapSet key x l).length = l.length := by
  have h2 := congrArg List.length (mapSet_map_key_of_mem key x l h)
  simpa using h2

theorem updateProductStock_products_found (i : Nat) (q : Int) (st : Store) (p : Product)
    (hp : mapGet Product.id i st.products = some p) :
    (updateProductStock i q st).2 =
      { st with products :=
          mapSet Product.id { p with currentStock := p.currentStock + q } st.products } := by
  simp only [updateProductStock, hp]

/-- C4: for a valid movement body whose productId refers to an existing
product, POST /api/inventory/movements responds 201, appends exactly one
inventory-movement record carrying the body's fields, and changes that
product's currentStock by exactly the movement's signed quantity, leaving
every other product unchanged. -/
theorem inventory_movement_post_spec (body : Body) (now : Int) (st : Store)
    (m : InsertInventoryMovement) (p : Product)
    (hb : parseInsertInventoryMovement body = some m)
    (hp : getProduct m.productId st = some p)
    (hfresh : FreshMv st) :
    (postInventoryMovements body now st).1 = 201 ∧
    (postInventoryMovements body now st).2.inventoryMovements =
      st.inventoryMovements ++
        [⟨st.inventoryMovementId, m.productId, m.quantity, m.unit, m.movementType,
          m.referenceId, m.referenceType, m.notes, m.createdBy, now⟩] ∧
    getProduct m.productId (postInventoryMovements body now st).2 =
      some { p with currentStock := p.currentStock + m.quantity } ∧
    (∀ q ∈ st.products, q.id ≠ m.productId →
      q ∈ (postInventoryMovements body now st).2.products) ∧
    (postInventoryMovements body now st).2.products.length = st.products.length := by
  have hp2 : mapGet Product.id m.productId st.products = some p := hp
  have hpid : Product.id p = m.productId := mapGet_key _ _ _ _ hp2
  simp only [postInventoryMovements, hb, createInventoryMovement, createSystemActivity,
    updateProductStock, getProduct, hp2]
  refine ⟨trivial, ?_, ?_, ?_, ?_⟩
  · apply mapSet_append
    intro y hy
    exact Nat.ne_of_lt (hfresh y hy)
  · rw [show m.productId =
      Product.id { p with currentStock := p.currentStock + m.quantity } from hpid.symm]
    exact mapGet_mapSet_self Product.id _ st.products
  · intro q hq hne
    apply mem_mapSet_of_ne Product.id _ q st.products hq
    show Product.id q ≠ Product.id p
    rw [hpid]
    exact hne
  · apply mapSet_length_of_mem
    show Product.id p ∈ st.products.map Product.id
    exact List.mem_map.mpr ⟨p, mapGet_mem _ _ _ _ hp2, rfl⟩

/-- Witness for C4: a concrete adjustment movement of +7 on product 4 of
the seeded store. -/
theorem inventory_movement_post_spec_witness :
    parseInsertInventoryMovement [("productId", .num 4), ("quantity", .num 7),
        ("unit", .str "metro"), ("movementType", .str "adjustment")] =
      some ⟨4, 7, "metro", "adjustment", none, none, none, none⟩ ∧
    getProduct 4 (initStore 0) =
      some ⟨4, "TU-PVC-2", "Tubería PVC 2\"",
        some "Tubería de PVC para instalaciones hidráulicas", "Plomería", "metro", 30, 60,
        some "D-404", some 3.75, some 1, 0⟩ ∧
    FreshMv (initStore 0) ∧
    (postInventoryMovements [("productId", .num 4), ("quantity", .num 7),
        ("unit", .str "metro"), ("movementType", .str "adjustment")] 0 (initStore 0)).1 =
      201 ∧
    getProduct 4 (postInventoryMovements [("productId", .num 4), ("quantity", .num 7),
        ("unit", .str "metro"), ("movementType", .str "adjustment")] 0 (initStore 0)).2 =
      some { (⟨4, "TU-PVC-2", "Tubería PVC 2\"",
        some "Tubería de PVC para instalaciones hidráulicas", "Plomería", "metro", 30, 60,
        some "D-404", some 3.75, some 1, 0⟩ : Product) with currentStock := 60 + 7 } := by
  have h1 : parseInsertInventoryMovement [("productId", .num 4), ("quantity", .num 7),
      ("unit", .str "metro"), ("movementType", .str "adjustment")] =
      some ⟨4, 7, "metro", "adjustment", none, none, none, none⟩ := by rfl
  have h2 : getProduct 4 (initStore 0) =
      some ⟨4, "TU-PVC-2", "Tubería PVC 2\"",
        some "Tubería de PVC para instalaciones hidráulicas", "Plomería", "metro", 30, 60,
        some "D-404", some 3.75, some 1, 0⟩ := by rfl
  have h3 : FreshMv (initStore 0) := by decide
  have hmain := inventory_movement_post_spec _ 0 (initStore 0) _ _ h1 h2 h3
  exact ⟨h1, h2, h3, hmain.1, hmain.2.2.1⟩

/-- C2 counterexample: reception 3 and product 4 both exist in the seeded
store, yet POST /api/receptions/3/details with a detail whose status is
"pending" responds 201 without incrementing the product's currentStock and
without creating any inventory movement — the bookkeeping only runs for
status "completed" or "partial". -/
theorem reception_detail_pending_no_bookkeeping :
    (getReception 3 (initStore 0)).isSome = true ∧
    (getProduct 4 (initStore 0)).map Product.currentStock = some 60 ∧
    (postReceptionDetails 3 [("productId", .num 4), ("quantityExpected", .num 7),
      ("quantityReceived", .num 7), ("unit", .str "metro"), ("status", .str "pending")]
      0 (initStore 0)).1 = 201 ∧
    (getProduct 4 (postReceptionDetails 3 [("productId", .num 4),
      ("quantityExpected", .num 7), ("quantityReceived", .num 7), ("unit", .str "metro"),
      ("status", .str "pending")] 0 (initStore 0)).2).map Product.currentStock = some 60 ∧
    (postReceptionDetails 3 [("productId", .num 4), ("quantityExpected", .num 7),
      ("quantityReceived", .num 7), ("unit", .str "metro"), ("status", .str "pending")]
      0 (initStore 0)).2.inventoryMovements.length =
      (initStore 0).inventoryMovements.length := by
  decide

/-- C2 (amended): for an existing reception and existing product, creating
a reception detail whose status is "completed" or "partial" via
POST /api/receptions/:id/details responds 201, increments the product's
currentStock by quantityReceived, and appends exactly one
inventory-movement record with quantity = quantityReceived and
movementType "reception" referencing that reception; every other product
is unchanged. -/
theorem reception_detail_bookkeeping (receptionId : Nat) (body : Body) (now : Int)
    (st : Store) (reception : Reception) (v : InsertReceptionDetail) (p : Product)
    (hrec : getReception receptionId st = some reception)
    (hb : parseInsertReceptionDetail (jset body "receptionId" (.num receptionId)) = some v)
    (hstatus : v.status = "completed" ∨ v.status = "partial")
    (hp : getProduct v.productId st = some p)
    (hfresh : FreshMv st) :
    (postReceptionDetails receptionId body now st).1 = 201 ∧
    (postReceptionDetails receptionId body now st).2.inventoryMovements =
      st.inventoryMovements ++
        [⟨st.inventoryMovementId, v.productId, v.quantityReceived, v.unit, "reception",
          some reception.id, some "reception", some ("Recepción " ++ reception.code),
          some 1, now⟩] ∧
    getProduct v.productId (postReceptionDetails receptionId body now st).2 =
      some { p with currentStock := p.currentStock + v.quantityReceived } ∧
    (∀ q ∈ st.products, q.id ≠ v.productId →
      q ∈ (postReceptionDetails receptionId body now st).2.products) ∧
    (postReceptionDetails receptionId body now st).2.products.length =
      st.products.length := by
  have hp2 : mapGet Product.id v.productId st.products = some p := hp
  have hpid : Product.id p = v.productId := mapGet_key _ _ _ _ hp2
  have hcond : (v.status == "completed" || v.status == "partial") = true := by
    rcases hstatus with h | h <;> simp [h]
  simp only [postReceptionDetails, hrec, hb, createReceptionDetail, updateProductStock,
    createInventoryMovement, getProduct, hp2, hcond]
  refine ⟨trivial, ?_, ?_, ?_, ?_⟩
  · apply mapSet_append
    intro y hy
    exact Nat.ne_of_lt (hfresh y hy)
  · rw [show v.productId =
      Product.id { p with currentStock := p.currentStock + v.quantityReceived } from
        hpid.symm]
    exact mapGet_mapSet_self Product.id _ st.products
  · intro q hq hne
    apply mem_mapSet_of_ne Product.id _ q st.products hq
    show Product.id q ≠ Product.id p
    rw [hpid]
    exact hne
  · apply mapSet_length_of_mem
    show Product.id p ∈ st.products.map Product.id
    exact List.mem_map.mpr ⟨p, mapGet_mem _ _ _ _ hp2, rfl⟩

/-- Witness for C2 (amended): a completed reception detail of 25 units of
product 2 against reception 3 of the seeded store. -/
theorem reception_detail_bookkeeping_witness :
    getReception 3 (initStore 0) =
      some ⟨3, "REC-2023-003", some 1, 1, "scheduled", some "Programada para mañana",
        some 1, 86400000, 0⟩ ∧
    parseInsertReceptionDetail (jset [("productId", .num 2), ("quantityExpected", .num 25),
        ("quantityReceived", .num 25), ("unit", .str "metro"), ("status", .str "completed")]
        "receptionId" (.num 3)) =
      some ⟨3, none, 2, 25, 25, "metro", none, "completed"⟩ ∧
    getProduct 2 (initStore 0) =
      some ⟨2, "CE-12AWG", "Cables eléctricos 12AWG", some "Cable eléctrico flexible",
        "Eléctricos", "metro", 50, 90, some "B-202", some 1.2, some 2, 0⟩ ∧
    FreshMv (initStore 0) ∧
    (postReceptionDetails 3 [("productId", .num 2), ("quantityExpected", .num 25),
        ("quantityReceived", .num 25), ("unit", .str "metro"), ("status", .str "completed")]
        0 (initStore 0)).1 = 201 ∧
    getProduct 2 (postReceptionDetails 3 [("productId", .num 2),
        ("quantityExpected", .num 25), ("quantityReceived", .num 25),
        ("unit", .str "metro"), ("status", .str "completed")] 0 (initStore 0)).2 =
      some { (⟨2, "CE-12AWG", "Cables eléctricos 12AWG", some "Cable eléctrico flexible",
        "Eléctricos", "metro", 50, 90, some "B-202", some 1.2, some 2, 0⟩ : Product) with
          currentStock := 90 + 25 } := by
  have h1 : getReception 3 (initStore 0) =
      some ⟨3, "REC-2023-003", some 1, 1, "scheduled", some "Programada para mañana",
        some 1, 86400000, 0⟩ := by rfl
  have h2 : parseInsertReceptionDetail (jset [("productId", .num 2),
      ("quantityExpected", .num 25), ("quantityReceived", .num 25), ("unit", .str "metro"),
      ("status", .str "completed")] "receptionId" (.num 3)) =
      some ⟨3, none, 2, 25, 25, "metro", none, "completed"⟩ := by rfl
  have h3 : getProduct 2 (initStore 0) =
      some ⟨2, "CE-12AWG", "Cables eléctricos 12AWG", some "Cable eléctrico flexible",
        "Eléctricos", "metro", 50, 90, some "B-202", some 1.2, some 2, 0⟩ := by rfl
  have h4 : FreshMv (initStore 0) := by decide
  have hmain := reception_detail_bookkeeping 3 [("productId", .num 2),
    ("quantityExpected", .num 25), ("quantityReceived", .num 25), ("unit", .str "metro"),
    ("status", .str "completed")] 0 (initStore 0) _ _ _ h1 h2 (Or.inl rfl) h3 h4
  exact ⟨h1, h2, h3, h4, hmain.1, hmain.2.2.1⟩

/-- C3 counterexample: output 3 and product 4 both exist in the seeded
store, yet POST /api/outputs/3/details with a detail whose status is
"pending" (on an output that is itself "pending") responds 201 without
decrementing the product's currentStock and without creating any
inventory movement. -/
theorem output_detail_pending_no_bookkeeping :
    (getOutput 3 (initStore 0)).map Output.status = some "pending" ∧
    (getProduct 4 (initStore 0)).map Product.currentStock = some 60 ∧
    (postOutputDetails 3 [("productId", .num 4), ("quantity", .num 7),
      ("unit", .str "metro"), ("status", .str "pending")] 0 (initStore 0)).1 = 201 ∧
    (getProduct 4 (postOutputDetails 3 [("productId", .num 4), ("quantity", .num 7),
      ("unit", .str "metro"), ("status", .str "pending")] 0 (initStore 0)).2).map
      Product.currentStock = some 60 ∧
    (postOutputDetails 3 [("productId", .num 4), ("quantity", .num 7),
      ("unit", .str "metro"), ("status", .str "pending")] 0
      (initStore 0)).2.inventoryMovements.length =
      (initStore 0).inventoryMovements.length := by
  decide

/-- C3 (amended): for an existing output and existing product, creating an
output detail via POST /api/outputs/:id/details when the output's status is
"completed" or the detail's status is "completed" responds 201, decrements
the product's currentStock by the detail's quantity, and appends exactly
one inventory-movement record with quantity = -quantity and movementType
"output" referencing that output; every other product is unchanged. -/
theorem output_detail_bookkeeping (outputId : Nat) (body : Body) (now : Int)
    (st : Store) (output : Output) (v : InsertOutputDetail) (p : Product)
    (hout : getOutput outputId st = some output)
    (hb : parseInsertOutputDetail (jset body "outputId" (.num outputId)) = some v)
    (hstatus : output.status = "completed" ∨ v.status = "completed")
    (hp : getProduct v.productId st = some p)
    (hfresh : FreshMv st) :
    (postOutputDetails outputId body now st).1 = 201 ∧
    (postOutputDetails outputId body now st).2.inventoryMovements =
      st.inventoryMovements ++
        [⟨st.inventoryMovementId, v.productId, -v.quantity, v.unit, "output",
          some output.id, some "output", some ("Salida " ++ output.code), some 1, now⟩] ∧
    getProduct v.productId (postOutputDetails outputId body now st).2 =
      some { p with currentStock := p.currentStock - v.quantity } ∧
    (∀ q ∈ st.products, q.id ≠ v.productId →
      q ∈ (postOutputDetails outputId body now st).2.products) ∧
    (postOutputDetails outputId body now st).2.products.length = st.products.length := by
  have hp2 : mapGet Product.id v.productId st.products = some p := hp
  have hpid : Product.id p = v.productId := mapGet_key _ _ _ _ hp2
  have hcond : (output.status == "completed" || v.status == "completed") = true := by
    rcases hstatus with h | h <;> simp [h]
  have hsub : p.currentStock - v.quantity = p.currentStock + -v.quantity :=
    Int.sub_eq_add_neg
  simp only [postOutputDetails, hout, hb, createOutputDetail, updateProductStock,
    createInventoryMovement, getProduct, hp2, hcond]
  refine ⟨trivial, ?_, ?_, ?_, ?_⟩
  · apply mapSet_append
    intro y hy
    exact Nat.ne_of_lt (hfresh y hy)
  · rw [hsub]
    rw [show v.productId =
      Product.id { p with currentStock := p.currentStock + -v.quantity } from hpid.symm]
    exact mapGet_mapSet_self Product.id _ st.products
  · intro q hq hne
    apply mem_mapSet_of_ne Product.id _ q st.products hq
    show Product.id q ≠ Product.id p
    rw [hpid]
    exact hne
  · apply mapSet_length_of_mem
    show Product.id p ∈ st.products.map Product.id
    exact List.mem_map.mpr ⟨p, mapGet_mem _ _ _ _ hp2, rfl⟩

/-- Witness for C3 (amended): a pending detail of 3 units of product 5
against the already-completed output 1 of the seeded store. -/
theorem output_detail_bookkeeping_witness :
    getOutput 1 (initStore 0) =
      some ⟨1, "SAL-2023-001", "Planta de Producción", "department", "completed",
        some "Para reparación de tuberías", some 1, some 1, 0⟩ ∧
    parseInsertOutputDetail (jset [("productId", .num 5), ("quantity", .num 3),
        ("unit", .str "unidad"), ("status", .str "pending")] "outputId" (.num 1)) =
      some ⟨1, 5, 3, "unidad", none, "pending"⟩ ∧
    getProduct 5 (initStore 0) =
      some ⟨5, "FO-LED-20W", "Focos LED 20W", some "Focos LED de alta eficiencia",
        "Eléctricos", "unidad", 15, 48, some "B-205", some 8.5, some 2, 0⟩ ∧
    FreshMv (initStore 0) ∧
    (postOutputDetails 1 [("productId", .num 5), ("quantity", .num 3),
        ("unit", .str "unidad"), ("status", .str "pending")] 0 (initStore 0)).1 = 201 ∧
    getProduct 5 (postOutputDetails 1 [("productId", .num 5), ("quantity", .num 3),
        ("unit", .str "unidad"), ("status", .str "pending")] 0 (initStore 0)).2 =
      some { (⟨5, "FO-LED-20W", "Focos LED 20W", some "Focos LED de alta eficiencia",
        "Eléctricos", "unidad", 15, 48, some "B-205", some 8.5, some 2, 0⟩ : Product) with
          currentStock := 48 - 3 } := by
  have h1 : getOutput 1 (initStore 0) =
      some ⟨1, "SAL-2023-001", "Planta de Producción", "department", "completed",
        some "Para reparación de tuberías", some 1, some 1, 0⟩ := by rfl
  have h2 : parseInsertOutputDetail (jset [("productId", .num 5), ("quantity", .num 3),
      ("unit", .str "unidad"), ("status", .str "pending")] "outputId" (.num 1)) =
      some ⟨1, 5, 3, "unidad", none, "pending"⟩ := by rfl
  have h3 : getProduct 5 (initStore 0) =
      some ⟨5, "FO-LED-20W", "Focos LED 20W", some "Focos LED de alta eficiencia",
        "Eléctricos", "unidad", 15, 48, some "B-205", some 8.5, some 2, 0⟩ := by rfl
  have h4 : FreshMv (initStore 0) := by decide
  have hmain := output_detail_bookkeeping 1 [("productId", .num 5), ("quantity", .num 3),
    ("unit", .str "unidad"), ("status", .str "pending")] 0 (initStore 0) _ _ _
    h1 h2 (Or.inl rfl) h3 h4
  exact ⟨h1, h2, h3, h4, hmain.1, hmain.2.2.1⟩

/-- C10: the storage update operations (shown for updateSupplier,
updateProduct and updateRequirement) overwrite exactly the fields present
in the partial body - each field of the updated record is the body's value
when present and the old value otherwise - while `id` and `createdAt` are
always unchanged; every other record of the table survives unchanged, the
table keeps its size, and no other part of the store is touched. -/
theorem partial_update_overwrites_only_given_fields
    (i1 i2 i3 : Nat) (p1 : PartialSupplier) (p2 : PartialProduct)
    (p3 : PartialRequirement) (st : Store) (es : Supplier) (ep : Product)
    (er : Requirement)
    (hes : mapGet Supplier.id i1 st.suppliers = some es)
    (hep : mapGet Product.id i2 st.products = some ep)
    (her : mapGet Requirement.id i3 st.requirements = some er) :
    ((updateSupplier i1 p1 st).1 = some (patchSupplier es p1) ∧
      getSupplier i1 ((updateSupplier i1 p1 st).2) = some (patchSupplier es p1) ∧
      (patchSupplier es p1).id = es.id ∧
      (patchSupplier es p1).createdAt = es.createdAt ∧
      (patchSupplier es p1).name = p1.name.getD es.name ∧
      (patchSupplier es p1).contact = p1.contact.getD es.contact ∧
      (patchSupplier es p1).email = p1.email.getD es.email ∧
      (patchSupplier es p1).phone = p1.phone.getD es.phone ∧
      (patchSupplier es p1).address = p1.address.getD es.address ∧
      (patchSupplier es p1).taxId = p1.taxId.getD es.taxId ∧
      (patchSupplier es p1).notes = p1.notes.getD es.notes ∧
      (patchSupplier es p1).status = p1.status.getD es.status ∧
      (∀ x ∈ st.suppliers, Supplier.id x ≠ i1 → x ∈ (updateSupplier i1 p1 st).2.suppliers) ∧
      ((updateSupplier i1 p1 st).2.suppliers).length = st.suppliers.length ∧
      (updateSupplier i1 p1 st).2 = { st with suppliers := (updateSupplier i1 p1 st).2.suppliers }) ∧
    ((updateProduct i2 p2 st).1 = some (patchProduct ep p2) ∧
      getProduct i2 ((updateProduct i2 p2 st).2) = some (patchProduct ep p2) ∧
      (patchProduct ep p2).id = ep.id ∧
      (patchProduct ep p2).createdAt = ep.createdAt ∧
      (patchProduct ep p2).code = p2.code.getD ep.code ∧
      (patchProduct ep p2).name = p2.name.getD ep.name ∧
      (patchProduct ep p2).description = p2.description.getD ep.description ∧
      (patchProduct ep p2).category = p2.category.getD ep.category ∧
      (patchProduct ep p2).unit = p2.unit.getD ep.unit ∧
      (patchProduct ep p2).minStock = p2.minStock.getD ep.minStock ∧
      (patchProduct ep p2).currentStock = p2.currentStock.getD ep.currentStock ∧
      (patchProduct ep p2).location = p2.location.getD ep.location ∧
      (patchProduct ep p2).cost = p2.cost.getD ep.cost ∧
      (patchProduct ep p2).supplierId = p2.supplierId.getD ep.supplierId ∧
      (∀ x ∈ st.products, Product.id x ≠ i2 → x ∈ (updateProduct i2 p2 st).2.products) ∧
      ((updateProduct i2 p2 st).2.products).length = st.products.length ∧
      (updateProduct i2 p2 st).2 = { st with products := (updateProduct i2 p2 st).2.products }) ∧
    ((updateRequirement i3 p3 st).1 = some (patchRequirement er p3) ∧
      getRequirement i3 ((updateRequirement i3 p3 st).2) = some (patchRequirement er p3) ∧
      (patchRequirement er p3).id = er.id ∧
      (patchRequirement er p3).createdAt = er.createdAt ∧
      (patchRequirement er p3).code = p3.code.getD er.code ∧
      (patchRequirement er p3).title = p3.title.getD er.title ∧
      (patchRequirement er p3).requestorId = p3.requestorId.getD er.requestorId ∧
      (patchRequirement er p3).departmentId = p3.departmentId.getD er.departmentId ∧
      (patchRequirement er p3).status = p3.status.getD er.status ∧
      (patchRequirement er p3).priority = p3.priority.getD er.priority ∧
      (patchRequirement er p3).notes = p3.notes.getD er.notes ∧
      (patchRequirement er p3).dueDate = p3.dueDate.getD er.dueDate ∧
      (∀ x ∈ st.requirements, Requirement.id x ≠ i3 → x ∈ (updateRequirement i3 p3 st).2.requirements) ∧
      ((updateRequirement i3 p3 st).2.requirements).length = st.requirements.length ∧
      (updateRequirement i3 p3 st).2 = { st with requirements := (updateRequirement i3 p3 st).2.requirements }) := by
  refine ⟨?_, ?_, ?_⟩
  · have hid : Supplier.id es = i1 := mapGet_key _ _ _ _ hes
    simp only [updateSupplier, getSupplier, hes]
    refine ⟨by trivial, ?_, by trivial, by trivial, by trivial, by trivial, by trivial, by trivial, by trivial, by trivial, by trivial, by trivial, ?_, ?_, by trivial⟩
    · rw [show i1 = Supplier.id (patchSupplier es p1) from hid.symm]
      exact mapGet_mapSet_self Supplier.id _ st.suppliers
    · intro x hx hne
      apply mem_mapSet_of_ne Supplier.id _ x st.suppliers hx
      show Supplier.id x ≠ Supplier.id es
      rw [hid]
      exact hne
    · apply mapSet_length_of_mem
      show Supplier.id es ∈ st.suppliers.map Supplier.id
      exact List.mem_map.mpr ⟨es, mapGet_mem _ _ _ _ hes, rfl⟩
  · have hid : Product.id ep = i2 := mapGet_key _ _ _ _ hep
    simp only [updateProduct, getProduct, hep]
    refine ⟨by trivial, ?_, by trivial, by trivial, by trivial, by trivial, by trivial, by trivial, by trivial, by trivial, by trivial, by trivial, by trivial, by trivial, ?_, ?_, by trivial⟩
    · rw [show i2 = Product.id (patchProduct ep p2) from hid.symm]
      exact mapGet_mapSet_self Product.id _ st.products
    · intro x hx hne
      apply mem_mapSet_of_ne Product.id _ x st.products hx
      show Product.id x ≠ Product.id ep
      rw [hid]
      exact hne
    · apply mapSet_length_of_mem
      show Product.id ep ∈ st.products.map Product.id
      exact List.mem_map.mpr ⟨ep, mapGet_mem _ _ _ _ hep, rfl⟩
  · have hid : Requirement.id er = i3 := mapGet_key _ _ _ _ her
    simp only [updateRequirement, getRequirement, her]
    refine ⟨by trivial, ?_, by trivial, by trivial, by trivial, by trivial, by trivial, by trivial, by trivial, by trivial, by trivial, by trivial, ?_, ?_, by trivial⟩
    · rw [show i3 = Requirement.id (patchRequirement er p3) from hid.symm]
      exact mapGet_mapSet_self Requirement.id _ st.requirements
    · intro x hx hne
      apply mem_mapSet_of_ne Requirement.id _ x st.requirements hx
      show Requirement.id x ≠ Requirement.id er
      rw [hid]
      exact hne
    · apply mapSet_length_of_mem
      show Requirement.id er ∈ st.requirements.map Requirement.id
      exact List.mem_map.mpr ⟨er, mapGet_mem _ _ _ _ her, rfl⟩

/-- Witness for C10: renaming supplier 1, restocking product 1 and
approving requirement 1 of the seeded store. -/
theorem partial_update_overwrites_only_given_fields_witness :
    mapGet Supplier.id 1 (initStore 0).suppliers =
      some ⟨1, "Aceros Industriales", some "Juan Pérez", some "juan@aceros.com",
        some "555-1234", some "Calle Industrial 123", some "AI12345",
        some "Proveedor principal de materiales metálicos", "active", 0⟩ ∧
    mapGet Product.id 1 (initStore 0).products =
      some ⟨1, "TH-5-16", "Tornillos hexagonales 5/16",
        some "Tornillos hexagonales de acero inoxidable", "Ferretería", "unidad",
        25, 6, some "A-101", some 0.5, some 1, 0⟩ ∧
    mapGet Requirement.id 1 (initStore 0).requirements =
      some ⟨1, "REQ-2023-001", "Materiales para mantenimiento", 1, "Mantenimiento",
        "pending", "high", some "Urgente para reparación de maquinaria",
        some 259200000, 0⟩ ∧
    (updateSupplier 1 ⟨some "Y", none, none, none, none, none, none, none⟩
        (initStore 0)).1 =
      some (patchSupplier
        ⟨1, "Aceros Industriales", some "Juan Pérez", some "juan@aceros.com",
          some "555-1234", some "Calle Industrial 123", some "AI12345",
          some "Proveedor principal de materiales metálicos", "active", 0⟩
        ⟨some "Y", none, none, none, none, none, none, none⟩) ∧
    getProduct 1 ((updateProduct 1
        ⟨none, none, none, none, none, none, some 99, none, none, none⟩
        (initStore 0)).2) =
      some (patchProduct
        ⟨1, "TH-5-16", "Tornillos hexagonales 5/16",
          some "Tornillos hexagonales de acero inoxidable", "Ferretería", "unidad",
          25, 6, some "A-101", some 0.5, some 1, 0⟩
        ⟨none, none, none, none, none, none, some 99, none, none, none⟩) ∧
    getRequirement 1 ((updateRequirement 1
        ⟨none, none, none, none, some "approved", none, none, none⟩ (initStore 0)).2) =
      some (patchRequirement
        ⟨1, "REQ-2023-001", "Materiales para mantenimiento", 1, "Mantenimiento",
          "pending", "high", some "Urgente para reparación de maquinaria",
          some 259200000, 0⟩
        ⟨none, none, none, none, some "approved", none, none, none⟩) := by
  have h1 : mapGet Supplier.id 1 (initStore 0).suppliers =
      some ⟨1, "Aceros Industriales", some "Juan Pérez", some "juan@aceros.com",
        some "555-1234", some "Calle Industrial 123", some "AI12345",
        some "Proveedor principal de materiales metálicos", "active", 0⟩ := by rfl
  have h2 : mapGet Product.id 1 (initStore 0).products =
      some ⟨1, "TH-5-16", "Tornillos hexagonales 5/16",
        some "Tornillos hexagonales de acero inoxidable", "Ferretería", "unidad",
        25, 6, some "A-101", some 0.5, some 1, 0⟩ := by rfl
  have h3 : mapGet Requirement.id 1 (initStore 0).requirements =
      some ⟨1, "REQ-2023-001", "Materiales para mantenimiento", 1, "Mantenimiento",
        "pending", "high", some "Urgente para reparación de maquinaria",
        some 259200000, 0⟩ := by rfl
  have hmain := partial_update_overwrites_only_given_fields 1 1 1
    ⟨some "Y", none, none, none, none, none, none, none⟩
    ⟨none, none, none, none, none, none, some 99, none, none, none⟩
    ⟨none, none, none, none, some "approved", none, none, none⟩
    (initStore 0) _ _ _ h1 h2 h3
  exact ⟨h1, h2, h3, hmain.1.1, hmain.2.1.2.1, hmain.2.2.2.1⟩

theorem movementSum_store_append (pid : Nat) (st st2 : Store) (mv : InventoryMovement)
    (h : st2.inventoryMovements = st.inventoryMovements ++ [mv]) :
    movementSum pid st2 =
      movementSum pid st + (if mv.productId == pid then mv.quantity else 0) := by
  unfold movementSum
  rw [h, List.filter_append]
  by_cases hm : mv.productId = pid
  · have hmb : (mv.productId == pid) = true := by simp [hm]
    simp [List.filter, hmb]
  · have hmb : (mv.productId == pid) = false := by simp [hm]
    simp [List.filter, hmb]

theorem stock_diff_map_congr (st st2 : Store)
    (hp : st2.products = st.products)
    (hm : st2.inventoryMovements = st.inventoryMovements) :
    st2.products.map (fun p => (p.id, stockDiff p st2)) =
      st.products.map (fun p => (p.id, stockDiff p st)) := by
  rw [hp]
  apply List.map_congr_left
  intro p _
  unfold stockDiff movementSum
  rw [hm]

theorem stock_diff_map_eq_nomatch (st st2 : Store) (mv : InventoryMovement)
    (hmv : st2.inventoryMovements = st.inventoryMovements ++ [mv])
    (hprod : st2.products = st.products)
    (hnone : ∀ p ∈ st.products, Product.id p ≠ mv.productId) :
    st2.products.map (fun p => (p.id, stockDiff p st2)) =
      st.products.map (fun p => (p.id, stockDiff p st)) := by
  rw [hprod]
  apply List.map_congr_left
  intro p hp
  have hne : (mv.productId == p.id) = false := by
    simp
    exact fun hh => hnone p hp hh.symm
  unfold stockDiff
  rw [movementSum_store_append p.id st st2 mv hmv, hne]
  simp

theorem stock_diff_map_eq (st st2 : Store) (pid : Nat) (q : Int) (mv : InventoryMovement)
    (hnd : (st.products.map Product.id).Nodup)
    (hmv : st2.inventoryMovements = st.inventoryMovements ++ [mv])
    (hmvpid : mv.productId = pid) (hmvq : mv.quantity = q)
    (hprod : st2.products = st.products.map
      (fun y => if Product.id y == pid then
        { y with currentStock := y.currentStock + q } else y)) :
    st2.products.map (fun p => (p.id, stockDiff p st2)) =
      st.products.map (fun p => (p.id, stockDiff p st)) := by
  rw [hprod, List.map_map]
  apply List.map_congr_left
  intro y _
  by_cases h : Product.id y = pid
  · have hb : (Product.id y == pid) = true := by simp [h]
    have hmb : (mv.productId == y.id) = true := by simp [hmvpid, h]
    unfold stockDiff
    simp only [Function.comp, hb, if_true]
    rw [movementSum_store_append y.id st st2 mv hmv]
    show (y.id, y.currentStock + q - (movementSum y.id st +
      if mv.productId == y.id then mv.quantity else 0)) = (y.id, y.currentStock - movementSum y.id st)
    rw [hmb, hmvq]
    simp only [if_true]
    congr 1
    omega
  · have hb : (Product.id y == pid) = false := by simp [h]
    have hmb : (mv.productId == y.id) = false := by
      simp [hmvpid]
      exact fun hh => h hh.symm
    unfold stockDiff
    simp only [Function.comp, hb, Bool.false_eq_true, if_false]
    rw [movementSum_store_append y.id st st2 mv hmv, hmb]
    simp

/-- C1 (amended): the claimed equality between a product's currentStock and
its movement-history sum is not an invariant of the store (see the
counterexample: seeded products carry stock with no movement records), but
each inventory-bookkeeping endpoint - POST /api/inventory/movements,
POST /api/receptions/:id/details and POST /api/outputs/:id/details -
preserves the difference between every stored product's currentStock and
its movement sum: whenever one of them writes a movement for an existing
product it adjusts that product's stock by exactly the movement's signed
quantity. -/
theorem bookkeeping_preserves_stock_diff (st : Store)
    (hnd : (st.products.map Product.id).Nodup) (hfresh : FreshMv st) :
    (∀ body now,
      ((postInventoryMovements body now st).2.products.map
        (fun p => (p.id, stockDiff p (postInventoryMovements body now st).2))) =
        st.products.map (fun p => (p.id, stockDiff p st))) ∧
    (∀ rid body now,
      ((postReceptionDetails rid body now st).2.products.map
        (fun p => (p.id, stockDiff p (postReceptionDetails rid body now st).2))) =
        st.products.map (fun p => (p.id, stockDiff p st))) ∧
    (∀ oid body now,
      ((postOutputDetails oid body now st).2.products.map
        (fun p => (p.id, stockDiff p (postOutputDetails oid body now st).2))) =
        st.products.map (fun p => (p.id, stockDiff p st))) := by
  have hfr : ∀ y ∈ st.inventoryMovements,
      InventoryMovement.id y ≠ st.inventoryMovementId := by
    intro y hy
    exact Nat.ne_of_lt (hfresh y hy)
  refine ⟨?_, ?_, ?_⟩
  · intro body now
    cases hb : parseInsertInventoryMovement body with
    | none =>
      simp only [postInventoryMovements, hb]
    | some m =>
      simp only [postInventoryMovements, hb, createInventoryMovement, createSystemActivity,
        updateProductStock]
      cases hp : mapGet Product.id m.productId st.products with
      | none =>
        exact stock_diff_map_eq_nomatch st _
          ⟨st.inventoryMovementId, m.productId, m.quantity, m.unit, m.movementType,
            m.referenceId, m.referenceType, m.notes, m.createdBy, now⟩
          (mapSet_append InventoryMovement.id _ st.inventoryMovements hfr) rfl
          (mapGet_none_forall Product.id m.productId st.products hp)
      | some p =>
        exact stock_diff_map_eq st _ m.productId m.quantity
          ⟨st.inventoryMovementId, m.productId, m.quantity, m.unit, m.movementType,
            m.referenceId, m.referenceType, m.notes, m.createdBy, now⟩
          hnd (mapSet_append InventoryMovement.id _ st.inventoryMovements hfr) rfl rfl
          (mapSet_patch Product.id
            (fun y => { y with currentStock := y.currentStock + m.quantity })
            (fun y => rfl) m.productId st.products hnd p hp)
  · intro rid body now
    cases hrec : getReception rid st with
    | none =>
      simp only [postReceptionDetails, hrec]
    | some reception =>
      cases hb : parseInsertReceptionDetail (jset body "receptionId" (.num rid)) with
      | none =>
        simp only [postReceptionDetails, hrec, hb]
      | some v =>
        simp only [postReceptionDetails, hrec, hb, createReceptionDetail,
          updateProductStock, createInventoryMovement, getProduct]
        cases hcond : v.status == "completed" || v.status == "partial" with
        | false =>
          simp only [Bool.false_eq_true, if_false]
          exact stock_diff_map_congr st _ rfl rfl
        | true =>
          simp only [if_true]
          cases hp : mapGet Product.id v.productId st.products with
          | none => exact stock_diff_map_congr st _ rfl rfl
          | some p =>
            exact stock_diff_map_eq st _ v.productId v.quantityReceived
              ⟨st.inventoryMovementId, v.productId, v.quantityReceived, v.unit, "reception",
                some reception.id, some "reception", some ("Recepción " ++ reception.code),
                some 1, now⟩
              hnd (mapSet_append InventoryMovement.id _ st.inventoryMovements hfr) rfl rfl
              (mapSet_patch Product.id
                (fun y => { y with currentStock := y.currentStock + v.quantityReceived })
                (fun y => rfl) v.productId st.products hnd p hp)
  · intro oid body now
    cases hout : getOutput oid st with
    | none =>
      simp only [postOutputDetails, hout]
    | some output =>
      cases hb : parseInsertOutputDetail (jset body "outputId" (.num oid)) with
      | none =>
        simp only [postOutputDetails, hout, hb]
      | some v =>
        simp only [postOutputDetails, hout, hb, createOutputDetail,
          updateProductStock, createInventoryMovement, getProduct]
        cases hcond : output.status == "completed" || v.status == "completed" with
        | false =>
          simp only [Bool.false_eq_true, if_false]
          exact stock_diff_map_congr st _ rfl rfl
        | true =>
          simp only [if_true]
          cases hp : mapGet Product.id v.productId st.products with
          | none => exact stock_diff_map_congr st _ rfl rfl
          | some p =>
            exact stock_diff_map_eq st _ v.productId (-v.quantity)
              ⟨st.inventoryMovementId, v.productId, -v.quantity, v.unit, "output",
                some output.id, some "output", some ("Salida " ++ output.code),
                some 1, now⟩
              hnd (mapSet_append InventoryMovement.id _ st.inventoryMovements hfr) rfl rfl
              (mapSet_patch Product.id
                (fun y => { y with currentStock := y.currentStock + -v.quantity })
                (fun y => rfl) v.productId st.products hnd p hp)

/-- Witness for C1 (amended): the seeded store has distinct product ids and
fresh movement ids, and a concrete adjustment movement preserves every
product's stock/movement-sum difference. -/
theorem bookkeeping_preserves_stock_diff_witness :
    ((initStore 0).products.map Product.id).Nodup ∧ FreshMv (initStore 0) ∧
    ((postInventoryMovements [("productId", .num 4), ("quantity", .num 7),
        ("unit", .str "metro"), ("movementType", .str "adjustment")] 0
        (initStore 0)).2.products.map
      (fun p => (p.id, stockDiff p (postInventoryMovements [("productId", .num 4),
        ("quantity", .num 7), ("unit", .str "metro"),
        ("movementType", .str "adjustment")] 0 (initStore 0)).2))) =
      (initStore 0).products.map (fun p => (p.id, stockDiff p (initStore 0))) :=
  ⟨by decide, by decide,
   (bookkeeping_preserves_stock_diff (initStore 0) (by decide) (by decide)).1
     [("productId", .num 4), ("quantity", .num 7), ("unit", .str "metro"),
      ("movementType", .str "adjustment")] 0⟩

theorem map_key_of_preserving (key : α → Nat) (g : α → α) (hg : ∀ x, key (g x) = key x)
    (l : List α) : (l.map g).map key = l.map key := by
  rw [List.map_map]
  apply List.map_congr_left
  intro a _
  exact hg a

theorem outSum_cons (pid : Nat) (d : OutputDetail) (rest : List OutputDetail) :
    outSum pid (d :: rest) =
      (if !(d.status == "completed") && d.productId == pid then d.quantity else 0) +
        outSum pid rest := by
  unfold outSum
  rw [List.filter_cons]
  by_cases h : (!(d.status == "completed") && d.productId == pid) = true
  · rw [if_pos h, if_pos h]
    simp
  · rw [if_neg h, if_neg h]
    simp

theorem outSum_nil (pid : Nat) : outSum pid [] = 0 := rfl

theorem product_stock_congr (p : Product) (a b : Int) (h : a = b) :
    ({ p with currentStock := a } : Product) = { p with currentStock := b } := by rw [h]

theorem ups_products_map (i : Nat) (q : Int) (st : Store)
    (hnd : (st.products.map Product.id).Nodup) :
    (updateProductStock i q st).2.products =
      st.products.map (fun p => if Product.id p == i then
        { p with currentStock := p.currentStock + q } else p) := by
  simp only [updateProductStock]
  cases hE : mapGet Product.id i st.products with
  | none =>
    exact (map_untouched Product.id _ i st.products (mapGet_none_forall _ _ _ hE)).symm
  | some p =>
    exact mapSet_patch Product.id
      (fun y => { y with currentStock := y.currentStock + q }) (fun y => rfl)
      i st.products hnd p hE

theorem ups_frame_rest (i : Nat) (q : Int) (st : Store) :
    (updateProductStock i q st).2.inventoryMovements = st.inventoryMovements ∧
    (updateProductStock i q st).2.outputDetails = st.outputDetails ∧
    (updateProductStock i q st).2.outputs = st.outputs ∧
    (updateProductStock i q st).2.inventoryMovementId = st.inventoryMovementId := by
  simp only [updateProductStock]
  cases mapGet Product.id i st.products <;> exact ⟨rfl, rfl, rfl, rfl⟩

theorem uod_frame_rest (i : Nat) (p : PartialOutputDetail) (st : Store) :
    (updateOutputDetail i p st).2.products = st.products ∧
    (updateOutputDetail i p st).2.inventoryMovements = st.inventoryMovements ∧
    (updateOutputDetail i p st).2.outputs = st.outputs ∧
    (updateOutputDetail i p st).2.inventoryMovementId = st.inventoryMovementId := by
  simp only [updateOutputDetail]
  cases mapGet OutputDetail.id i st.outputDetails <;> exact ⟨rfl, rfl, rfl, rfl⟩

theorem uod_details_map (i : Nat) (st : Store) (e : OutputDetail)
    (hnd : (st.outputDetails.map OutputDetail.id).Nodup)
    (hE : mapGet OutputDetail.id i st.outputDetails = some e) :
    (updateOutputDetail i ⟨none, none, none, none, none, some "completed"⟩
        st).2.outputDetails =
      st.outputDetails.map (fun x => if OutputDetail.id x == i then
        { x with status := "completed" } else x) := by
  simp only [updateOutputDetail, hE]
  exact mapSet_patch OutputDetail.id (fun x => { x with status := "completed" })
    (fun x => rfl) i st.outputDetails hnd e hE

theorem pod_step (oid : Nat) (code : String) (now : Int) (d : OutputDetail) (st : Store)
    (hndp : (st.products.map Product.id).Nodup)
    (hndd : (st.outputDetails.map OutputDetail.id).Nodup)
    (hfr : ∀ m ∈ st.inventoryMovements, m.id < st.inventoryMovementId)
    (hd0 : mapGet OutputDetail.id d.id st.outputDetails = some d) :
    ((createInventoryMovement ⟨d.productId, -d.quantity, d.unit, "output", some oid, some "output",
        some ("Salida " ++ code), some 1⟩ now
      (updateOutputDetail d.id ⟨none, none, none, none, none, some "completed"⟩
        (updateProductStock d.productId (-d.quantity) st).2).2).2).inventoryMovements =
      st.inventoryMovements ++ [⟨st.inventoryMovementId, d.productId, -d.quantity, d.unit, "output", some oid,
        some "output", some ("Salida " ++ code), some 1, now⟩] ∧
    ((createInventoryMovement ⟨d.productId, -d.quantity, d.unit, "output", some oid, some "output",
        some ("Salida " ++ code), some 1⟩ now
      (updateOutputDetail d.id ⟨none, none, none, none, none, some "completed"⟩
        (updateProductStock d.productId (-d.quantity) st).2).2).2).products =
      st.products.map (fun p => if Product.id p == d.productId then
        { p with currentStock := p.currentStock + -d.quantity } else p) ∧
    ((createInventoryMovement ⟨d.productId, -d.quantity, d.unit, "output", some oid, some "output",
        some ("Salida " ++ code), some 1⟩ now
      (updateOutputDetail d.id ⟨none, none, none, none, none, some "completed"⟩
        (updateProductStock d.productId (-d.quantity) st).2).2).2).outputDetails =
      st.outputDetails.map (fun x => if OutputDetail.id x == d.id then
        { x with status := "completed" } else x) ∧
    ((createInventoryMovement ⟨d.productId, -d.quantity, d.unit, "output", some oid, some "output",
        some ("Salida " ++ code), some 1⟩ now
      (updateOutputDetail d.id ⟨none, none, none, none, none, some "completed"⟩
        (updateProductStock d.productId (-d.quantity) st).2).2).2).outputs = st.outputs ∧
    ((createInventoryMovement ⟨d.productId, -d.quantity, d.unit, "output", some oid, some "output",
        some ("Salida " ++ code), some 1⟩ now
      (updateOutputDetail d.id ⟨none, none, none, none, none, some "completed"⟩
        (updateProductStock d.productId (-d.quantity) st).2).2).2).inventoryMovementId = st.inventoryMovementId + 1 := by
  obtain ⟨ha1, ha2, ha3, ha4⟩ := ups_frame_rest d.productId (-d.quantity) st
  obtain ⟨hb1, hb2, hb3, hb4⟩ := uod_frame_rest d.id
    ⟨none, none, none, none, none, some "completed"⟩ (updateProductStock d.productId (-d.quantity) st).2
  have hA2 : ((updateProductStock d.productId (-d.quantity) st).2).outputDetails = st.outputDetails := ha2
  have hndA : (((updateProductStock d.productId (-d.quantity) st).2).outputDetails.map OutputDetail.id).Nodup := by
    rw [hA2]; exact hndd
  have hdA : mapGet OutputDetail.id d.id ((updateProductStock d.productId (-d.quantity) st).2).outputDetails = some d := by
    rw [hA2]; exact hd0
  refine ⟨?_, ?_, ?_, ?_, ?_⟩
  · show mapSet InventoryMovement.id
      ⟨((updateOutputDetail d.id ⟨none, none, none, none, none, some "completed"⟩
        (updateProductStock d.productId (-d.quantity) st).2).2).inventoryMovementId, d.productId, -d.quantity, d.unit, "output", some oid,
        some "output", some ("Salida " ++ code), some 1, now⟩
      ((updateOutputDetail d.id ⟨none, none, none, none, none, some "completed"⟩
        (updateProductStock d.productId (-d.quantity) st).2).2).inventoryMovements = _
    rw [hb2, ha1, hb4, ha4]
    apply mapSet_append
    intro y hy
    exact Nat.ne_of_lt (hfr y hy)
  · show ((updateOutputDetail d.id ⟨none, none, none, none, none, some "completed"⟩
        (updateProductStock d.productId (-d.quantity) st).2).2).products = _
    rw [hb1]
    exact ups_products_map d.productId (-d.quantity) st hndp
  · show ((updateOutputDetail d.id ⟨none, none, none, none, none, some "completed"⟩
        (updateProductStock d.productId (-d.quantity) st).2).2).outputDetails = _
    rw [uod_details_map d.id (updateProductStock d.productId (-d.quantity) st).2 d hndA hdA, hA2]
  · show ((updateOutputDetail d.id ⟨none, none, none, none, none, some "completed"⟩
        (updateProductStock d.productId (-d.quantity) st).2).2).outputs = _
    rw [hb3, ha3]
  · show ((updateOutputDetail d.id ⟨none, none, none, none, none, some "completed"⟩
        (updateProductStock d.productId (-d.quantity) st).2).2).inventoryMovementId + 1 = st.inventoryMovementId + 1
    rw [hb4, ha4]

theorem pod_spec (oid : Nat) (code : String) (now : Int) :
    ∀ (ds : List OutputDetail) (st : Store),
      (st.products.map Product.id).Nodup →
      (st.outputDetails.map OutputDetail.id).Nodup →
      (∀ m ∈ st.inventoryMovements, m.id < st.inventoryMovementId) →
      (∀ e ∈ ds, mapGet OutputDetail.id e.id st.outputDetails = some e) →
      (ds.map OutputDetail.id).Nodup →
      (∃ new, (processOutputCompletion oid code ds now st).inventoryMovements =
          st.inventoryMovements ++ new ∧
        new.map (fun m => (m.productId, m.quantity, m.movementType, m.referenceId,
            m.referenceType)) =
          (ds.filter (fun e => !(e.status == "completed"))).map
            (fun e => (e.productId, -e.quantity, "output",
              (some oid : Option Nat), (some "output" : Option String)))) ∧
      (processOutputCompletion oid code ds now st).products =
        st.products.map (fun p =>
          { p with currentStock := p.currentStock - outSum p.id ds }) ∧
      (processOutputCompletion oid code ds now st).outputDetails =
        st.outputDetails.map (fun x =>
          if OutputDetail.id x ∈ (ds.filter (fun e => !(e.status == "completed"))).map
              OutputDetail.id then
            { x with status := "completed" } else x) ∧
      (processOutputCompletion oid code ds now st).outputs = st.outputs := by
  intro ds
  induction ds with
  | nil =>
    intro st hndp hndd hfr hds hdsnd
    refine ⟨⟨[], by simp [processOutputCompletion], by simp⟩, ?_, ?_, rfl⟩
    · show st.products = _
      symm
      have hid : ∀ p ∈ st.products,
          ({ p with currentStock := p.currentStock - outSum p.id ([] : List OutputDetail) } :
            Product) = p := by
        intro p _
        rw [outSum_nil, Int.sub_zero]
      rw [List.map_congr_left hid]
      simp
    · show st.outputDetails = _
      symm
      have hid : ∀ x ∈ st.outputDetails,
          (if OutputDetail.id x ∈
              ((([] : List OutputDetail)).filter (fun e => !(e.status == "completed"))).map
                OutputDetail.id then
            { x with status := "completed" } else x) = x := by
        intro x _
        rw [if_neg (by simp)]
      rw [List.map_congr_left hid]
      simp
  | cons d rest ih =>
    intro st hndp hndd hfr hds hdsnd
    have hd0 : mapGet OutputDetail.id d.id st.outputDetails = some d :=
      hds d (List.mem_cons_self d rest)
    have hdsnd2 : d.id ∉ rest.map OutputDetail.id ∧ (rest.map OutputDetail.id).Nodup := by
      simpa using hdsnd
    cases hst : d.status == "completed" with
    | true =>
      have hfil : (d :: rest).filter (fun e => !(e.status == "completed")) =
          rest.filter (fun e => !(e.status == "completed")) := by
        rw [List.filter_cons, if_neg (by simp [hst])]
      simp only [processOutputCompletion, hst, Bool.not_true, Bool.false_eq_true, if_false]
      obtain ⟨⟨new, hm1, hm2⟩, hp2, hd2, ho2⟩ :=
        ih st hndp hndd hfr (fun e he => hds e (List.mem_cons_of_mem d he)) hdsnd2.2
      refine ⟨⟨new, hm1, ?_⟩, ?_, ?_, ho2⟩
      · rw [hfil, hm2]
      · rw [hp2]
        apply List.map_congr_left
        intro p _
        apply product_stock_congr
        rw [outSum_cons, if_neg (by simp [hst]), Int.zero_add]
      · rw [hfil, hd2]
    | false =>
      have hfil : (d :: rest).filter (fun e => !(e.status == "completed")) =
          d :: rest.filter (fun e => !(e.status == "completed")) := by
        rw [List.filter_cons, if_pos (by simp [hst])]
      simp only [processOutputCompletion, hst, Bool.not_false, if_true]
      obtain ⟨hs1, hs2, hs3, hs4, hs5⟩ := pod_step oid code now d st hndp hndd hfr hd0
      have hgd : ∀ x : Product, Product.id (if Product.id x == d.productId then
          { x with currentStock := x.currentStock + -d.quantity } else x) =
          Product.id x := by
        intro x
        by_cases h : (Product.id x == d.productId) = true <;> simp [h]
      have hhd : ∀ x : OutputDetail, OutputDetail.id (if OutputDetail.id x == d.id then
          { x with status := "completed" } else x) = OutputDetail.id x := by
        intro x
        by_cases h : (OutputDetail.id x == d.id) = true <;> simp [h]
      have hndpC : (((createInventoryMovement ⟨d.productId, -d.quantity, d.unit, "output", some oid, some "output",
        some ("Salida " ++ code), some 1⟩ now
      (updateOutputDetail d.id ⟨none, none, none, none, none, some "completed"⟩
        (updateProductStock d.productId (-d.quantity) st).2).2).2).products.map Product.id).Nodup := by
        rw [hs2, map_key_of_preserving Product.id _ hgd]
        exact hndp
      have hnddC : (((createInventoryMovement ⟨d.productId, -d.quantity, d.unit, "output", some oid, some "output",
        some ("Salida " ++ code), some 1⟩ now
      (updateOutputDetail d.id ⟨none, none, none, none, none, some "completed"⟩
        (updateProductStock d.productId (-d.quantity) st).2).2).2).outputDetails.map OutputDetail.id).Nodup := by
        rw [hs3, map_key_of_preserving OutputDetail.id _ hhd]
        exact hndd
      have hfrC : ∀ m ∈ ((createInventoryMovement ⟨d.productId, -d.quantity, d.unit, "output", some oid, some "output",
        some ("Salida " ++ code), some 1⟩ now
      (updateOutputDetail d.id ⟨none, none, none, none, none, some "completed"⟩
        (updateProductStock d.productId (-d.quantity) st).2).2).2).inventoryMovements,
          m.id < ((createInventoryMovement ⟨d.productId, -d.quantity, d.unit, "output", some oid, some "output",
        some ("Salida " ++ code), some 1⟩ now
      (updateOutputDetail d.id ⟨none, none, none, none, none, some "completed"⟩
        (updateProductStock d.productId (-d.quantity) st).2).2).2).inventoryMovementId := by
        rw [hs1, hs5]
        intro m hm
        rcases List.mem_append.mp hm with hm | hm
        · exact Nat.lt_succ_of_lt (hfr m hm)
        · rw [List.mem_singleton] at hm
          subst hm
          exact Nat.lt_succ_self _
      have hdsC : ∀ e ∈ rest, mapGet OutputDetail.id e.id ((createInventoryMovement ⟨d.productId, -d.quantity, d.unit, "output", some oid, some "output",
        some ("Salida " ++ code), some 1⟩ now
      (updateOutputDetail d.id ⟨none, none, none, none, none, some "completed"⟩
        (updateProductStock d.productId (-d.quantity) st).2).2).2).outputDetails = some e := by
        intro e he
        rw [hs3, mapGet_map OutputDetail.id _ hhd, hds e (List.mem_cons_of_mem d he)]
        have hne : (OutputDetail.id e == d.id) = false := by
          simp only [beq_eq_false_iff_ne, ne_eq]
          intro hh
          exact hdsnd2.1 (hh ▸ List.mem_map.mpr ⟨e, he, rfl⟩)
        simp only [Option.map_some']
        rw [if_neg (by simp [hne])]
      obtain ⟨⟨new, hm1, hm2⟩, hp2, hd2, ho2⟩ := ih ((createInventoryMovement ⟨d.productId, -d.quantity, d.unit, "output", some oid, some "output",
        some ("Salida " ++ code), some 1⟩ now
      (updateOutputDetail d.id ⟨none, none, none, none, none, some "completed"⟩
        (updateProductStock d.productId (-d.quantity) st).2).2).2) hndpC hnddC hfrC hdsC hdsnd2.2
      have hpend_sub : ∀ i ∈ (rest.filter (fun e => !(e.status == "completed"))).map
          OutputDetail.id, i ∈ rest.map OutputDetail.id := by
        intro i hi
        rcases List.mem_map.mp hi with ⟨z, hz, rfl⟩
        exact List.mem_map.mpr ⟨z, List.mem_of_mem_filter hz, rfl⟩
      refine ⟨⟨⟨st.inventoryMovementId, d.productId, -d.quantity, d.unit, "output", some oid,
        some "output", some ("Salida " ++ code), some 1, now⟩ :: new, ?_, ?_⟩, ?_, ?_, ?_⟩
      · rw [hm1, hs1]
        simp
      · rw [hfil, List.map_cons, List.map_cons, hm2]
      · rw [hp2, hs2, List.map_map]
        apply List.map_congr_left
        intro p _
        by_cases h : (Product.id p == d.productId) = true
        · simp only [Function.comp_apply, h, if_true]
          apply product_stock_congr
          rw [outSum_cons, if_pos ?hc]
          case hc =>
            simp only [Bool.and_eq_true, Bool.not_eq_true', hst, beq_iff_eq]
            exact ⟨by trivial, (eq_of_beq h).symm⟩
          omega
        · simp only [Function.comp_apply, h, Bool.false_eq_true, if_false]
          apply product_stock_congr
          rw [outSum_cons, if_neg ?hc, Int.zero_add]
          case hc =>
            simp only [Bool.and_eq_true, beq_iff_eq, not_and]
            intro _ hh
            rw [beq_iff_eq] at h
            exact h hh.symm
      · rw [hd2, hs3, List.map_map, hfil]
        apply List.map_congr_left
        intro x _
        rw [List.map_cons]
        by_cases h : (OutputDetail.id x == d.id) = true
        · have hxid : OutputDetail.id x = d.id := eq_of_beq h
          have hnotin : OutputDetail.id x ∉
              (rest.filter (fun e => !(e.status == "completed"))).map OutputDetail.id := by
            intro hin
            exact hdsnd2.1 (hxid ▸ hpend_sub _ hin)
          simp only [Function.comp_apply, h, if_true]
          rw [if_neg hnotin, if_pos (by rw [hxid]; exact List.mem_cons_self _ _)]
        · have hxid : OutputDetail.id x ≠ d.id := by
            rw [beq_iff_eq] at h
            exact h
          simp only [Function.comp_apply, h, Bool.false_eq_true, if_false]
          by_cases h2 : OutputDetail.id x ∈
              (rest.filter (fun e => !(e.status == "completed"))).map OutputDetail.id
          · rw [if_pos h2, if_pos (List.mem_cons_of_mem _ h2)]
          · rw [if_neg h2, if_neg ?hc2]
            case hc2 =>
              intro hin
              rcases List.mem_cons.mp hin with hin | hin
              · exact hxid hin
              · exact h2 hin
      · rw [ho2, hs4]

/-- C8 (amended): when PUT /api/outputs/:id changes an existing output's
status to "completed" from a non-"completed" status, then for each of the
output's details whose status is not "completed" the referenced product's
currentStock is decremented by the detail's quantity (products referenced
by several such details are decremented by the total), each such detail's
status is set to "completed", and one inventory-movement record with the
negated quantity is created per such detail; details already marked
"completed" are not processed.  (The at-most-once clause of the original
claim fails: see the counterexample.) -/
theorem output_completion_spec (id : Nat) (body : Body) (now : Int) (st : Store)
    (o : Output) (v : PartialOutput)
    (hb : parsePartialOutput body = some v)
    (ho : getOutput id st = some o)
    (hno : ¬ o.status = "completed")
    (hvs : v.status = some "completed")
    (hndp : (st.products.map Product.id).Nodup)
    (hndd : (st.outputDetails.map OutputDetail.id).Nodup)
    (hfresh : FreshMv st) :
    (putOutput id body now st).1 = 200 ∧
    (∃ new, (putOutput id body now st).2.inventoryMovements =
        st.inventoryMovements ++ new ∧
      new.map (fun m => (m.productId, m.quantity, m.movementType, m.referenceId,
          m.referenceType)) =
        ((getOutputDetails id st).filter (fun e => !(e.status == "completed"))).map
          (fun e => (e.productId, -e.quantity, "output",
            (some id : Option Nat), (some "output" : Option String)))) ∧
    (putOutput id body now st).2.products =
      st.products.map (fun p =>
        { p with currentStock := p.currentStock - outSum p.id (getOutputDetails id st) }) ∧
    (putOutput id body now st).2.outputDetails =
      st.outputDetails.map (fun x =>
        if x.outputId == id && !(x.status == "completed") then
          { x with status := "completed" } else x) ∧
    getOutput id (putOutput id body now st).2 = some (patchOutput o v) ∧
    (patchOutput o v).status = "completed" := by
  have hcond : (v.status == some "completed" && !(o.status == "completed")) = true := by
    simp [hvs, hno]
  have hds : ∀ e ∈ getOutputDetails id st,
      mapGet OutputDetail.id e.id st.outputDetails = some e := by
    intro e he
    exact mapGet_of_nodup_mem OutputDetail.id e st.outputDetails hndd
      (List.mem_of_mem_filter he)
  have hdsnd : ((getOutputDetails id st).map OutputDetail.id).Nodup :=
    hndd.sublist ((List.filter_sublist st.outputDetails).map OutputDetail.id)
  obtain ⟨⟨new, hm1, hm2⟩, hp2, hd2, ho2⟩ :=
    pod_spec id o.code now (getOutputDetails id st) st hndp hndd hfresh hds hdsnd
  have hmg : mapGet Output.id id
      (processOutputCompletion id o.code (getOutputDetails id st) now st).outputs =
      some o := by
    rw [ho2]
    exact ho
  have hoid : Output.id o = id := mapGet_key _ _ _ _ ho
  simp only [putOutput, hb, ho, hcond, if_true, updateOutput, hmg,
    createSystemActivity]
  refine ⟨trivial, ⟨new, ?_, hm2⟩, hp2, ?_, ?_, ?_⟩
  · exact hm1
  · rw [hd2]
    apply List.map_congr_left
    intro x hx
    by_cases hpred : (x.outputId == id && !(x.status == "completed")) = true
    · have hand := hpred
      rw [Bool.and_eq_true] at hand
      have hxd : x ∈ getOutputDetails id st := List.mem_filter.mpr ⟨hx, hand.1⟩
      have hxp : x ∈ (getOutputDetails id st).filter
          (fun e => !(e.status == "completed")) := List.mem_filter.mpr ⟨hxd, hand.2⟩
      rw [if_pos (List.mem_map.mpr ⟨x, hxp, rfl⟩), if_pos hpred]
    · rw [if_neg ?hnin, if_neg hpred]
      case hnin =>
        intro hin
        rcases List.mem_map.mp hin with ⟨z, hz, hzx⟩
        have hz1 : z ∈ getOutputDetails id st := List.mem_of_mem_filter hz
        have hz2 : z ∈ st.outputDetails := List.mem_of_mem_filter hz1
        have hzex : z = x := List.inj_on_of_nodup_map hndd hz2 hx hzx
        subst hzex
        apply hpred
        rw [Bool.and_eq_true]
        have hf1 := List.of_mem_filter hz1
        have hf2 := List.of_mem_filter hz
        exact ⟨hf1, hf2⟩
  · show mapGet Output.id id (mapSet Output.id (patchOutput o v) _) = _
    rw [show id = Output.id (patchOutput o v) from hoid.symm]
    exact mapGet_mapSet_self Output.id _ _
  · show (patchOutput o v).status = "completed"
    simp [patchOutput, hvs]

/-- C8 counterexample: a detail created with status "pending" while its
output is already "completed" is decremented at creation AND again when the
output is re-completed, so its stock decrement happens twice.  On the
seeded store: output 1 is "completed" and product 4 has stock 60; creating
a pending detail of quantity 5 decrements to 55; setting the output's
status to "pending" and then back to "completed" processes the same detail
(still "pending", the only unprocessed detail of output 1) a second time,
leaving stock 50 - a total decrement of 10 for one detail of quantity 5. -/
theorem output_completion_double_decrement_counterexample :
    (getOutput 1 (initStore 0)).map Output.status = some "completed" ∧
    (getProduct 4 (initStore 0)).map Product.currentStock = some 60 ∧
    (getProduct 4 (postOutputDetails 1 [("productId", .num 4), ("quantity", .num 5),
      ("unit", .str "metro"), ("status", .str "pending")] 0 (initStore 0)).2).map Product.currentStock = some 55 ∧
    ((putOutput 1 [("status", .str "pending")] 0
      (postOutputDetails 1 [("productId", .num 4), ("quantity", .num 5),
      ("unit", .str "metro"), ("status", .str "pending")] 0 (initStore 0)).2).2).outputDetails.filter
        (fun d => d.outputId == 1 && !(d.status == "completed")) =
      [⟨5, 1, 4, 5, "metro", none, "pending"⟩] ∧
    (getProduct 4 (putOutput 1 [("status", .str "completed")] 0
      (putOutput 1 [("status", .str "pending")] 0
      (postOutputDetails 1 [("productId", .num 4), ("quantity", .num 5),
      ("unit", .str "metro"), ("status", .str "pending")] 0 (initStore 0)).2).2).2).map Product.currentStock = some 50 ∧
    (mapGet OutputDetail.id 5 ((putOutput 1 [("status", .str "completed")] 0
      (putOutput 1 [("status", .str "pending")] 0
      (postOutputDetails 1 [("productId", .num 4), ("quantity", .num 5),
      ("unit", .str "metro"), ("status", .str "pending")] 0 (initStore 0)).2).2).2).outputDetails).map OutputDetail.status =
      some "completed" := by
  decide

/-- Witness for C8 (amended): completing the pending output 3 of the seeded
store (it has two pending details). -/
theorem output_completion_spec_witness :
    parsePartialOutput [("status", .str "completed")] =
      some ⟨none, none, none, some "completed", none, none, none⟩ ∧
    getOutput 3 (initStore 0) =
      some ⟨3, "SAL-2023-003", "Departamento de Mantenimiento", "department", "pending",
        some "Para reparaciones generales", some 1, none, 0⟩ ∧
    ((initStore 0).products.map Product.id).Nodup ∧
    ((initStore 0).outputDetails.map OutputDetail.id).Nodup ∧
    FreshMv (initStore 0) ∧
    (putOutput 3 [("status", .str "completed")] 0 (initStore 0)).1 = 200 ∧
    getOutput 3 (putOutput 3 [("status", .str "completed")] 0 (initStore 0)).2 =
      some (patchOutput
        ⟨3, "SAL-2023-003", "Departamento de Mantenimiento", "department", "pending",
          some "Para reparaciones generales", some 1, none, 0⟩
        ⟨none, none, none, some "completed", none, none, none⟩) ∧
    (patchOutput
        ⟨3, "SAL-2023-003", "Departamento de Mantenimiento", "department", "pending",
          some "Para reparaciones generales", some 1, none, 0⟩
        ⟨none, none, none, some "completed", none, none, none⟩).status = "completed" := by
  have h1 : parsePartialOutput [("status", .str "completed")] =
      some ⟨none, none, none, some "completed", none, none, none⟩ := by rfl
  have h2 : getOutput 3 (initStore 0) =
      some ⟨3, "SAL-2023-003", "Departamento de Mantenimiento", "department", "pending",
        some "Para reparaciones generales", some 1, none, 0⟩ := by rfl
  have h3 : ((initStore 0).products.map Product.id).Nodup := by decide
  have h4 : ((initStore 0).outputDetails.map OutputDetail.id).Nodup := by decide
  have h5 : FreshMv (initStore 0) := by decide
  have hmain := output_completion_spec 3 [("status", .str "completed")] 0 (initStore 0)
    _ _ h1 h2 (by decide) rfl h3 h4 h5
  exact ⟨h1, h2, h3, h4, h5, hmain.1, hmain.2.2.2.2.1, hmain.2.2.2.2.2⟩

end LogicSF
